import Mathlib

/-!
# Houdini Engine runtime: asset instances and asset inputs

A shallow embedding of `HoudiniAssetInstance.cpp` and `HoudiniAssetInput.cpp`.

* Object state is a structure; a member function is a function from the state
  before the call to a run record (`AssetRun`, `InputRun`): the state after
  the call, the session calls it issued, in order, and how the call ended.
* The engine session is an external service.  Its answers are data: a
  `HapiSession` for the asset instance, a reply record for every operation of
  an asset input.  Theorems quantify over all answers.
* A failed `check`, an array index out of range and a null pointer that is
  dereferenced stop the program: the run ends `aborted`.
* `float` values are rationals.
-/

namespace Houdini

/-! ## Common types -/

/-- How a call ended.  `aborted`: a failed `check` or an array range check
stopped the program.  `polling`: the status replies of the session ran out
while a poll loop was still waiting for a terminal status. -/
inductive Completion (α : Type) where
  | returned (value : α)
  | aborted
  | polling
deriving DecidableEq, Repr

/-- Three-component vector (`FVector`). -/
structure FVector where
  X : ℚ
  Y : ℚ
  Z : ℚ
deriving DecidableEq, Repr

/-- Rotation quaternion (`FQuat`). -/
structure FQuat where
  X : ℚ
  Y : ℚ
  Z : ℚ
  W : ℚ
deriving DecidableEq, Repr

/-- Rotation, translation and scale of an object (`FTransform`). -/
structure FTransform where
  Rotation : FQuat
  Translation : FVector
  Scale3D : FVector
deriving DecidableEq, Repr

/-- The value of `FTransform::Identity`. -/
def FTransform.Identity : FTransform :=
  { Rotation := ⟨0, 0, 0, 1⟩, Translation := ⟨0, 0, 0⟩, Scale3D := ⟨1, 1, 1⟩ }

/-- Modelled from the spec: `FHoudiniEngineUtils::IsValidAssetId` is defined
outside these sources; the spec fixes -1 as the one sentinel that means
"not connected / invalid". -/
def IsValidAssetId (AssetId : Int) : Bool := AssetId != -1

/-- Value of a 32-bit signed integer after an arithmetic step. -/
def wrapInt32 (x : Int) : Int := (x + 2147483648) % 4294967296 - 2147483648

/-- Cook states of the session (`HAPI_State`), as the integers `GetStatus`
writes. -/
def HAPI_STATE_READY : Int := 0
/-- Cook state: finished, fatal errors. -/
def HAPI_STATE_READY_WITH_FATAL_ERRORS : Int := 1
/-- Cook state: finished, cook errors. -/
def HAPI_STATE_READY_WITH_COOK_ERRORS : Int := 2
/-- Cook state: a cook is about to start. -/
def HAPI_STATE_STARTING_COOK : Int := 3

/-- Record filled by `GetAssetInfo` (the fields the sources read). -/
structure HAPI_AssetInfo where
  nodeId : Int
  objectCount : Int
  geoInputCount : Int
deriving DecidableEq, Repr

/-- Record filled by `GetNodeInfo` (the fields the sources read). -/
structure HAPI_NodeInfo where
  id : Int
  parmCount : Int
  parmIntValueCount : Int
  parmFloatValueCount : Int
  parmStringValueCount : Int
deriving DecidableEq, Repr

/-- Parameter types of the session (`HAPI_ParmType`), those the sources
name. -/
inductive HAPI_ParmType where
  | INT
  | TOGGLE
  | OTHER
deriving DecidableEq, Repr

/-- One parameter description (`HAPI_ParmInfo`). -/
structure HAPI_ParmInfo where
  id : Int
  nameSH : Int
  invisible : Bool
  type : HAPI_ParmType
  choiceCount : Int
deriving DecidableEq, Repr

/-- One object description (`HAPI_ObjectInfo`). -/
structure HAPI_ObjectInfo where
  id : Int
  nameSH : Int
  geoCount : Int
deriving DecidableEq, Repr

/-- One geo description (`HAPI_GeoInfo`). -/
structure HAPI_GeoInfo where
  id : Int
  isDisplayGeo : Bool
  partCount : Int
deriving DecidableEq, Repr

/-- One part description (`HAPI_PartInfo`). -/
structure HAPI_PartInfo where
  id : Int
  nameSH : Int
deriving DecidableEq, Repr

/-- A call on the engine session, with the arguments the caller passed.  The
calls that create nodes also carry what the session answered, so that the
nodes alive in the session can be read off a call sequence. -/
inductive HapiCall where
  | GetAssetNames
  | GetString (handle : Int)
  | InstantiateAsset (name : String) (created : Option Nat)
  | GetStatus
  | CookAsset (AssetId : Int)
  | DestroyAsset (AssetId : Int)
  | GetAssetInfo (AssetId : Int)
  | GetNodeInfo (NodeId : Int)
  | GetParameters (NodeId : Int) (count : Int)
  | GetParmValues (NodeId : Int)
  | GetPresetBufLength (NodeId : Int)
  | GetPreset (NodeId : Int) (length : Int)
  | GetAssetTransform (AssetId : Int)
  | SetAssetTransform (AssetId : Int)
  | GetObjects (AssetId : Int) (count : Int)
  | GetObjectTransforms (AssetId : Int) (count : Int)
  | GetGeoInfo (AssetId : Int) (ObjectId : Int) (GeoIdx : Int)
  | GetPartInfo (AssetId : Int) (ObjectId : Int) (GeoId : Int) (PartIdx : Int)
  | GetParmName (NodeId : Int) (ParmId : Int)
  | DisconnectAsset (HostAssetId : Int) (InputIndex : Int)
  | ConnectAsset (SourceId : Int) (SourceIndex : Int) (HostAssetId : Int) (InputIndex : Int)
  | CreateAndConnectAsset (HostAssetId : Int) (InputIndex : Int) (created : List Int)
  | CreateAndConnectGeometry (HostAssetId : Int) (InputIndex : Int)
      (InputObjects : List (Option Nat)) (created : List Int)
  | CreateCurve (created : Option Int)
  | CreateCurveAsset (HostAssetId : Int) (CurveId : Int)
  | GetNodeId (AssetId : Int)
  | GetCurveData (NodeId : Int)
  | QueryNodeInput (NodeId : Int) (InputIndex : Int)
  | SetParmIntValue (NodeId : Int) (value : Nat)
  | UploadCurveParameter (name : String)
deriving DecidableEq, Repr

/-- What a `const` helper did: the session calls it issued and what it
handed back; `none` when a failed check stopped the program inside it. -/
structure Query (α : Type) where
  calls : List HapiCall
  result : Option α

/-- Range check of `TArray::operator[]`: the engine's array stops the program
on an index outside `0 .. Num-1`. -/
def RangeCheck (Index : Int) (ArrayNum : Nat) : Bool :=
  decide (0 ≤ Index) && decide (Index < (ArrayNum : Int))

/-! ## Asset instance (`HoudiniAssetInstance.cpp`) -/

/-- Parameter handle built from a node id and a parameter description. -/
structure FHoudiniParameterObject where
  NodeId : Int
  ParmInfo : HAPI_ParmInfo
deriving DecidableEq, Repr

/-- Declared input of an asset. -/
structure FHoudiniInputObject where
  InputIdx : Int
deriving DecidableEq, Repr

/-- One geometry part of a cooked asset. -/
structure FHoudiniGeoPartObject where
  ObjectTransform : FTransform
  ObjectName : String
  PartName : String
  AssetId : Int
  ObjectId : Int
  GeoId : Int
  PartId : Int
deriving DecidableEq, Repr

/-- Answers of the engine session to the calls of an asset instance.  A call
that does not return `HAPI_RESULT_SUCCESS` answers `none` (or `false`).
`Status` lists the answers of the successive `GetStatus` calls.  Ids the
session hands out for new assets are natural numbers. -/
structure HapiSession where
  IsInitialized : Bool
  HasValidId : Int → Bool
  GetAssetNames : Nat → Option (List Int)
  ToStdString : Int → Option String
  InstantiateAsset : String → Option Nat
  CookAsset : Int → Bool
  Status : List (Option Int)
  GetAssetInfo : Int → Option HAPI_AssetInfo
  GetNodeInfo : Int → Option HAPI_NodeInfo
  GetParameters : Int → Int → Option (Nat → HAPI_ParmInfo)
  GetPresetBufLength : Int → Option Int
  GetPreset : Int → Int → Option (List Int)
  GetAssetTransform : Int → Option FTransform
  GetObjects : Int → Int → Option (Nat → HAPI_ObjectInfo)
  GetObjectTransforms : Int → Int → Option (Nat → FTransform)
  GetGeoInfo : Int → Int → Int → Option HAPI_GeoInfo
  GetPartInfo : Int → Int → Int → Int → Option HAPI_PartInfo
  GetString : Int → Option String
  GetParmName : Int → HAPI_ParmInfo → Option String

/-- Fields of `UHoudiniAssetInstance`. -/
structure UHoudiniAssetInstance where
  HoudiniAsset : Option Nat
  InstantiatedAssetName : String
  AssetId : Int
  AssetCookCount : Int
  Transform : FTransform
  DefaultPresetBuffer : List Int
  ParameterObjects : List (String × FHoudiniParameterObject)
  InputObjects : List FHoudiniInputObject
  GeoPartObjects : List FHoudiniGeoPartObject
deriving DecidableEq, Repr

/-- What a call on an asset instance did.  `withErrors` is the caller's error
flag afterwards (`none`: the caller passed a null pointer).  When the call was
`aborted`, `state` holds the updates completed before the aborting step. -/
structure AssetRun where
  state : UHoudiniAssetInstance
  calls : List HapiCall
  completion : Completion Bool
  withErrors : Option Bool

namespace UHoudiniAssetInstance

/-- `UHoudiniAssetInstance::IsValidAssetInstance`. -/
def IsValidAssetInstance (I : UHoudiniAssetInstance) : Bool :=
  IsValidAssetId I.AssetId

/-- `UHoudiniAssetInstance::GetAssetCookCount`. -/
def GetAssetCookCount (I : UHoudiniAssetInstance) : Int := I.AssetCookCount

/-- `UHoudiniAssetInstance::HapiGetAssetInfo`; `none` for `false`. -/
def HapiGetAssetInfo (S : HapiSession) (I : UHoudiniAssetInstance) :
    List HapiCall × Option HAPI_AssetInfo :=
  if !I.IsValidAssetInstance then ([], none)
  else ([HapiCall.GetAssetInfo I.AssetId], S.GetAssetInfo I.AssetId)

/-- `UHoudiniAssetInstance::HapiGetNodeId`. -/
def HapiGetNodeId (S : HapiSession) (I : UHoudiniAssetInstance) : List HapiCall × Int :=
  match HapiGetAssetInfo S I with
  | (calls, none) => (calls, -1)
  | (calls, some AssetInfo) => (calls, AssetInfo.nodeId)

/-- `UHoudiniAssetInstance::HapiGetNodeInfo`; `none` for `false`. -/
def HapiGetNodeInfo (S : HapiSession) (I : UHoudiniAssetInstance) :
    List HapiCall × Option HAPI_NodeInfo :=
  let n := HapiGetNodeId S I
  if n.2 < 0 then (n.1, none)
  else (n.1 ++ [HapiCall.GetNodeInfo n.2], S.GetNodeInfo n.2)

/-- `UHoudiniAssetInstance::HapiGetParmInfos`: the returned flag and the
array.  The array is emptied on entry and never resized before element 0 is
addressed. -/
def HapiGetParmInfos (S : HapiSession) (I : UHoudiniAssetInstance) :
    Query (Bool × List HAPI_ParmInfo) :=
  let ParmInfos : List HAPI_ParmInfo := []
  if !I.IsValidAssetInstance then ⟨[], some (false, ParmInfos)⟩
  else
    match HapiGetNodeInfo S I with
    | (calls, none) => ⟨calls, some (false, ParmInfos)⟩
    | (calls, some NodeInfo) =>
      if NodeInfo.parmCount > 0 then
        if RangeCheck 0 ParmInfos.length then
          match S.GetParameters NodeInfo.id NodeInfo.parmCount with
          | none =>
            ⟨calls ++ [HapiCall.GetParameters NodeInfo.id NodeInfo.parmCount],
              some (false, ParmInfos)⟩
          | some filled =>
            ⟨calls ++ [HapiCall.GetParameters NodeInfo.id NodeInfo.parmCount],
              some (true, (List.range ParmInfos.length).map filled)⟩
        else ⟨calls, none⟩
      else ⟨calls, some (true, ParmInfos)⟩

/-- `TMap::Add`: a key already present gets the new value. -/
def MapAdd (m : List (String × FHoudiniParameterObject)) (k : String)
    (v : FHoudiniParameterObject) : List (String × FHoudiniParameterObject) :=
  if m.any (fun e => e.1 == k) then m.map (fun e => if e.1 == k then (k, v) else e)
  else m ++ [(k, v)]

/-- Loop of `GetParameterObjects` over the parameter descriptions. -/
def AddParameterObjects (S : HapiSession) (NodeId : Int) :
    List HAPI_ParmInfo → List (String × FHoudiniParameterObject) →
    List HapiCall × List (String × FHoudiniParameterObject)
  | [], m => ([], m)
  | ParmInfo :: rest, m =>
    let m1 := match S.GetParmName NodeId ParmInfo with
      | some ParameterName => MapAdd m ParameterName ⟨NodeId, ParmInfo⟩
      | none => m
    let r := AddParameterObjects S NodeId rest m1
    (HapiCall.GetParmName NodeId ParmInfo.id :: r.1, r.2)

/-- `UHoudiniAssetInstance::GetParameterObjects`: the returned flag and the
map, which is added to, not emptied. -/
def GetParameterObjects (S : HapiSession) (I : UHoudiniAssetInstance)
    (InParameterObjects : List (String × FHoudiniParameterObject)) :
    Query (Bool × List (String × FHoudiniParameterObject)) :=
  match HapiGetParmInfos S I with
  | ⟨calls, none⟩ => ⟨calls, none⟩
  | ⟨calls, some (false, _)⟩ => ⟨calls, some (false, InParameterObjects)⟩
  | ⟨calls, some (true, ParmInfos)⟩ =>
    let n := HapiGetNodeId S I
    if n.2 < 0 then ⟨calls ++ n.1, some (false, InParameterObjects)⟩
    else
      let r := AddParameterObjects S n.2 ParmInfos InParameterObjects
      ⟨calls ++ n.1 ++ r.1, some (true, r.2)⟩

/-- `UHoudiniAssetInstance::GetInputObjects`: the returned flag and the
array. -/
def GetInputObjects (S : HapiSession) (I : UHoudiniAssetInstance) :
    List HapiCall × Bool × List FHoudiniInputObject :=
  match HapiGetAssetInfo S I with
  | (calls, none) => (calls, false, [])
  | (calls, some AssetInfo) =>
    if AssetInfo.geoInputCount > 0 then
      (calls, true,
        (List.range AssetInfo.geoInputCount.toNat).map (fun InputIdx => ⟨(InputIdx : Int)⟩))
    else (calls, true, [])

/-- `UHoudiniAssetInstance::HapiGetObjectInfos`: the returned flag and the
array. -/
def HapiGetObjectInfos (S : HapiSession) (I : UHoudiniAssetInstance) :
    List HapiCall × Bool × List HAPI_ObjectInfo :=
  if !I.IsValidAssetInstance then ([], false, [])
  else
    match HapiGetAssetInfo S I with
    | (calls, none) => (calls, false, [])
    | (calls, some AssetInfo) =>
      if AssetInfo.objectCount > 0 then
        match S.GetObjects I.AssetId AssetInfo.objectCount with
        | none => (calls ++ [HapiCall.GetObjects I.AssetId AssetInfo.objectCount], false, [])
        | some filled =>
          (calls ++ [HapiCall.GetObjects I.AssetId AssetInfo.objectCount], true,
            (List.range AssetInfo.objectCount.toNat).map filled)
      else (calls, true, [])

/-- `UHoudiniAssetInstance::HapiGetObjectTransforms`: the returned flag and
the array. -/
def HapiGetObjectTransforms (S : HapiSession) (I : UHoudiniAssetInstance) :
    List HapiCall × Bool × List FTransform :=
  if !I.IsValidAssetInstance then ([], false, [])
  else
    match HapiGetAssetInfo S I with
    | (calls, none) => (calls, false, [])
    | (calls, some AssetInfo) =>
      if AssetInfo.objectCount > 0 then
        match S.GetObjectTransforms I.AssetId AssetInfo.objectCount with
        | none =>
          (calls ++ [HapiCall.GetObjectTransforms I.AssetId AssetInfo.objectCount], false, [])
        | some filled =>
          (calls ++ [HapiCall.GetObjectTransforms I.AssetId AssetInfo.objectCount], true,
            (List.range AssetInfo.objectCount.toNat).map filled)
      else (calls, true, [])

/-- `UHoudiniAssetInstance::HapiGetAssetTransform`: the returned flag and the
transform, which is the identity unless the session answered. -/
def HapiGetAssetTransform (S : HapiSession) (I : UHoudiniAssetInstance) :
    List HapiCall × Bool × FTransform :=
  if !I.IsValidAssetInstance then ([], false, FTransform.Identity)
  else
    match S.GetAssetTransform I.AssetId with
    | none => ([HapiCall.GetAssetTransform I.AssetId], false, FTransform.Identity)
    | some t => ([HapiCall.GetAssetTransform I.AssetId], true, t)

/-- `UHoudiniAssetInstance::HapiGetGeoInfo`; `none` for `false`. -/
def HapiGetGeoInfo (S : HapiSession) (I : UHoudiniAssetInstance) (ObjectId GeoIdx : Int) :
    List HapiCall × Option HAPI_GeoInfo :=
  if !I.IsValidAssetInstance then ([], none)
  else ([HapiCall.GetGeoInfo I.AssetId ObjectId GeoIdx], S.GetGeoInfo I.AssetId ObjectId GeoIdx)

/-- `UHoudiniAssetInstance::HapiGetPartInfo`; `none` for `false`. -/
def HapiGetPartInfo (S : HapiSession) (I : UHoudiniAssetInstance) (ObjectId GeoId PartIdx : Int) :
    List HapiCall × Option HAPI_PartInfo :=
  if !I.IsValidAssetInstance then ([], none)
  else ([HapiCall.GetPartInfo I.AssetId ObjectId GeoId PartIdx],
    S.GetPartInfo I.AssetId ObjectId GeoId PartIdx)

/-- Innermost loop of `GetGeoPartObjects`: the parts `PartIdx, PartIdx+1, ...`
of one geo (`n` of them). -/
def CollectParts (S : HapiSession) (I : UHoudiniAssetInstance) (ObjectTransform : FTransform)
    (ObjectName : String) (ObjectId GeoId : Int) :
    Nat → Int → List HapiCall × List FHoudiniGeoPartObject
  | 0, _ => ([], [])
  | n + 1, PartIdx =>
    let rest := CollectParts S I ObjectTransform ObjectName ObjectId GeoId n (PartIdx + 1)
    match HapiGetPartInfo S I ObjectId GeoId PartIdx with
    | (calls, none) => (calls ++ rest.1, rest.2)
    | (calls, some PartInfo) =>
      (calls ++ [HapiCall.GetString PartInfo.nameSH] ++ rest.1,
        { ObjectTransform := ObjectTransform, ObjectName := ObjectName,
          PartName := (S.GetString PartInfo.nameSH).getD "",
          AssetId := I.AssetId, ObjectId := ObjectId, GeoId := GeoId,
          PartId := PartInfo.id } :: rest.2)

/-- Middle loop of `GetGeoPartObjects`: the geos `GeoIdx, GeoIdx+1, ...` of one
object (`n` of them). -/
def CollectGeos (S : HapiSession) (I : UHoudiniAssetInstance) (ObjectTransform : FTransform)
    (ObjectName : String) (ObjectId : Int) :
    Nat → Int → List HapiCall × List FHoudiniGeoPartObject
  | 0, _ => ([], [])
  | n + 1, GeoIdx =>
    let rest := CollectGeos S I ObjectTransform ObjectName ObjectId n (GeoIdx + 1)
    match HapiGetGeoInfo S I ObjectId GeoIdx with
    | (calls, none) => (calls ++ rest.1, rest.2)
    | (calls, some GeoInfo) =>
      if !GeoInfo.isDisplayGeo then (calls ++ rest.1, rest.2)
      else
        let parts := CollectParts S I ObjectTransform ObjectName ObjectId GeoInfo.id
          GeoInfo.partCount.toNat 0
        (calls ++ parts.1 ++ rest.1, parts.2 ++ rest.2)

/-- Outer loop of `GetGeoPartObjects` over the objects and their transforms. -/
def CollectObjects (S : HapiSession) (I : UHoudiniAssetInstance) :
    List (HAPI_ObjectInfo × FTransform) → List HapiCall × List FHoudiniGeoPartObject
  | [] => ([], [])
  | (ObjectInfo, ObjectTransform) :: rest =>
    let geos := CollectGeos S I ObjectTransform ((S.GetString ObjectInfo.nameSH).getD "")
      ObjectInfo.id ObjectInfo.geoCount.toNat 0
    let r := CollectObjects S I rest
    (HapiCall.GetString ObjectInfo.nameSH :: geos.1 ++ r.1, geos.2 ++ r.2)

/-- `UHoudiniAssetInstance::GetGeoPartObjects`: the returned flag and the
array. -/
def GetGeoPartObjects (S : HapiSession) (I : UHoudiniAssetInstance) :
    Query (Bool × List FHoudiniGeoPartObject) :=
  if !I.IsValidAssetInstance then ⟨[], some (false, [])⟩
  else
    match HapiGetObjectInfos S I with
    | (c1, false, _) => ⟨c1, some (false, [])⟩
    | (c1, true, ObjectInfos) =>
      match HapiGetObjectTransforms S I with
      | (c2, false, _) => ⟨c1 ++ c2, some (false, [])⟩
      | (c2, true, ObjectTransforms) =>
        if ObjectInfos.length != ObjectTransforms.length then ⟨c1 ++ c2, none⟩
        else if ObjectInfos.length == 0 then ⟨c1 ++ c2, some (true, [])⟩
        else
          let r := CollectObjects S I (ObjectInfos.zip ObjectTransforms)
          ⟨c1 ++ c2 ++ r.1, some (true, r.2)⟩

/-- `UHoudiniAssetInstance::HapiGetAssetPreset`: the returned flag and the
buffer.  The buffer is sized to the length the session reports and element 0
is addressed. -/
def HapiGetAssetPreset (S : HapiSession) (I : UHoudiniAssetInstance) :
    Query (Bool × List Int) :=
  let n := HapiGetNodeId S I
  if n.2 < 0 then ⟨n.1, some (false, [])⟩
  else
    match S.GetPresetBufLength n.2 with
    | none => ⟨n.1 ++ [HapiCall.GetPresetBufLength n.2], some (false, [])⟩
    | some BufferLength =>
      let PresetBuffer : List Int := List.replicate BufferLength.toNat 0
      if RangeCheck 0 PresetBuffer.length then
        match S.GetPreset n.2 BufferLength with
        | none =>
          ⟨n.1 ++ [HapiCall.GetPresetBufLength n.2, HapiCall.GetPreset n.2 BufferLength],
            some (false, [])⟩
        | some filled =>
          ⟨n.1 ++ [HapiCall.GetPresetBufLength n.2, HapiCall.GetPreset n.2 BufferLength],
            some (true, filled)⟩
      else ⟨n.1 ++ [HapiCall.GetPresetBufLength n.2], none⟩

/-- `UHoudiniAssetInstance::PostInstantiateAsset`. -/
def PostInstantiateAsset (S : HapiSession) (I : UHoudiniAssetInstance) :
    UHoudiniAssetInstance × List HapiCall × Completion Bool :=
  match HapiGetAssetPreset S I with
  | ⟨c1, none⟩ => ({ I with DefaultPresetBuffer := [] }, c1, Completion.aborted)
  | ⟨c1, some (_, PresetBuffer)⟩ =>
    let I1 := { I with DefaultPresetBuffer := PresetBuffer }
    let t := HapiGetAssetTransform S I1
    let I2 := { I1 with Transform := t.2.2 }
    match GetParameterObjects S I2 I2.ParameterObjects with
    | ⟨c3, none⟩ => (I2, c1 ++ t.1 ++ c3, Completion.aborted)
    | ⟨c3, some (_, Parameters)⟩ =>
      let I3 := { I2 with ParameterObjects := Parameters }
      let inputs := GetInputObjects S I3
      ({ I3 with InputObjects := inputs.2.2 }, c1 ++ t.1 ++ c3 ++ inputs.1,
        Completion.returned true)

/-- `UHoudiniAssetInstance::PostCookAsset`. -/
def PostCookAsset (S : HapiSession) (I : UHoudiniAssetInstance) :
    UHoudiniAssetInstance × List HapiCall × Completion Bool :=
  let t := HapiGetAssetTransform S I
  let I1 := { I with Transform := t.2.2 }
  match GetParameterObjects S I1 I1.ParameterObjects with
  | ⟨c2, none⟩ => (I1, t.1 ++ c2, Completion.aborted)
  | ⟨c2, some (_, Parameters)⟩ =>
    let I2 := { I1 with ParameterObjects := Parameters }
    match GetGeoPartObjects S I2 with
    | ⟨c3, none⟩ => ({ I2 with GeoPartObjects := [] }, t.1 ++ c2 ++ c3, Completion.aborted)
    | ⟨c3, some (_, Parts)⟩ =>
      let I3 := { I2 with GeoPartObjects := Parts }
      let inputs := GetInputObjects S I3
      ({ I3 with InputObjects := inputs.2.2 }, t.1 ++ c2 ++ c3 ++ inputs.1,
        Completion.returned true)

/-- How a poll loop over the cook state ended. -/
inductive PollEnd where
  | statusFailed
  | ready
  | cookErrors
  | fatalErrors
  | unfinished
deriving DecidableEq, Repr

/-- The `while ( true )` loop of `InstantiateAsset` and of `CookAsset`: one
`GetStatus` call per iteration, until the call fails or the state is one of
the three ready states.  Returns the number of calls made and how the loop
ended; `unfinished` when the replies ran out first. -/
def PollCookState : List (Option Int) → Nat × PollEnd
  | [] => (0, PollEnd.unfinished)
  | none :: _ => (1, PollEnd.statusFailed)
  | some Status :: rest =>
    if Status == HAPI_STATE_READY then (1, PollEnd.ready)
    else if Status == HAPI_STATE_READY_WITH_COOK_ERRORS then (1, PollEnd.cookErrors)
    else if Status == HAPI_STATE_READY_WITH_FATAL_ERRORS then (1, PollEnd.fatalErrors)
    else ((PollCookState rest).1 + 1, (PollCookState rest).2)

/-- The name resolution at the head of `InstantiateAsset`: the given handle if
it has a valid id, else the first name the asset library exports; `none` where
the source returns `false`. -/
def ResolveAssetName (S : HapiSession) (Asset : Nat) (AssetNameToInstantiate : Int) :
    List HapiCall × Option Int :=
  if !S.HasValidId AssetNameToInstantiate then
    match S.GetAssetNames Asset with
    | none => ([HapiCall.GetAssetNames], none)
    | some [] => ([HapiCall.GetAssetNames], none)
    | some (first :: _) =>
      if !S.HasValidId first then ([HapiCall.GetAssetNames], none)
      else ([HapiCall.GetAssetNames], some first)
  else ([], some AssetNameToInstantiate)

/-- `UHoudiniAssetInstance::InstantiateAsset( AssetNameToInstantiate,
bInstantiatedWithErrors )`.  The name is a string handle of the session. -/
def InstantiateAsset (S : HapiSession) (I : UHoudiniAssetInstance)
    (AssetNameToInstantiate : Int) (bInstantiatedWithErrors : Option Bool) : AssetRun :=
  let flag := bInstantiatedWithErrors.map (fun _ => false)
  match I.HoudiniAsset with
  | none => ⟨I, [], Completion.returned false, flag⟩
  | some Asset =>
    if !S.IsInitialized then ⟨I, [], Completion.returned false, flag⟩
    else if I.IsValidAssetInstance then ⟨I, [], Completion.returned false, flag⟩
    else
      match ResolveAssetName S Asset AssetNameToInstantiate with
      | (c0, none) => ⟨I, c0, Completion.returned false, flag⟩
      | (c0, some AssetName) =>
        match S.ToStdString AssetName with
        | none => ⟨I, c0 ++ [HapiCall.GetString AssetName], Completion.returned false, flag⟩
        | some AssetNameString =>
          let c1 := c0 ++ [HapiCall.GetString AssetName]
          -- We instantiate without cooking.
          match S.InstantiateAsset AssetNameString with
          | none =>
            ⟨I, c1 ++ [HapiCall.InstantiateAsset AssetNameString none],
              Completion.returned false, flag⟩
          | some AssetIdNew =>
            let c2 := c1 ++ [HapiCall.InstantiateAsset AssetNameString (some AssetIdNew)]
            let I1 := { I with AssetId := (AssetIdNew : Int), AssetCookCount := 0 }
            let poll := PollCookState S.Status
            let c3 := c2 ++ List.replicate poll.1 HapiCall.GetStatus
            match poll.2 with
            | PollEnd.unfinished => ⟨I1, c3, Completion.polling, flag⟩
            | PollEnd.statusFailed => ⟨I1, c3, Completion.returned false, flag⟩
            | PollEnd.fatalErrors =>
              ⟨I1, c3, Completion.returned false, bInstantiatedWithErrors.map (fun _ => true)⟩
            | PollEnd.ready =>
              let post := PostInstantiateAsset S { I1 with InstantiatedAssetName := AssetNameString }
              ⟨post.1, c3 ++ post.2.1, post.2.2, flag⟩
            | PollEnd.cookErrors =>
              let post := PostInstantiateAsset S { I1 with InstantiatedAssetName := AssetNameString }
              ⟨post.1, c3 ++ post.2.1, post.2.2, bInstantiatedWithErrors.map (fun _ => true)⟩

/-- `UHoudiniAssetInstance::CookAsset( bCookedWithErrors )`. -/
def CookAsset (S : HapiSession) (I : UHoudiniAssetInstance)
    (bCookedWithErrors : Option Bool) : AssetRun :=
  let flag := bCookedWithErrors.map (fun _ => false)
  match I.HoudiniAsset with
  | none => ⟨I, [], Completion.returned false, flag⟩
  | some _ =>
    if !S.IsInitialized then ⟨I, [], Completion.returned false, flag⟩
    else if !I.IsValidAssetInstance then ⟨I, [], Completion.returned false, flag⟩
    else if !S.CookAsset I.AssetId then
      ⟨I, [HapiCall.CookAsset I.AssetId], Completion.returned false, flag⟩
    else
      let poll := PollCookState S.Status
      let c1 := HapiCall.CookAsset I.AssetId :: List.replicate poll.1 HapiCall.GetStatus
      let I1 := { I with AssetCookCount := wrapInt32 (I.AssetCookCount + 1) }
      match poll.2 with
      | PollEnd.unfinished => ⟨I, c1, Completion.polling, flag⟩
      | PollEnd.statusFailed => ⟨I, c1, Completion.returned false, flag⟩
      | PollEnd.fatalErrors =>
        ⟨I1, c1, Completion.returned false, bCookedWithErrors.map (fun _ => true)⟩
      | PollEnd.ready =>
        let post := PostCookAsset S I1
        ⟨post.1, c1 ++ post.2.1, post.2.2, flag⟩
      | PollEnd.cookErrors =>
        let post := PostCookAsset S I1
        ⟨post.1, c1 ++ post.2.1, post.2.2, bCookedWithErrors.map (fun _ => true)⟩

/-- `UHoudiniAssetInstance::DeleteAsset`.  `DestroyHoudiniAsset` is the
session's destroy call for the id. -/
def DeleteAsset (S : HapiSession) (I : UHoudiniAssetInstance) : AssetRun :=
  if S.IsInitialized && I.IsValidAssetInstance then
    ⟨{ I with AssetId := -1 }, [HapiCall.DestroyAsset I.AssetId], Completion.returned true, none⟩
  else ⟨{ I with AssetId := -1 }, [], Completion.returned true, none⟩

/-- State after a run of `CookAsset` calls, each with its own session answers
and error-flag pointer. -/
def CookMany (I : UHoudiniAssetInstance) :
    List (HapiSession × Option Bool) → UHoudiniAssetInstance
  | [] => I
  | (S, flag) :: rest => CookMany (CookAsset S I flag).state rest

/-- The poll loop of a call ended at one of the three ready states. -/
def PollEnd.isTerminal : PollEnd → Bool
  | PollEnd.ready => true
  | PollEnd.cookErrors => true
  | PollEnd.fatalErrors => true
  | _ => false

/-- `CookAsset` passes its three precondition checks and the session accepts
the cook call. -/
def CookStarted (S : HapiSession) (I : UHoudiniAssetInstance) : Bool :=
  I.HoudiniAsset.isSome && S.IsInitialized && I.IsValidAssetInstance && S.CookAsset I.AssetId

/-- A freshly constructed instance (the constructor's values) that refers to
asset object 1. -/
def freshInstance : UHoudiniAssetInstance :=
  { HoudiniAsset := some 1, InstantiatedAssetName := "", AssetId := -1, AssetCookCount := 0,
    Transform := FTransform.Identity, DefaultPresetBuffer := [], ParameterObjects := [],
    InputObjects := [], GeoPartObjects := [] }

/-- A session in which every call succeeds: the library exports one asset
(handle 10, name "hda"), instantiation yields asset 5 on node 7, the node has
`parmCount` parameters, the asset has no objects and no inputs, and the cook
state is ready at the first query. -/
def readySession (parmCount : Int) : HapiSession :=
  { IsInitialized := true
    HasValidId := fun h => decide (0 < h)
    GetAssetNames := fun _ => some [10]
    ToStdString := fun _ => some "hda"
    InstantiateAsset := fun _ => some 5
    CookAsset := fun _ => true
    Status := [some HAPI_STATE_READY]
    GetAssetInfo := fun _ => some ⟨7, 0, 0⟩
    GetNodeInfo := fun _ => some ⟨7, parmCount, 0, 0, 0⟩
    GetParameters := fun _ _ => some (fun i => ⟨(i : Int), 20, false, HAPI_ParmType.INT, 0⟩)
    GetPresetBufLength := fun _ => some 1
    GetPreset := fun _ _ => some [0]
    GetAssetTransform := fun _ => some FTransform.Identity
    GetObjects := fun _ _ => some (fun i => ⟨(i : Int), 30, 0⟩)
    GetObjectTransforms := fun _ _ => some (fun _ => FTransform.Identity)
    GetGeoInfo := fun _ _ _ => some ⟨0, true, 0⟩
    GetPartInfo := fun _ _ _ _ => some ⟨0, 40⟩
    GetString := fun _ => some "name"
    GetParmName := fun _ _ => some "parm" }

/-- The instance as `InstantiateAsset` hands it to `PostInstantiateAsset`. -/
def Named (I : UHoudiniAssetInstance) (AssetIdNew : Nat) (AssetNameString : String) :
    UHoudiniAssetInstance :=
  { I with AssetId := (AssetIdNew : Int), AssetCookCount := 0,
           InstantiatedAssetName := AssetNameString }

end UHoudiniAssetInstance

/-! ## Asset input (`HoudiniAssetInput.cpp`) -/

/-- Modelled from the spec: the host's float-transform equality "has a small
epsilon"; `FTransform::Equals` is engine code outside these sources.  This is
its default tolerance. -/
def KINDA_SMALL_NUMBER : ℚ := 1 / 10000

/-- Modelled from the spec: component-wise comparison of two vectors within a
tolerance (`FVector::Equals`).  Components are rationals and the difference
is exact, where the engine subtracts in single precision: the two comparisons
can differ for a difference within a rounding step of the tolerance. -/
def FVector.Equals (a b : FVector) (Tolerance : ℚ) : Bool :=
  decide (|a.X - b.X| ≤ Tolerance) && decide (|a.Y - b.Y| ≤ Tolerance) &&
    decide (|a.Z - b.Z| ≤ Tolerance)

/-- Modelled from the spec: comparison of two rotations within a tolerance
(`FQuat::Equals`); a quaternion and its negation are the same rotation. -/
def FQuat.Equals (a b : FQuat) (Tolerance : ℚ) : Bool :=
  (decide (|a.X - b.X| ≤ Tolerance) && decide (|a.Y - b.Y| ≤ Tolerance) &&
    decide (|a.Z - b.Z| ≤ Tolerance) && decide (|a.W - b.W| ≤ Tolerance)) ||
  (decide (|a.X + b.X| ≤ Tolerance) && decide (|a.Y + b.Y| ≤ Tolerance) &&
    decide (|a.Z + b.Z| ≤ Tolerance) && decide (|a.W + b.W| ≤ Tolerance))

/-- Modelled from the spec: the host's float-transform equality
(`FTransform::Equals` with its default tolerance), translation, rotation and
scale each compared within the tolerance. -/
def FTransform.Equals (a b : FTransform) : Bool :=
  a.Translation.Equals b.Translation KINDA_SMALL_NUMBER &&
    a.Rotation.Equals b.Rotation KINDA_SMALL_NUMBER &&
    a.Scale3D.Equals b.Scale3D KINDA_SMALL_NUMBER

/-- A scene actor, as the input reads it through its pointer. -/
structure AActor where
  Transform : FTransform
  PendingKill : Bool

/-- A static-mesh component of the scene. -/
structure UStaticMeshComponent where
  ComponentTransform : FTransform

/-- A spline component of the scene, by the accessors the input calls. -/
structure USplineComponent where
  ComponentTransform : FTransform
  SplineLength : ℚ
  NumberOfSplinePoints : Int
  LocationAtSplinePointLocal : Nat → FVector
  QuaternionAtSplinePointWorld : Nat → FQuat
  ScaleAtSplinePoint : Nat → FVector
  TransformAtSplinePointLocal : Nat → FTransform

/-- The host application around an input: the scene objects behind the
pointers the input holds, the asset ids of the asset components, and the
editor.  `SuperUploadParameterValue` is the base-class
`UHoudiniAssetParameter::UploadParameterValue`, defined outside these
sources: from the changed flag to the flag afterwards and the value
returned.  `CurveLocationIsZero` tells of a curve component whether the
location of its relative transform is zero. -/
structure Host where
  Actors : Nat → AActor
  StaticMeshComponents : Nat → UStaticMeshComponent
  SplineComponents : Nat → USplineComponent
  GetAssetId : Nat → Int
  GetOwner : Nat → Option Nat
  GEditor : Bool
  NewSplineComponent : Nat
  SuperUploadParameterValue : Bool → Bool × Bool
  CurveLocationIsZero : Nat → Bool

/-- `EHoudiniAssetInputType::Enum`. -/
inductive EHoudiniAssetInputType where
  | GeometryInput
  | AssetInput
  | CurveInput
  | LandscapeInput
  | WorldInput
deriving DecidableEq, Repr

/-- Fields of `FHoudiniAssetInputOutlinerMesh`, one tracked actor/component
pair of a World input. -/
structure FHoudiniAssetInputOutlinerMesh where
  Actor : Option Nat
  StaticMeshComponent : Option Nat
  StaticMesh : Option Nat
  SplineComponent : Option Nat
  NumberOfSplineControlPoints : Int
  SplineControlPointsTransform : List FTransform
  SplineLength : ℚ
  SplineResolution : ℚ
  ActorTransform : FTransform
  ComponentTransform : FTransform
  AssetId : Int
  KeepWorldTransform : Nat
deriving DecidableEq, Repr

/-- A curve parameter object held by a Curve input. -/
structure FCurveParameter where
  NodeId : Int
  ParmInfo : HAPI_ParmInfo
deriving DecidableEq, Repr

/-- Fields of `UHoudiniAssetInput`, with the fields of its base class
`UHoudiniAssetParameter` that the sources use (`HoudiniAssetComponent`,
`bChanged`, `HoudiniAssetParameterVersion`) and whether the world-outliner
timer delegate is bound.  Pointers are object ids, `none` for `nullptr`. -/
structure UHoudiniAssetInput where
  HoudiniAssetComponent : Option Nat
  bChanged : Bool
  HoudiniAssetParameterVersion : Int
  InputObjects : List (Option Nat)
  InputCurve : Option Nat
  InputAssetComponent : Option Nat
  InputLandscapeProxy : Option Nat
  InputCurveParameters : List (String × Option FCurveParameter)
  InputOutlinerMeshArray : List FHoudiniAssetInputOutlinerMesh
  GeometryInputAssetIds : List Int
  ConnectedAssetId : Int
  InputIndex : Int
  ChoiceIndex : EHoudiniAssetInputType
  ChoiceStringValue : String
  UnrealSplineResolution : ℚ
  bStaticMeshChanged : Bool
  bSwitchedToCurve : Bool
  bLoadedParameter : Bool
  bInputAssetConnectedInHoudini : Bool
  bLandscapeInputSelectionOnly : Bool
  bLandscapeExportCurves : Bool
  bLandscapeExportFullGeometry : Bool
  bLandscapeExportMaterials : Bool
  bLandscapeExportLighting : Bool
  bLandscapeExportNormalizedUVs : Bool
  bLandscapeExportTileUVs : Bool
  bKeepWorldTransform : Nat
  WorldOutlinerTimerBound : Bool
deriving DecidableEq, Repr

/-- Something an input did to another object of the host application (not a
session call). -/
inductive HostNote where
  | RemoveDownstreamAsset (Upstream : Nat) (InputIndex : Int)
  | AddDownstreamAsset (Upstream : Nat) (InputIndex : Int)
  | EditorPropertiesNeedFullUpdate (Upstream : Nat)
  | Modify
  | MarkPreChanged
  | MarkChanged
  | UpdateEditorProperties
  | NoteSelectionChange
  | CurveDetached (Curve : Nat)
  | CurveAttached (Curve : Nat)
  | CurveConstructed (Curve : Nat)
  | CurveRelativeLocationReset (Curve : Nat)
  | CurveParameterDestroyed (name : String)
  | SetTimer
  | ClearTimer
deriving DecidableEq, Repr

/-- What a member function of an input did: the input afterwards, the session
calls it issued in order, those of them whose answer was a failure (only for
calls whose result the source tests), what it did to other host objects, and
how it ended.  When the call was `aborted`, `state` holds the updates
completed before the aborting step. -/
structure InputRun (α : Type) where
  state : UHoudiniAssetInput
  calls : List HapiCall
  failed : List HapiCall
  notes : List HostNote
  completion : Completion α

/-- The nodes alive in the session after a sequence of calls, issued in that
order, when `alive` were alive before: a node is alive from the call that
created it until a destroy call for its id. -/
def LiveAfter (alive : List Int) : List HapiCall → List Int
  | [] => alive
  | HapiCall.DestroyAsset id :: rest => LiveAfter (alive.filter (fun n => n != id)) rest
  | HapiCall.CreateCurve (some id) :: rest => LiveAfter (alive ++ [id]) rest
  | HapiCall.CreateAndConnectAsset _ _ created :: rest => LiveAfter (alive ++ created) rest
  | HapiCall.CreateAndConnectGeometry _ _ _ created :: rest => LiveAfter (alive ++ created) rest
  | _ :: rest => LiveAfter alive rest

namespace FHoudiniAssetInputOutlinerMesh

/-- `FHoudiniAssetInputOutlinerMesh::HasActorTransformChanged`. -/
def HasActorTransformChanged (H : Host) (E : FHoudiniAssetInputOutlinerMesh) : Bool :=
  match E.Actor with
  | none => false
  | some Actor =>
    if !E.ActorTransform.Equals (H.Actors Actor).Transform then true
    else false

/-- `FHoudiniAssetInputOutlinerMesh::HasComponentTransformChanged`. -/
def HasComponentTransformChanged (H : Host) (E : FHoudiniAssetInputOutlinerMesh) : Bool :=
  match E.SplineComponent, E.StaticMeshComponent with
  | none, none => false
  | some Spline, _ => !E.ComponentTransform.Equals (H.SplineComponents Spline).ComponentTransform
  | none, some Mesh => !E.ComponentTransform.Equals (H.StaticMeshComponents Mesh).ComponentTransform

/-- An outliner entry for the static mesh component 0 of actor 0, cached at
identity transforms and not yet connected. -/
def demoEntry : FHoudiniAssetInputOutlinerMesh :=
  { Actor := some 0, StaticMeshComponent := some 0, StaticMesh := some 0,
    SplineComponent := none, NumberOfSplineControlPoints := 0,
    SplineControlPointsTransform := [], SplineLength := 0, SplineResolution := 0,
    ActorTransform := FTransform.Identity, ComponentTransform := FTransform.Identity,
    AssetId := -1, KeepWorldTransform := 2 }

/-- A host whose actors all stand at the given transform. -/
def hostWithActorAt (t : FTransform) : Host :=
  { Actors := fun _ => ⟨t, false⟩
    StaticMeshComponents := fun _ => ⟨FTransform.Identity⟩
    SplineComponents := fun _ =>
      { ComponentTransform := FTransform.Identity, SplineLength := 0, NumberOfSplinePoints := 0,
        LocationAtSplinePointLocal := fun _ => ⟨0, 0, 0⟩,
        QuaternionAtSplinePointWorld := fun _ => ⟨0, 0, 0, 1⟩,
        ScaleAtSplinePoint := fun _ => ⟨1, 1, 1⟩,
        TransformAtSplinePointLocal := fun _ => FTransform.Identity }
    GetAssetId := fun _ => 100
    GetOwner := fun _ => some 0
    GEditor := true
    NewSplineComponent := 50
    SuperUploadParameterValue := fun _ => (false, true)
    CurveLocationIsZero := fun _ => false }

end FHoudiniAssetInputOutlinerMesh

/-- What `FHoudiniEngineUtils::HapiCreateAndConnectAsset` answered: its
result, what it left in its by-reference arguments, and the nodes it created
in the session. -/
structure CreateAndConnectReply where
  ok : Bool
  ConnectedAssetId : Int
  GeometryInputAssetIds : List Int
  OutlinerMeshArray : List FHoudiniAssetInputOutlinerMesh
  Created : List Int

/-- Answers of the session to the calls of `UpdateObjectMergeTransformType`,
in the order of the source; `none` / `false` for a failed call. -/
structure TransformTypeReplies where
  HostAssetInfo : Option HAPI_AssetInfo
  InputNodeId : Option Int
  SetXformType : Bool
  AssetInfo : Option HAPI_AssetInfo
  EntryInputNodeId : Nat → Option Int
  SetEntryXformType : Nat → Bool

/-- Answers of the session to the calls of `UpdateInputCurve`. -/
structure CurveReplies where
  GetNodeId : Option Int
  NodeInfo : Option HAPI_NodeInfo
  Parameters : Option (Nat → HAPI_ParmInfo)
  ParmIntValues : Bool
  ParmFloatValues : Bool
  ParmStringValues : Bool
  ParmName : HAPI_ParmInfo → Option String
  ParameterCreated : HAPI_ParmInfo → Bool
  GUnrealEd : Bool

/-- Answers of the session to the calls of `UploadParameterValue`.
`CurveAssetInfo` is what the info structure of the curve asset holds after
the query for it, whose result the source does not test. -/
structure UploadReplies where
  CreateAndConnect : CreateAndConnectReply
  TransformType : TransformTypeReplies
  CreateCurve : Option Nat
  ConnectCurve : Bool
  CurveAssetInfo : HAPI_AssetInfo
  ParameterUpload : String → Bool
  GetNodeId : Option Int
  CreateCurveAsset : Bool
  ReconnectCurve : Bool
  CookCurve : Bool
  Curve : CurveReplies

/-- Name of the curve-method parameter (`HAPI_UNREAL_PARAM_CURVE_METHOD`). -/
def HAPI_UNREAL_PARAM_CURVE_METHOD : String := "method"
/-- Name of the curve-type parameter (`HAPI_UNREAL_PARAM_CURVE_TYPE`). -/
def HAPI_UNREAL_PARAM_CURVE_TYPE : String := "type"
/-- Name of the curve-closed parameter (`HAPI_UNREAL_PARAM_CURVE_CLOSED`). -/
def HAPI_UNREAL_PARAM_CURVE_CLOSED : String := "close"

/-- The calls that make or attach the node of an input: create-and-connect,
curve create, connect, curve point upload. -/
def IsConnectionCall : HapiCall → Bool
  | HapiCall.CreateAndConnectAsset _ _ _ => true
  | HapiCall.CreateAndConnectGeometry _ _ _ _ => true
  | HapiCall.CreateCurve _ => true
  | HapiCall.ConnectAsset _ _ _ _ => true
  | HapiCall.CreateCurveAsset _ _ => true
  | _ => false

namespace UHoudiniAssetInput

/-- A host whose asset components all hold asset 100. -/
def demoHost : Host :=
  { Actors := fun _ => ⟨FTransform.Identity, false⟩
    StaticMeshComponents := fun _ => ⟨FTransform.Identity⟩
    SplineComponents := fun _ =>
      { ComponentTransform := FTransform.Identity, SplineLength := 0, NumberOfSplinePoints := 0,
        LocationAtSplinePointLocal := fun _ => ⟨0, 0, 0⟩,
        QuaternionAtSplinePointWorld := fun _ => ⟨0, 0, 0, 1⟩,
        ScaleAtSplinePoint := fun _ => ⟨1, 1, 1⟩,
        TransformAtSplinePointLocal := fun _ => FTransform.Identity }
    GetAssetId := fun _ => 100
    GetOwner := fun _ => some 0
    GEditor := true
    NewSplineComponent := 50
    SuperUploadParameterValue := fun _ => (false, true)
    CurveLocationIsZero := fun _ => false }

/-- The constructor's values for an input of asset component 1. -/
def Constructed : UHoudiniAssetInput :=
  { HoudiniAssetComponent := some 1, bChanged := false, HoudiniAssetParameterVersion := 0,
    InputObjects := [], InputCurve := none, InputAssetComponent := none,
    InputLandscapeProxy := none, InputCurveParameters := [], InputOutlinerMeshArray := [],
    GeometryInputAssetIds := [], ConnectedAssetId := -1, InputIndex := 0,
    ChoiceIndex := EHoudiniAssetInputType.GeometryInput, ChoiceStringValue := "",
    UnrealSplineResolution := -1, bStaticMeshChanged := false, bSwitchedToCurve := false,
    bLoadedParameter := false, bInputAssetConnectedInHoudini := false,
    bLandscapeInputSelectionOnly := false, bLandscapeExportCurves := false,
    bLandscapeExportFullGeometry := false, bLandscapeExportMaterials := true,
    bLandscapeExportLighting := false, bLandscapeExportNormalizedUVs := false,
    bLandscapeExportTileUVs := false, bKeepWorldTransform := 2,
    WorldOutlinerTimerBound := false }

/-- The World branch of `DisconnectAndDestroyInputAsset`: for every entry
with a valid id the disconnect call is issued on the connected node with the
entry's node id in the place of the input index, the entry's node is
destroyed and the id reset. -/
def DestroyOutlinerAssets (ConnectedAssetId : Int) :
    List FHoudiniAssetInputOutlinerMesh → List FHoudiniAssetInputOutlinerMesh × List HapiCall
  | [] => ([], [])
  | E :: rest =>
    let r := DestroyOutlinerAssets ConnectedAssetId rest
    if IsValidAssetId E.AssetId then
      ({ E with AssetId := -1 } :: r.1,
        HapiCall.DisconnectAsset ConnectedAssetId E.AssetId ::
          HapiCall.DestroyAsset E.AssetId :: r.2)
    else (E :: r.1, r.2)

/-- `UHoudiniAssetInput::DisconnectAndDestroyInputAsset`.  The results of the
disconnect and destroy calls are discarded by the source. -/
def DisconnectAndDestroyInputAsset (H : Host) (s : UHoudiniAssetInput) : InputRun Unit :=
  if s.ChoiceIndex = EHoudiniAssetInputType.AssetInput then
    ⟨{ s with InputAssetComponent := none, ConnectedAssetId := -1 }, [], [],
      (match s.InputAssetComponent with
        | some Upstream => [HostNote.RemoveDownstreamAsset Upstream s.InputIndex]
        | none => []),
      Completion.returned ()⟩
  else
    let c1 : List HapiCall :=
      match s.HoudiniAssetComponent with
      | some Component =>
        if IsValidAssetId s.ConnectedAssetId && IsValidAssetId (H.GetAssetId Component) then
          [HapiCall.DisconnectAsset (H.GetAssetId Component) s.InputIndex]
        else []
      | none => []
    -- World Input Actors' Meshes need to have their corresponding Input Assets destroyed too.
    let s1 : UHoudiniAssetInput × List HapiCall :=
      if s.ChoiceIndex = EHoudiniAssetInputType.WorldInput then
        let r := DestroyOutlinerAssets s.ConnectedAssetId s.InputOutlinerMeshArray
        ({ s with InputOutlinerMeshArray := r.1 }, r.2)
      else if s.ChoiceIndex = EHoudiniAssetInputType.GeometryInput then
        ({ s with GeometryInputAssetIds := [] },
          s.GeometryInputAssetIds.map (fun AssetNodeId => HapiCall.DestroyAsset AssetNodeId))
      else (s, [])
    if IsValidAssetId s1.1.ConnectedAssetId then
      ⟨{ s1.1 with ConnectedAssetId := -1 },
        c1 ++ s1.2 ++ [HapiCall.DestroyAsset s1.1.ConnectedAssetId], [], [],
        Completion.returned ()⟩
    else ⟨s1.1, c1 ++ s1.2, [], [], Completion.returned ()⟩

/-- `UHoudiniAssetInput::GetDefaultTranformTypeValue`. -/
def GetDefaultTranformTypeValue (s : UHoudiniAssetInput) : Nat :=
  match s.ChoiceIndex with
  | EHoudiniAssetInputType.CurveInput => 0
  | EHoudiniAssetInputType.GeometryInput => 0
  | EHoudiniAssetInputType.AssetInput => 1
  | EHoudiniAssetInputType.LandscapeInput => 1
  | EHoudiniAssetInputType.WorldInput => 1

/-- The loop of `UpdateObjectMergeTransformType` over the inputs `n, n+1, ...`
of the merge node (`k` of them): returned flag, calls, failed calls. -/
def PushEntryTransformTypes (R : TransformTypeReplies) (NodeId : Int) (nTransformType : Nat) :
    Nat → Nat → Bool × List HapiCall × List HapiCall
  | 0, _ => (true, [], [])
  | k + 1, n =>
    match R.EntryInputNodeId n with
    | none =>
      (false, [HapiCall.QueryNodeInput NodeId n], [HapiCall.QueryNodeInput NodeId n])
    | some InputNodeId =>
      if InputNodeId == -1 then
        let r := PushEntryTransformTypes R NodeId nTransformType k (n + 1)
        (r.1, HapiCall.QueryNodeInput NodeId n :: r.2.1, r.2.2)
      else if !R.SetEntryXformType n then
        (false, [HapiCall.QueryNodeInput NodeId n, HapiCall.SetParmIntValue InputNodeId nTransformType],
          [HapiCall.SetParmIntValue InputNodeId nTransformType])
      else
        let r := PushEntryTransformTypes R NodeId nTransformType k (n + 1)
        (r.1, HapiCall.QueryNodeInput NodeId n ::
          HapiCall.SetParmIntValue InputNodeId nTransformType :: r.2.1, r.2.2)

/-- `UHoudiniAssetInput::UpdateObjectMergeTransformType`: returned flag,
calls, failed calls.  `HOUDINI_CHECK_ERROR_RETURN( call, false )` returns
`false` when the call is not a success. -/
def UpdateObjectMergeTransformType (H : Host) (s : UHoudiniAssetInput)
    (R : TransformTypeReplies) : Bool × List HapiCall × List HapiCall :=
  match s.HoudiniAssetComponent with
  | none => (false, [], [])
  | some Component =>
    let nTransformType : Nat :=
      if s.bKeepWorldTransform == 2 then s.GetDefaultTranformTypeValue
      else if s.bKeepWorldTransform != 0 then 1
      else 0
    -- We need the host asset info to get the host node id
    match R.HostAssetInfo with
    | none =>
      (false, [HapiCall.GetAssetInfo (H.GetAssetId Component)],
        [HapiCall.GetAssetInfo (H.GetAssetId Component)])
    | some HostAssetInfo =>
      let c1 := [HapiCall.GetAssetInfo (H.GetAssetId Component),
        HapiCall.QueryNodeInput HostAssetInfo.nodeId s.InputIndex]
      -- Get the Input node ID from the host ID
      match R.InputNodeId with
      | none => (false, c1, [HapiCall.QueryNodeInput HostAssetInfo.nodeId s.InputIndex])
      | some InputNodeId =>
        let c2 := c1 ++ [HapiCall.SetParmIntValue InputNodeId nTransformType]
        -- Change Parameter xformtype
        if !R.SetXformType then (false, c2, [HapiCall.SetParmIntValue InputNodeId nTransformType])
        else
          let c3 := c2 ++ [HapiCall.GetAssetInfo s.ConnectedAssetId]
          -- We need the asset info to get the node id
          match R.AssetInfo with
          | none => (false, c3, [HapiCall.GetAssetInfo s.ConnectedAssetId])
          | some AssetInfo =>
            let r := PushEntryTransformTypes R AssetInfo.nodeId nTransformType
              s.InputOutlinerMeshArray.length 0
            (r.1, c3 ++ r.2.1, r.2.2)

/-- `UHoudiniAssetInput::ConnectInputAssetActor`.  The result of the connect
call is discarded by the source. -/
def ConnectInputAssetActor (H : Host) (s : UHoudiniAssetInput) : InputRun Unit :=
  match s.InputAssetComponent with
  | none => ⟨s, [], [], [], Completion.returned ()⟩
  | some Upstream =>
    if IsValidAssetId (H.GetAssetId Upstream) && !s.bInputAssetConnectedInHoudini then
      match s.HoudiniAssetComponent with
      | none => ⟨s, [], [], [], Completion.aborted⟩
      | some Component =>
        ⟨{ s with ConnectedAssetId := H.GetAssetId Upstream,
                  bInputAssetConnectedInHoudini := true },
          [HapiCall.ConnectAsset (H.GetAssetId Upstream) 0 (H.GetAssetId Component) s.InputIndex],
          [], [HostNote.AddDownstreamAsset Upstream s.InputIndex], Completion.returned ()⟩
    else ⟨s, [], [], [], Completion.returned ()⟩

/-- `UHoudiniAssetInput::DisconnectInputAssetActor`. -/
def DisconnectInputAssetActor (H : Host) (s : UHoudiniAssetInput) : InputRun Unit :=
  if s.bInputAssetConnectedInHoudini && s.InputAssetComponent.isNone then
    match s.HoudiniAssetComponent with
    | none => ⟨s, [], [], [], Completion.aborted⟩
    | some Component =>
      ⟨{ s with bInputAssetConnectedInHoudini := false },
        [HapiCall.DisconnectAsset (H.GetAssetId Component) s.InputIndex], [], [],
        Completion.returned ()⟩
  else ⟨s, [], [], [], Completion.returned ()⟩

/-- `UHoudiniAssetInput::DisconnectInputCurve`. -/
def DisconnectInputCurve (s : UHoudiniAssetInput) : List HostNote :=
  match s.InputCurve with
  | some Curve => [HostNote.CurveDetached Curve]
  | none => []

/-- `UHoudiniAssetInput::ClearInputCurveParameters`. -/
def ClearInputCurveParameters (s : UHoudiniAssetInput) : UHoudiniAssetInput × List HostNote :=
  ({ s with InputCurveParameters := [] },
    (s.InputCurveParameters.filter (fun e => e.2.isSome)).map
      (fun e => HostNote.CurveParameterDestroyed e.1))

/-- `UHoudiniAssetInput::StartWorldOutlinerTicking`. -/
def StartWorldOutlinerTicking (H : Host) (s : UHoudiniAssetInput) :
    UHoudiniAssetInput × List HostNote :=
  if decide (s.InputOutlinerMeshArray.length > 0) && !s.WorldOutlinerTimerBound && H.GEditor then
    ({ s with WorldOutlinerTimerBound := true }, [HostNote.SetTimer])
  else (s, [])

/-- `UHoudiniAssetInput::StopWorldOutlinerTicking`. -/
def StopWorldOutlinerTicking (H : Host) (s : UHoudiniAssetInput) :
    UHoudiniAssetInput × List HostNote :=
  if decide (s.InputOutlinerMeshArray.length ≤ 0) && s.WorldOutlinerTimerBound && H.GEditor then
    ({ s with WorldOutlinerTimerBound := false }, [HostNote.ClearTimer])
  else (s, [])

/-- `TMap::Add` on the curve-parameter map: a key already present gets the
new value. -/
def CurveMapAdd (m : List (String × Option FCurveParameter)) (k : String)
    (v : Option FCurveParameter) : List (String × Option FCurveParameter) :=
  if m.any (fun e => e.1 == k) then m.map (fun e => if e.1 == k then (k, v) else e)
  else m ++ [(k, v)]

/-- The parameter loop of `UpdateInputCurve`: the old map without the reused
entries and the new map; `none` when a check stopped the program (a reused
null pointer is dereferenced, or `check( false )` on a parameter that is
neither integer nor toggle). -/
def BuildCurveParameters (R : CurveReplies) (LocalNodeId : Int) :
    List HAPI_ParmInfo → List (String × Option FCurveParameter) →
    List (String × Option FCurveParameter) →
    Option (List (String × Option FCurveParameter) × List (String × Option FCurveParameter))
  | [], Old, New => some (Old, New)
  | ParmInfo :: rest, Old, New =>
    -- If parameter is invisible, skip it.
    if ParmInfo.invisible then BuildCurveParameters R LocalNodeId rest Old New
    else
      match R.ParmName ParmInfo with
      | none => BuildCurveParameters R LocalNodeId rest Old New
      | some CurrentParameterName =>
        -- See if it's one of parameters we are interested in.
        if CurrentParameterName != HAPI_UNREAL_PARAM_CURVE_METHOD &&
            CurrentParameterName != HAPI_UNREAL_PARAM_CURVE_TYPE &&
            CurrentParameterName != HAPI_UNREAL_PARAM_CURVE_CLOSED then
          BuildCurveParameters R LocalNodeId rest Old New
        else
          -- See if this parameter has already been created.
          match Old.find? (fun e => e.1 == CurrentParameterName) with
          | some (_, some _) =>
            BuildCurveParameters R LocalNodeId rest
              (Old.filter (fun e => e.1 != CurrentParameterName))
              (CurveMapAdd New CurrentParameterName (some ⟨LocalNodeId, ParmInfo⟩))
          | some (_, none) => none
          | none =>
            match ParmInfo.type with
            | HAPI_ParmType.OTHER => none
            | _ =>
              BuildCurveParameters R LocalNodeId rest Old
                (CurveMapAdd New CurrentParameterName
                  (if R.ParameterCreated ParmInfo then some ⟨LocalNodeId, ParmInfo⟩ else none))

/-- `UHoudiniAssetInput::UpdateInputCurve`. -/
def UpdateInputCurve (s : UHoudiniAssetInput) (R : CurveReplies) : InputRun Bool :=
  let LocalNodeId : Int := R.GetNodeId.getD (-1)
  let c1 : List HapiCall :=
    (if R.GetNodeId.isSome then
      [HapiCall.GetNodeId s.ConnectedAssetId, HapiCall.GetCurveData LocalNodeId]
    else [HapiCall.GetNodeId s.ConnectedAssetId]) ++ [HapiCall.GetCurveData s.ConnectedAssetId]
  let n1 : List HostNote :=
    match s.InputCurve with
    | some Curve => [HostNote.CurveConstructed Curve]
    | none => []
  -- We also need to construct curve parameters we care about.
  match R.NodeInfo with
  | none =>
    ⟨s, c1 ++ [HapiCall.GetNodeInfo LocalNodeId], [HapiCall.GetNodeInfo LocalNodeId], n1,
      Completion.returned false⟩
  | some NodeInfo =>
    let c2 := c1 ++ [HapiCall.GetNodeInfo LocalNodeId]
    if !RangeCheck 0 NodeInfo.parmCount.toNat then ⟨s, c2, [], n1, Completion.aborted⟩
    else
      match R.Parameters with
      | none =>
        ⟨s, c2 ++ [HapiCall.GetParameters LocalNodeId NodeInfo.parmCount],
          [HapiCall.GetParameters LocalNodeId NodeInfo.parmCount], n1, Completion.returned false⟩
      | some filled =>
        let c3 := c2 ++ [HapiCall.GetParameters LocalNodeId NodeInfo.parmCount]
        let ParmInfos := (List.range NodeInfo.parmCount.toNat).map filled
        -- Retrieve integer, float and string values for this asset.
        if decide (NodeInfo.parmIntValueCount > 0) && !R.ParmIntValues then
          ⟨s, c3 ++ [HapiCall.GetParmValues LocalNodeId], [HapiCall.GetParmValues LocalNodeId],
            n1, Completion.returned false⟩
        else
          let c4 := c3 ++
            (if NodeInfo.parmIntValueCount > 0 then [HapiCall.GetParmValues LocalNodeId] else [])
          if decide (NodeInfo.parmFloatValueCount > 0) && !R.ParmFloatValues then
            ⟨s, c4 ++ [HapiCall.GetParmValues LocalNodeId], [HapiCall.GetParmValues LocalNodeId],
              n1, Completion.returned false⟩
          else
            let c5 := c4 ++
              (if NodeInfo.parmFloatValueCount > 0 then [HapiCall.GetParmValues LocalNodeId]
               else [])
            if decide (NodeInfo.parmStringValueCount > 0) && !R.ParmStringValues then
              ⟨s, c5 ++ [HapiCall.GetParmValues LocalNodeId],
                [HapiCall.GetParmValues LocalNodeId], n1, Completion.returned false⟩
            else
              let c6 := c5 ++
                (if NodeInfo.parmStringValueCount > 0 then [HapiCall.GetParmValues LocalNodeId]
                 else [])
              -- Create properties for parameters.
              match BuildCurveParameters R LocalNodeId ParmInfos s.InputCurveParameters [] with
              | none => ⟨s, c6, [], n1, Completion.aborted⟩
              | some (Old, New) =>
                let cleared := ClearInputCurveParameters { s with InputCurveParameters := Old }
                let s1 := { cleared.1 with InputCurveParameters := New }
                if s1.bSwitchedToCurve then
                  match s1.HoudiniAssetComponent with
                  | none => ⟨s1, c6, [], n1 ++ cleared.2, Completion.aborted⟩
                  | some _ =>
                    ⟨{ s1 with bSwitchedToCurve := false }, c6, [],
                      n1 ++ cleared.2 ++ [HostNote.UpdateEditorProperties] ++
                        (if R.GUnrealEd then [HostNote.NoteSelectionChange] else []),
                      Completion.returned true⟩
                else ⟨s1, c6, [], n1 ++ cleared.2, Completion.returned true⟩

/-- The loop of `UploadParameterValue` over the curve parameters after a load
or a creation: every non-null parameter is uploaded; the conjunction of the
results, the calls, the failed calls. -/
def UploadCurveParameters (R : UploadReplies) :
    List (String × Option FCurveParameter) → Bool × List HapiCall × List HapiCall
  | [] => (true, [], [])
  | (_, none) :: rest => UploadCurveParameters R rest
  | (name, some _) :: rest =>
    let r := UploadCurveParameters R rest
    (R.ParameterUpload name && r.1, HapiCall.UploadCurveParameter name :: r.2.1,
      if R.ParameterUpload name then r.2.2 else HapiCall.UploadCurveParameter name :: r.2.2)

/-- The tail of `UploadParameterValue` after the `switch`: the loaded flag is
cleared and the base class is called. -/
def FinishUpload (H : Host) (s : UHoudiniAssetInput) (Success : Bool)
    (calls failed : List HapiCall) (notes : List HostNote) : InputRun Bool :=
  ⟨{ s with bLoadedParameter := false, bChanged := (H.SuperUploadParameterValue s.bChanged).1 },
    calls, failed, notes,
    Completion.returned (Success && (H.SuperUploadParameterValue s.bChanged).2)⟩

/-- The failure exit of `UploadParameterValue`: `bChanged = false;
ConnectedAssetId = -1; return false;`. -/
def FailUpload (s : UHoudiniAssetInput) (calls failed : List HapiCall)
    (notes : List HostNote) : InputRun Bool :=
  ⟨{ s with bChanged := false, ConnectedAssetId := -1 }, calls, failed, notes,
    Completion.returned false⟩

/-- `Parameter->SetNodeId( NodeId )` for every curve parameter the input
holds. -/
def SetCurveParameterNodeIds (NodeId : Int) (s : UHoudiniAssetInput) : UHoudiniAssetInput :=
  { s with InputCurveParameters :=
             s.InputCurveParameters.map (fun e =>
               (e.1, e.2.map (fun Parameter => { Parameter with NodeId := NodeId }))) }

/-- The Curve case of `UploadParameterValue` from the parameter upload on,
for an input `s1` whose held curve parameters have their node id updated
already (`bCreated` tells whether the curve node was just created, `c1` are
the calls made so far), with the tail of the function that follows the
`break`. -/
def UploadCurveInputPrepared (H : Host) (s1 : UHoudiniAssetInput) (bCreated : Bool)
    (c1 : List HapiCall) (R : UploadReplies) (HostAssetId : Int) : InputRun Bool :=
  -- If we just loaded or created our curve, we need to set parameters.
  let params : Bool × List HapiCall × List HapiCall :=
    if s1.bLoadedParameter || bCreated then
      let r := UploadCurveParameters R s1.InputCurveParameters
      (r.1, HapiCall.GetAssetInfo s1.ConnectedAssetId :: r.2.1, r.2.2)
    else (true, [], [])
  let c2 := c1 ++ params.2.1 ++ [HapiCall.GetNodeId s1.ConnectedAssetId]
  -- The curve node has now been created and set up, we can upload points
  let uploadPoints : Bool := R.GetNodeId.isSome && s1.InputCurve.isSome
  if uploadPoints && !R.CreateCurveAsset then
    FailUpload s1 (c2 ++ [HapiCall.CreateCurveAsset HostAssetId s1.ConnectedAssetId])
      (params.2.2 ++ [HapiCall.CreateCurveAsset HostAssetId s1.ConnectedAssetId]) []
  else if uploadPoints && !R.ReconnectCurve then
    FailUpload s1
      (c2 ++ [HapiCall.CreateCurveAsset HostAssetId s1.ConnectedAssetId,
        HapiCall.ConnectAsset s1.ConnectedAssetId 0 HostAssetId s1.InputIndex])
      (params.2.2 ++ [HapiCall.ConnectAsset s1.ConnectedAssetId 0 HostAssetId s1.InputIndex]) []
  else
    let c3 := c2 ++
      (if uploadPoints then
        [HapiCall.CreateCurveAsset HostAssetId s1.ConnectedAssetId,
          HapiCall.ConnectAsset s1.ConnectedAssetId 0 HostAssetId s1.InputIndex]
       else [])
    let n3 : List HostNote :=
      match s1.InputCurve with
      | some Curve =>
        -- We need to check that the SplineComponent has no offset.
        if bCreated && !H.CurveLocationIsZero Curve then
          [HostNote.CurveRelativeLocationReset Curve]
        else []
      | none => []
    let xform := UpdateObjectMergeTransformType H s1 R.TransformType
    -- Cook the spline asset.
    let c4 := c3 ++ xform.2.1 ++ [HapiCall.CookAsset s1.ConnectedAssetId]
    let f4 := params.2.2 ++ xform.2.2 ++
      (if R.CookCurve then [] else [HapiCall.CookAsset s1.ConnectedAssetId])
    let Success := params.1 && xform.1 && R.CookCurve
    -- We need to update the curve.
    let curve := UpdateInputCurve s1 R.Curve
    match curve.completion with
    | Completion.returned ok =>
      FinishUpload H { curve.state with bSwitchedToCurve := false } (Success && ok)
        (c4 ++ curve.calls) (f4 ++ curve.failed) (n3 ++ curve.notes)
    | _ => ⟨curve.state, c4 ++ curve.calls, f4 ++ curve.failed, n3 ++ curve.notes,
        Completion.aborted⟩

/-- The Curve case of `UploadParameterValue` from the parameter upload on
(`bCreated` tells whether the curve node was just created, `c1` are the calls
made so far), with the tail of the function that follows the `break`.  After
a load or a creation every held curve parameter gets the node id that the
info structure of the curve asset holds, before it is uploaded. -/
def UploadCurveInputCreated (H : Host) (s : UHoudiniAssetInput) (bCreated : Bool)
    (c1 : List HapiCall) (R : UploadReplies) (HostAssetId : Int) : InputRun Bool :=
  if s.bLoadedParameter || bCreated then
    UploadCurveInputPrepared H (SetCurveParameterNodeIds R.CurveAssetInfo.nodeId s) bCreated c1 R
      HostAssetId
  else UploadCurveInputPrepared H s bCreated c1 R HostAssetId

/-- The Curve case of `UploadParameterValue`, with the tail of the function
that follows its `break`. -/
def UploadCurveInput (H : Host) (s : UHoudiniAssetInput) (R : UploadReplies)
    (HostAssetId : Int) : InputRun Bool :=
  -- If we have no curve asset, create it.
  if !IsValidAssetId s.ConnectedAssetId then
    match R.CreateCurve with
    | none => FailUpload s [HapiCall.CreateCurve none] [HapiCall.CreateCurve none] []
    | some CurveId =>
      -- Connect asset.
      if !R.ConnectCurve then
        FailUpload { s with ConnectedAssetId := (CurveId : Int) }
          [HapiCall.CreateCurve (some (CurveId : Int)),
            HapiCall.ConnectAsset (CurveId : Int) 0 HostAssetId s.InputIndex]
          [HapiCall.ConnectAsset (CurveId : Int) 0 HostAssetId s.InputIndex] []
      else
        UploadCurveInputCreated H { s with ConnectedAssetId := (CurveId : Int) } true
          [HapiCall.CreateCurve (some (CurveId : Int)),
            HapiCall.ConnectAsset (CurveId : Int) 0 HostAssetId s.InputIndex]
          R HostAssetId
  else UploadCurveInputCreated H s false [] R HostAssetId

/-- `UHoudiniAssetInput::UploadParameterValue`. -/
def UploadParameterValue (H : Host) (s : UHoudiniAssetInput) (R : UploadReplies) :
    InputRun Bool :=
  match s.HoudiniAssetComponent with
  | none => ⟨s, [], [], [], Completion.returned false⟩
  | some Component =>
    let HostAssetId := H.GetAssetId Component
    match s.ChoiceIndex with
    | EHoudiniAssetInputType.GeometryInput =>
      if s.InputObjects.length == 0 then
        -- Either mesh was reset or null mesh has been assigned.
        let d := DisconnectAndDestroyInputAsset H s
        FinishUpload H d.state true d.calls [] d.notes
      else if s.bStaticMeshChanged || s.bLoadedParameter then
        -- Disconnect and destroy currently connected asset, if there's one.
        let d := DisconnectAndDestroyInputAsset H s
        -- Connect input and create connected asset. Will return by reference.
        let s1 := { d.state with ConnectedAssetId := R.CreateAndConnect.ConnectedAssetId,
                                 GeometryInputAssetIds := R.CreateAndConnect.GeometryInputAssetIds }
        let c1 := d.calls ++
          [HapiCall.CreateAndConnectGeometry HostAssetId s.InputIndex d.state.InputObjects
            R.CreateAndConnect.Created]
        if !R.CreateAndConnect.ok then
          FailUpload s1 c1
            [HapiCall.CreateAndConnectGeometry HostAssetId s.InputIndex d.state.InputObjects
              R.CreateAndConnect.Created]
            d.notes
        else
          let s2 := { s1 with bStaticMeshChanged := false }
          let xform := UpdateObjectMergeTransformType H s2 R.TransformType
          FinishUpload H s2 xform.1 (c1 ++ xform.2.1) xform.2.2 d.notes
      else
        let xform := UpdateObjectMergeTransformType H s R.TransformType
        FinishUpload H s xform.1 xform.2.1 xform.2.2 []
    | EHoudiniAssetInputType.AssetInput =>
      -- Process connected asset.
      if (match s.InputAssetComponent with
          | some Upstream => IsValidAssetId (H.GetAssetId Upstream)
          | none => false) && !s.bInputAssetConnectedInHoudini then
        let c := ConnectInputAssetActor H s
        let xform := UpdateObjectMergeTransformType H c.state R.TransformType
        FinishUpload H c.state xform.1 (c.calls ++ xform.2.1) xform.2.2 c.notes
      else if s.bInputAssetConnectedInHoudini && s.InputAssetComponent.isNone then
        let d := DisconnectInputAssetActor H s
        FinishUpload H d.state true d.calls [] d.notes
      else ⟨{ s with bChanged := false }, [], [], [], Completion.returned false⟩
    | EHoudiniAssetInputType.CurveInput =>
      UploadCurveInput H s R HostAssetId
    | EHoudiniAssetInputType.LandscapeInput =>
      match s.InputLandscapeProxy with
      | some _ =>
        -- Disconnect and destroy currently connected asset, if there's one.
        let d := DisconnectAndDestroyInputAsset H s
        let s1 := { d.state with ConnectedAssetId := R.CreateAndConnect.ConnectedAssetId }
        let c1 := d.calls ++
          [HapiCall.CreateAndConnectAsset HostAssetId s.InputIndex R.CreateAndConnect.Created]
        if !R.CreateAndConnect.ok then
          FailUpload s1 c1
            [HapiCall.CreateAndConnectAsset HostAssetId s.InputIndex R.CreateAndConnect.Created]
            d.notes
        else
          let xform := UpdateObjectMergeTransformType H s1 R.TransformType
          FinishUpload H s1 xform.1 (c1 ++ xform.2.1) xform.2.2 d.notes
      | none =>
        -- Either landscape was reset or null landscape has been assigned.
        let d := DisconnectAndDestroyInputAsset H s
        FinishUpload H d.state true d.calls [] d.notes
    | EHoudiniAssetInputType.WorldInput =>
      if s.InputOutlinerMeshArray.length > 0 then
        if s.bStaticMeshChanged || s.bLoadedParameter then
          -- Disconnect and destroy currently connected asset, if there's one.
          let d := DisconnectAndDestroyInputAsset H s
          let s1 := { d.state with ConnectedAssetId := R.CreateAndConnect.ConnectedAssetId,
                                   InputOutlinerMeshArray := R.CreateAndConnect.OutlinerMeshArray }
          let c1 := d.calls ++
            [HapiCall.CreateAndConnectAsset HostAssetId s.InputIndex R.CreateAndConnect.Created]
          if !R.CreateAndConnect.ok then
            FailUpload s1 c1
              [HapiCall.CreateAndConnectAsset HostAssetId s.InputIndex R.CreateAndConnect.Created]
              d.notes
          else
            let s2 := { s1 with bStaticMeshChanged := false }
            let xform := UpdateObjectMergeTransformType H s2 R.TransformType
            FinishUpload H s2 xform.1 (c1 ++ xform.2.1) xform.2.2 d.notes
        else
          let xform := UpdateObjectMergeTransformType H s R.TransformType
          FinishUpload H s xform.1 xform.2.1 xform.2.2 []
      else
        -- Either mesh was reset or null mesh has been assigned.
        let d := DisconnectAndDestroyInputAsset H s
        FinishUpload H d.state true d.calls [] d.notes

/-- Modelled from the spec: `UHoudiniAssetParameter::MarkChanged` is defined
outside these sources; a setter "marks the owning document dirty and requests
re-upload": the changed flag is set and the host is told. -/
def MarkChanged (s : UHoudiniAssetInput) : UHoudiniAssetInput × List HostNote :=
  ({ s with bChanged := true }, [HostNote.MarkChanged])

/-- The second `switch` of `ChangeInputType`: the set-up of the new kind,
followed by `MarkPreChanged(); MarkChanged(); return true;`. -/
def SetUpInputType (H : Host) (s : UHoudiniAssetInput) (newType : EHoudiniAssetInputType)
    (R : CreateAndConnectReply) (calls : List HapiCall) (notes : List HostNote) :
    InputRun Bool :=
  let marked (s1 : UHoudiniAssetInput) (c : List HapiCall) (n : List HostNote) : InputRun Bool :=
    ⟨(MarkChanged s1).1, c, [], n ++ [HostNote.MarkPreChanged] ++ (MarkChanged s1).2,
      Completion.returned true⟩
  match newType with
  | EHoudiniAssetInputType.GeometryInput =>
    -- We are switching to geometry input.
    if s.InputObjects.length != 0 then marked { s with bStaticMeshChanged := true } calls notes
    else marked s calls notes
  | EHoudiniAssetInputType.AssetInput =>
    -- We are switching to asset input.
    let c := ConnectInputAssetActor H s
    match c.completion with
    | Completion.returned _ => marked c.state (calls ++ c.calls) (notes ++ c.notes)
    | _ => ⟨c.state, calls ++ c.calls, [], notes ++ c.notes, Completion.aborted⟩
  | EHoudiniAssetInputType.CurveInput =>
    -- We are switching to curve input: create new spline component if necessary.
    match s.InputCurve, s.HoudiniAssetComponent with
    | none, none => ⟨s, calls, [], notes, Completion.aborted⟩
    | none, some _ =>
      marked { s with InputCurve := some H.NewSplineComponent, bSwitchedToCurve := true } calls
        (notes ++ [HostNote.CurveAttached H.NewSplineComponent])
    | some Curve, _ =>
      marked { s with bSwitchedToCurve := true } calls (notes ++ [HostNote.CurveAttached Curve])
  | EHoudiniAssetInputType.LandscapeInput =>
    -- We are switching to Landscape input.
    marked s calls notes
  | EHoudiniAssetInputType.WorldInput =>
    -- Start monitoring the Actors for transform changes.
    let t := StartWorldOutlinerTicking H s
    -- Force recook and reconnect of the input assets.
    match t.1.HoudiniAssetComponent with
    | none => ⟨t.1, calls, [], notes ++ t.2, Completion.aborted⟩
    | some Component =>
      marked { t.1 with ConnectedAssetId := R.ConnectedAssetId,
                        InputOutlinerMeshArray := R.OutlinerMeshArray }
        (calls ++ [HapiCall.CreateAndConnectAsset (H.GetAssetId Component) s.InputIndex R.Created])
        (notes ++ t.2)

/-- `UHoudiniAssetInput::ChangeInputType`.  The result of the create-and-connect
call of the World set-up is discarded by the source. -/
def ChangeInputType (H : Host) (s : UHoudiniAssetInput) (newType : EHoudiniAssetInputType)
    (R : CreateAndConnectReply) : InputRun Bool :=
  -- Tear down the current kind.
  let torn : InputRun Unit :=
    match s.ChoiceIndex with
    | EHoudiniAssetInputType.GeometryInput => ⟨s, [], [], [], Completion.returned ()⟩
    | EHoudiniAssetInputType.AssetInput => DisconnectInputAssetActor H s
    | EHoudiniAssetInputType.CurveInput =>
      ⟨s, [], [], DisconnectInputCurve s, Completion.returned ()⟩
    | EHoudiniAssetInputType.LandscapeInput =>
      ⟨{ s with InputLandscapeProxy := none }, [], [], [], Completion.returned ()⟩
    | EHoudiniAssetInputType.WorldInput =>
      ⟨(StopWorldOutlinerTicking H s).1, [], [], (StopWorldOutlinerTicking H s).2,
        Completion.returned ()⟩
  match torn.completion with
  | Completion.returned _ =>
    -- Disconnect currently connected asset.
    let d := DisconnectAndDestroyInputAsset H torn.state
    -- Make sure we'll fully update the editor properties
    let n2 : List HostNote :=
      match d.state.InputAssetComponent with
      | some Upstream =>
        if d.state.ChoiceIndex != newType then [HostNote.EditorPropertiesNeedFullUpdate Upstream]
        else []
      | none => []
    -- Switch mode.
    SetUpInputType H { d.state with ChoiceIndex := newType } newType R
      (torn.calls ++ d.calls) (torn.notes ++ d.notes ++ n2)
  | _ => ⟨torn.state, torn.calls, [], torn.notes, Completion.aborted⟩

/-- Session answers in which every call succeeds: create-and-connect yields
node 9 (with geometry node 8), the curve node is 5. -/
def okReplies : UploadReplies :=
  { CreateAndConnect :=
      { ok := true, ConnectedAssetId := 9, GeometryInputAssetIds := [8],
        OutlinerMeshArray := [], Created := [8, 9] }
    TransformType :=
      { HostAssetInfo := some ⟨1, 0, 1⟩, InputNodeId := some 2, SetXformType := true,
        AssetInfo := some ⟨3, 0, 0⟩, EntryInputNodeId := fun _ => some 4,
        SetEntryXformType := fun _ => true }
    CreateCurve := some 5
    ConnectCurve := true
    CurveAssetInfo := ⟨6, 0, 0⟩
    ParameterUpload := fun _ => true
    GetNodeId := some 6
    CreateCurveAsset := true
    ReconnectCurve := true
    CookCurve := true
    Curve :=
      { GetNodeId := some 6, NodeInfo := some ⟨6, 1, 0, 0, 0⟩,
        Parameters := some (fun i => ⟨(i : Int), 0, false, HAPI_ParmType.INT, 0⟩),
        ParmIntValues := true, ParmFloatValues := true, ParmStringValues := true,
        ParmName := fun _ => some "type", ParameterCreated := fun _ => true,
        GUnrealEd := true } }

end UHoudiniAssetInput

/-! ## Change detection for splines, the monitor tick, editing and loading -/

/-- The configured default of the runtime settings
(`UHoudiniRuntimeSettings`), as far as the sources read it. -/
structure UHoudiniRuntimeSettings where
  MarshallingSplineResolution : ℚ

/-- What the sources read of the configuration: the default settings object
(`GetDefault< UHoudiniRuntimeSettings >()`, `none` for `nullptr`) and the
constant `HAPI_UNREAL_PARAM_SPLINE_RESOLUTION_DEFAULT`, whose value is defined
outside these sources. -/
structure FSplineSettings where
  HoudiniRuntimeSettings : Option UHoudiniRuntimeSettings
  HAPI_UNREAL_PARAM_SPLINE_RESOLUTION_DEFAULT : ℚ

namespace FHoudiniAssetInputOutlinerMesh

/-- `FHoudiniAssetInputOutlinerMesh::RebuildSplineTransformsArrayIfNeeded`.
The number of points of a spline component is not negative. -/
def RebuildSplineTransformsArrayIfNeeded (H : Host) (E : FHoudiniAssetInputOutlinerMesh) :
    FHoudiniAssetInputOutlinerMesh :=
  -- We need an Unreal spline
  match E.SplineComponent with
  | none => E
  | some Spline =>
    -- If those are different, the input component has changed
    if E.NumberOfSplineControlPoints != (H.SplineComponents Spline).NumberOfSplinePoints then E
    -- If those are equals, there's no need to rebuild the array
    else if (E.SplineControlPointsTransform.length : Int)
        == (H.SplineComponents Spline).NumberOfSplinePoints then E
    else
      let Rebuilt : List FTransform :=
        (List.range (H.SplineComponents Spline).NumberOfSplinePoints.toNat).map
          (H.SplineComponents Spline).TransformAtSplinePointLocal
      { E with SplineControlPointsTransform := Rebuilt }

/-- One iteration of the per-point loop of `HasSplineComponentChanged`: the
cached transform of point `n` against the live spline. -/
def SplinePointChanged (Spline : USplineComponent) (T : FTransform) (n : Nat) : Bool :=
  if !T.Translation.Equals (Spline.LocationAtSplinePointLocal n) KINDA_SMALL_NUMBER then true
  else if !T.Rotation.Equals (Spline.QuaternionAtSplinePointWorld n) KINDA_SMALL_NUMBER then true
  else if !T.Scale3D.Equals (Spline.ScaleAtSplinePoint n) KINDA_SMALL_NUMBER then true
  else false

/-- The per-point loop of `HasSplineComponentChanged` over the cached
transforms of the points `n, n+1, ...`. -/
def AnySplinePointChanged (Spline : USplineComponent) : List FTransform → Nat → Bool
  | [], _ => false
  | T :: rest, n =>
    if SplinePointChanged Spline T n then true
    else AnySplinePointChanged Spline rest (n + 1)

/-- The resolution `HasSplineComponentChanged` compares with: its argument,
or, when the argument is the probe value -1, the configured default. -/
def EffectiveSplineResolution (Settings : FSplineSettings)
    (fCurrentSplineResolution : ℚ) : ℚ :=
  if fCurrentSplineResolution == -1 then
    match Settings.HoudiniRuntimeSettings with
    | some HoudiniRuntimeSettings => HoudiniRuntimeSettings.MarshallingSplineResolution
    | none => Settings.HAPI_UNREAL_PARAM_SPLINE_RESOLUTION_DEFAULT
  else fCurrentSplineResolution

/-- `FHoudiniAssetInputOutlinerMesh::HasSplineComponentChanged`. -/
def HasSplineComponentChanged (H : Host) (Settings : FSplineSettings)
    (E : FHoudiniAssetInputOutlinerMesh) (fCurrentSplineResolution : ℚ) : Bool :=
  match E.SplineComponent with
  | none => false
  | some Spline =>
    -- Total length of the spline has changed ?
    if (H.SplineComponents Spline).SplineLength != E.SplineLength then true
    -- Number of CVs has changed ?
    else if E.NumberOfSplineControlPoints != (H.SplineComponents Spline).NumberOfSplinePoints
      then true
    else if (E.SplineControlPointsTransform.length : Int)
        != (H.SplineComponents Spline).NumberOfSplinePoints then true
    -- Current Spline resolution has changed?
    else if E.SplineResolution != EffectiveSplineResolution Settings fCurrentSplineResolution
      then true
    -- Has any of the CV's transform been modified?
    else AnySplinePointChanged (H.SplineComponents Spline) E.SplineControlPointsTransform 0

end FHoudiniAssetInputOutlinerMesh

/-- A spline of one point at the given local location, of length 0, with
identity rotation and unit scale. -/
def onePointSpline (Location : FVector) : USplineComponent :=
  { ComponentTransform := FTransform.Identity, SplineLength := 0, NumberOfSplinePoints := 1,
    LocationAtSplinePointLocal := fun _ => Location,
    QuaternionAtSplinePointWorld := fun _ => ⟨0, 0, 0, 1⟩,
    ScaleAtSplinePoint := fun _ => ⟨1, 1, 1⟩,
    TransformAtSplinePointLocal := fun _ => ⟨⟨0, 0, 0, 1⟩, Location, ⟨1, 1, 1⟩⟩ }

/-- A host whose spline components are all the given spline. -/
def hostWithSpline (Spline : USplineComponent) : Host :=
  { Actors := fun _ => ⟨FTransform.Identity, false⟩
    StaticMeshComponents := fun _ => ⟨FTransform.Identity⟩
    SplineComponents := fun _ => Spline
    GetAssetId := fun _ => 100
    GetOwner := fun _ => some 0
    GEditor := true
    NewSplineComponent := 50
    SuperUploadParameterValue := fun _ => (false, true)
    CurveLocationIsZero := fun _ => false }

/-- An entry of spline component 0 that caches one control point at the
origin, length 0 and resolution 50. -/
def splineEntry : FHoudiniAssetInputOutlinerMesh :=
  { Actor := some 0, StaticMeshComponent := none, StaticMesh := none,
    SplineComponent := some 0, NumberOfSplineControlPoints := 1,
    SplineControlPointsTransform := [FTransform.Identity], SplineLength := 0,
    SplineResolution := 50,
    ActorTransform := FTransform.Identity, ComponentTransform := FTransform.Identity,
    AssetId := -1, KeepWorldTransform := 2 }

/-- A configuration without a settings object, whose constant is 50. -/
def demoSettings : FSplineSettings :=
  { HoudiniRuntimeSettings := none, HAPI_UNREAL_PARAM_SPLINE_RESOLUTION_DEFAULT := 50 }

namespace UHoudiniAssetInput

/-- The local `nTransformType` of `UpdateObjectMergeTransformType`, the value
the function pushes. -/
def nTransformType (s : UHoudiniAssetInput) : Nat :=
  if s.bKeepWorldTransform == 2 then s.GetDefaultTranformTypeValue
  else if s.bKeepWorldTransform != 0 then 1
  else 0

/-- The body of `UHoudiniAssetInput::UpdateWorldOutlinerTransforms` for an
entry whose actor is `Actor`. -/
def UpdateWorldOutlinerTransformsOf (H : Host) (s : UHoudiniAssetInput)
    (OutlinerMesh : FHoudiniAssetInputOutlinerMesh) (Actor : Nat) :
    FHoudiniAssetInputOutlinerMesh :=
  -- Update to the new Transforms
  let E1 := { OutlinerMesh with ActorTransform := (H.Actors Actor).Transform }
  let E2 :=
    match E1.StaticMeshComponent with
    | some Mesh => { E1 with ComponentTransform := (H.StaticMeshComponents Mesh).ComponentTransform }
    | none => E1
  let E3 :=
    match E2.SplineComponent with
    | some Spline => { E2 with ComponentTransform := (H.SplineComponents Spline).ComponentTransform }
    | none => E2
  { E3 with KeepWorldTransform := s.bKeepWorldTransform }

/-- `UHoudiniAssetInput::UpdateWorldOutlinerTransforms`; `none` when the
entry has no actor (the source dereferences it). -/
def UpdateWorldOutlinerTransforms (H : Host) (s : UHoudiniAssetInput)
    (OutlinerMesh : FHoudiniAssetInputOutlinerMesh) : Option FHoudiniAssetInputOutlinerMesh :=
  match OutlinerMesh.Actor with
  | none => none
  | some Actor => some (UpdateWorldOutlinerTransformsOf H s OutlinerMesh Actor)

/-- The locals of `TickWorldOutlinerInputs` during its loop over the tracked
entries, with the entries as the loop has left them so far, the flag
`bStaticMeshChanged` of the input, what was sent and told, and whether the
loop is still running (`false` once a null actor was dereferenced). -/
structure FTickScan where
  Entries : List FHoudiniAssetInputOutlinerMesh
  bLocalChanged : Bool
  bStaticMeshChanged : Bool
  InputOutlinerMeshArrayPendingKill : List (Option Nat)
  calls : List HapiCall
  notes : List HostNote
  running : Bool

/-- `Modify(); MarkPreChanged(); bLocalChanged = true;` under
`if ( !bLocalChanged )`. -/
def TickMarkLocalChanged (acc : FTickScan) : FTickScan :=
  if !acc.bLocalChanged then
    { acc with bLocalChanged := true,
               notes := acc.notes ++ [HostNote.Modify, HostNote.MarkPreChanged] }
  else acc

/-- The body of the loop of `TickWorldOutlinerInputs` for one entry. -/
def TickEntry (H : Host) (Settings : FSplineSettings) (s : UHoudiniAssetInput)
    (OutlinerMesh : FHoudiniAssetInputOutlinerMesh) (acc : FTickScan) : FTickScan :=
  match OutlinerMesh.Actor with
  | none => { acc with Entries := acc.Entries ++ [OutlinerMesh], running := false }
  | some Actor =>
    if (H.Actors Actor).PendingKill then
      let a1 := TickMarkLocalChanged acc
      -- Destroy Houdini asset.
      let E1 := if IsValidAssetId OutlinerMesh.AssetId then { OutlinerMesh with AssetId := -1 }
        else OutlinerMesh
      let c := if IsValidAssetId OutlinerMesh.AssetId
        then [HapiCall.DestroyAsset OutlinerMesh.AssetId] else []
      -- Mark mesh for deletion.
      { a1 with Entries := a1.Entries ++ [E1],
                InputOutlinerMeshArrayPendingKill :=
                  a1.InputOutlinerMeshArrayPendingKill ++ [OutlinerMesh.StaticMeshComponent],
                calls := a1.calls ++ c }
    else if OutlinerMesh.HasActorTransformChanged H && decide (OutlinerMesh.AssetId ≥ 0) then
      let a1 := TickMarkLocalChanged acc
      -- Updates to the new Transform
      match UpdateWorldOutlinerTransforms H s OutlinerMesh with
      | none => { a1 with Entries := a1.Entries ++ [OutlinerMesh], running := false }
      | some E1 =>
        -- Apply it to the asset
        { a1 with Entries := a1.Entries ++ [E1],
                  calls := a1.calls ++ [HapiCall.SetAssetTransform E1.AssetId] }
    else if OutlinerMesh.HasComponentTransformChanged H
        || OutlinerMesh.HasSplineComponentChanged H Settings s.UnrealSplineResolution
        || OutlinerMesh.KeepWorldTransform != s.bKeepWorldTransform then
      let a1 := TickMarkLocalChanged acc
      -- Update to the new Transforms
      match UpdateWorldOutlinerTransforms H s OutlinerMesh with
      | none => { a1 with Entries := a1.Entries ++ [OutlinerMesh], running := false }
      | some E1 => { a1 with Entries := a1.Entries ++ [E1], bStaticMeshChanged := true }
    else { acc with Entries := acc.Entries ++ [OutlinerMesh] }

/-- The loop of `TickWorldOutlinerInputs` over the entries not yet visited;
the entries after a null actor are left as they are. -/
def TickScan (H : Host) (Settings : FSplineSettings) (s : UHoudiniAssetInput) :
    List FHoudiniAssetInputOutlinerMesh → FTickScan → FTickScan
  | [], acc => acc
  | OutlinerMesh :: rest, acc =>
    let a1 := TickEntry H Settings s OutlinerMesh acc
    if a1.running then TickScan H Settings s rest a1
    else { a1 with Entries := a1.Entries ++ rest }

/-- The `while` loop of `TickWorldOutlinerInputs`: the pending list is popped
from its end, and every entry whose static-mesh component is the popped one
is removed. -/
def TickPurge (Entries : List FHoudiniAssetInputOutlinerMesh) :
    List (Option Nat) → List FHoudiniAssetInputOutlinerMesh
  | [] => Entries
  | OutlinerMeshToKill :: rest =>
    (TickPurge Entries rest).filter
      (fun Element => !(Element.StaticMeshComponent == OutlinerMeshToKill))

/-- `UHoudiniAssetInput::TickWorldOutlinerInputs`.  The result of the
transform call is discarded by the source. -/
def TickWorldOutlinerInputs (H : Host) (Settings : FSplineSettings) (s : UHoudiniAssetInput) :
    InputRun Unit :=
  let scan := TickScan H Settings s s.InputOutlinerMeshArray
    ⟨[], false, s.bStaticMeshChanged, [], [], [], true⟩
  let s1 := { s with InputOutlinerMeshArray := scan.Entries,
                     bStaticMeshChanged := scan.bStaticMeshChanged }
  if !scan.running then ⟨s1, scan.calls, [], scan.notes, Completion.aborted⟩
  else if scan.bLocalChanged then
    -- Delete all tracked meshes slated for deletion above.
    let Purged := TickPurge scan.Entries scan.InputOutlinerMeshArrayPendingKill
    let s2 := { s1 with InputOutlinerMeshArray := Purged }
    ⟨(MarkChanged s2).1, scan.calls, [], scan.notes ++ (MarkChanged s2).2,
      Completion.returned ()⟩
  else ⟨s1, scan.calls, [], scan.notes, Completion.returned ()⟩

/-- `UHoudiniAssetInput::RemoveWorldOutlinerInput`.  `TArray::RemoveAt` stops
the program on an index outside the array. -/
def RemoveWorldOutlinerInput (s : UHoudiniAssetInput) (AtIndex : Int) : InputRun Unit :=
  let s1 := { s with bStaticMeshChanged := true }
  if RangeCheck AtIndex s1.InputOutlinerMeshArray.length then
    let Removed := s1.InputOutlinerMeshArray.eraseIdx AtIndex.toNat
    let s2 := { s1 with InputOutlinerMeshArray := Removed }
    ⟨(MarkChanged s2).1, [], [], [HostNote.Modify, HostNote.MarkPreChanged] ++ (MarkChanged s2).2,
      Completion.returned ()⟩
  else ⟨s1, [], [], [HostNote.Modify, HostNote.MarkPreChanged], Completion.aborted⟩

/-- An actor of the editor selection, with its static-mesh components (each
with the mesh it shows, `none` for no mesh) and its spline components. -/
structure FSelectedActor where
  Actor : Nat
  StaticMeshComponents : List (Nat × Option Nat)
  SplineComponents : List Nat

/-- The entries `OnButtonClickSelectActors` adds for one selected actor:
first one per static-mesh component that has a mesh, then one per spline
component.  `OutlinerMeshDefault` is a default-constructed entry (the
structure is declared outside these sources). -/
def SelectedActorEntries (H : Host) (s : UHoudiniAssetInput)
    (OutlinerMeshDefault : FHoudiniAssetInputOutlinerMesh) (A : FSelectedActor) :
    List FHoudiniAssetInputOutlinerMesh :=
  -- Looking for StaticMeshes
  (A.StaticMeshComponents.filterMap (fun C =>
    match C.2 with
    | none => none
    | some StaticMesh =>
      -- Add the mesh to the array
      some (UpdateWorldOutlinerTransformsOf H s
        { OutlinerMeshDefault with Actor := some A.Actor, StaticMeshComponent := some C.1,
                                   StaticMesh := some StaticMesh, SplineComponent := none,
                                   AssetId := -1 } A.Actor)))
  -- Looking for Splines
  ++ A.SplineComponents.map (fun SplineComponent =>
      -- Add the spline to the array
      UpdateWorldOutlinerTransformsOf H s
        { OutlinerMeshDefault with Actor := some A.Actor, StaticMeshComponent := none,
                                   StaticMesh := none, SplineComponent := some SplineComponent,
                                   AssetId := -1 } A.Actor)

/-- The loop of `OnButtonClickSelectActors` over the selection (`none` for a
selected object that is not an actor); the owner of the asset component is
skipped. -/
def SelectedEntries (H : Host) (s : UHoudiniAssetInput) (Owner : Option Nat)
    (OutlinerMeshDefault : FHoudiniAssetInputOutlinerMesh) :
    List (Option FSelectedActor) → List FHoudiniAssetInputOutlinerMesh
  | [] => []
  | none :: rest => SelectedEntries H s Owner OutlinerMeshDefault rest
  | some A :: rest =>
    -- Don't allow selection of ourselves. Bad things happen if we do.
    if some A.Actor == Owner then SelectedEntries H s Owner OutlinerMeshDefault rest
    else SelectedActorEntries H s OutlinerMeshDefault A
      ++ SelectedEntries H s Owner OutlinerMeshDefault rest

/-- `UHoudiniAssetInput::OnButtonClickSelectActors`.  `DetailsView` is `none`
when the details panel is not found and else tells whether it is locked;
`SelectedObjects` tells whether the editor has a selection set;
`SelectedActors` is the editor selection. -/
def OnButtonClickSelectActors (H : Host) (s : UHoudiniAssetInput) (DetailsView : Option Bool)
    (SelectedObjects : Bool) (OutlinerMeshDefault : FHoudiniAssetInputOutlinerMesh)
    (SelectedActors : List (Option FSelectedActor)) : InputRun Unit :=
  match DetailsView with
  | none => ⟨s, [], [], [], Completion.returned ()⟩
  | some false =>
    -- Force refresh of details view and select the previously chosen input Actors.
    match s.HoudiniAssetComponent with
    | none => ⟨s, [], [], [], Completion.aborted⟩
    | some _ =>
      if !H.GEditor then ⟨s, [], [], [HostNote.UpdateEditorProperties], Completion.aborted⟩
      else ⟨s, [], [], [HostNote.UpdateEditorProperties, HostNote.NoteSelectionChange],
        Completion.returned ()⟩
  | some true =>
    if !H.GEditor || !SelectedObjects then ⟨s, [], [], [], Completion.returned ()⟩
    else
      -- Delete all assets and reset the array.
      let d := DisconnectAndDestroyInputAsset H { s with bStaticMeshChanged := true }
      let n1 := [HostNote.Modify, HostNote.MarkPreChanged] ++ d.notes
      match d.state.HoudiniAssetComponent with
      | none =>
        if SelectedActors.any Option.isSome then
          ⟨{ d.state with InputOutlinerMeshArray := [] }, d.calls, [], n1, Completion.aborted⟩
        else
          ⟨(MarkChanged { d.state with InputOutlinerMeshArray := [] }).1, d.calls, [],
            n1 ++ [HostNote.MarkChanged], Completion.aborted⟩
      | some Component =>
        let Added := SelectedEntries H d.state (H.GetOwner Component) OutlinerMeshDefault
          SelectedActors
        let s2 := (MarkChanged { d.state with InputOutlinerMeshArray := Added }).1
        let n2 := n1 ++ [HostNote.MarkChanged, HostNote.NoteSelectionChange,
          HostNote.UpdateEditorProperties]
        -- Start or stop the tick timer to check if the selected Actors have been transformed.
        if s2.InputOutlinerMeshArray.length > 0 then
          ⟨(StartWorldOutlinerTicking H s2).1, d.calls, [],
            n2 ++ (StartWorldOutlinerTicking H s2).2, Completion.returned ()⟩
        else
          ⟨(StopWorldOutlinerTicking H s2).1, d.calls, [],
            n2 ++ (StopWorldOutlinerTicking H s2).2, Completion.returned ()⟩

end UHoudiniAssetInput

/-- A host in which exactly the actors told by `Killed` are pending
deletion, and every spline is the one-point spline at the origin. -/
def hostWithPendingKill (Killed : Nat → Bool) : Host :=
  { Actors := fun Actor => ⟨FTransform.Identity, Killed Actor⟩
    StaticMeshComponents := fun _ => ⟨FTransform.Identity⟩
    SplineComponents := fun _ => onePointSpline ⟨0, 0, 0⟩
    GetAssetId := fun _ => 100
    GetOwner := fun _ => some 0
    GEditor := true
    NewSplineComponent := 50
    SuperUploadParameterValue := fun _ => (false, true)
    CurveLocationIsZero := fun _ => false }

/-- A World input of asset component 1 that tracks the given entries while
its monitor timer is bound. -/
def trackingInput (Entries : List FHoudiniAssetInputOutlinerMesh) : UHoudiniAssetInput :=
  { UHoudiniAssetInput.Constructed with
      ChoiceIndex := EHoudiniAssetInputType.WorldInput, InputOutlinerMeshArray := Entries,
      ConnectedAssetId := 9, WorldOutlinerTimerBound := true }

/-- The invariant the specification states for the monitor timer: whenever
the timer is bound, the tracked outliner array is not empty. -/
def TimerInvariant (s : UHoudiniAssetInput) : Bool :=
  !s.WorldOutlinerTimerBound || !s.InputOutlinerMeshArray.isEmpty

namespace UHoudiniAssetInput

/-- `UHoudiniAssetInput::GetInputObject`. -/
def GetInputObject (s : UHoudiniAssetInput) (AtIndex : Int) : Option Nat :=
  if RangeCheck AtIndex s.InputObjects.length then (s.InputObjects.getD AtIndex.toNat none)
  else none

/-- `UHoudiniAssetInput::OnStaticMeshDropped`.  The last statement
dereferences the asset component. -/
def OnStaticMeshDropped (s : UHoudiniAssetInput) (InObject : Option Nat) (AtIndex : Int) :
    InputRun Unit :=
  if InObject != s.GetInputObject AtIndex then
    let n1 := [HostNote.Modify, HostNote.MarkPreChanged]
    if RangeCheck AtIndex s.InputObjects.length then
      let Objects := s.InputObjects.set AtIndex.toNat InObject
      let s1 := { s with InputObjects := Objects, bStaticMeshChanged := true }
      match s1.HoudiniAssetComponent with
      | none => ⟨(MarkChanged s1).1, [], [], n1 ++ (MarkChanged s1).2, Completion.aborted⟩
      | some _ =>
        ⟨(MarkChanged s1).1, [], [],
          n1 ++ (MarkChanged s1).2 ++ [HostNote.UpdateEditorProperties], Completion.returned ()⟩
    else if AtIndex == 0 then
      let Objects := s.InputObjects ++ [InObject]
      let s1 := { s with InputObjects := Objects, bStaticMeshChanged := true }
      match s1.HoudiniAssetComponent with
      | none => ⟨(MarkChanged s1).1, [], [], n1 ++ (MarkChanged s1).2, Completion.aborted⟩
      | some _ =>
        ⟨(MarkChanged s1).1, [], [],
          n1 ++ (MarkChanged s1).2 ++ [HostNote.UpdateEditorProperties], Completion.returned ()⟩
    else
      -- check( AtIndex == 0 )
      ⟨s, [], [], n1, Completion.aborted⟩
  else ⟨s, [], [], [], Completion.returned ()⟩

/-- `UHoudiniAssetInput::OnResetStaticMeshClicked`. -/
def OnResetStaticMeshClicked (s : UHoudiniAssetInput) (AtIndex : Int) : InputRun Unit :=
  OnStaticMeshDropped s none AtIndex

/-- A Geometry input of asset component 1 that holds the meshes 3 and 4 and
has been uploaded: its node 9 (with geometry node 8) is connected and the
mesh-changed and loaded flags are clear. -/
def uploadedGeometryInput : UHoudiniAssetInput :=
  { UHoudiniAssetInput.Constructed with
      InputObjects := [some 3, some 4], ConnectedAssetId := 9, GeometryInputAssetIds := [8] }

/-- The answers of `okReplies`, except that create-and-connect fails. -/
def createFailsReplies : UploadReplies :=
  { okReplies with CreateAndConnect := ⟨false, -1, [], [], []⟩ }

end UHoudiniAssetInput

/-! ## Loading (`Serialize` on a loading archive) -/

/-- The version constants the two `Serialize` functions compare with; their
values are defined in `HoudiniPluginSerializationVersion.h`, outside these
sources. -/
structure FHoudiniSerializationVersions where
  VER_HOUDINI_PLUGIN_SERIALIZATION_VERSION_MULTI_GEO_INPUT : Int
  VER_HOUDINI_ENGINE_PARAM_LANDSCAPE_INPUT : Int
  VER_HOUDINI_ENGINE_PARAM_WORLD_OUTLINER_INPUT : Int
  VER_HOUDINI_PLUGIN_SERIALIZATION_VERSION_UNREAL_SPLINE_RESOLUTION_PER_INPUT : Int
  VER_HOUDINI_PLUGIN_SERIALIZATION_VERSION_ADDED_UNREAL_SPLINE : Int
  VER_HOUDINI_PLUGIN_SERIALIZATION_VERSION_ADDED_KEEP_TRANSFORM : Int

/-- What a loading archive yields at each `Ar << member` of
`FHoudiniAssetInputOutlinerMesh::Serialize`, by member.  A member the
function does not read at the archived version is never asked for. -/
structure FOutlinerMeshArchive where
  HoudiniAssetParameterVersion : Int
  Actor : Option Nat
  StaticMeshComponent : Option Nat
  StaticMesh : Option Nat
  ActorTransform : FTransform
  AssetId : Int
  SplineComponent : Option Nat
  NumberOfSplineControlPoints : Int
  SplineLength : ℚ
  SplineResolution : ℚ
  ComponentTransform : FTransform
  KeepWorldTransform : Nat

/-- Modelled from the spec: the "packed boolean-flags word"
`HoudiniAssetInputFlagsPacked`.  The members packed into it are declared in
the header, outside these sources; the word is taken to hold the flag members
of the input. -/
structure FHoudiniAssetInputFlags where
  bStaticMeshChanged : Bool
  bSwitchedToCurve : Bool
  bLoadedParameter : Bool
  bInputAssetConnectedInHoudini : Bool
  bLandscapeInputSelectionOnly : Bool
  bLandscapeExportCurves : Bool
  bLandscapeExportFullGeometry : Bool
  bLandscapeExportMaterials : Bool
  bLandscapeExportLighting : Bool
  bLandscapeExportNormalizedUVs : Bool
  bLandscapeExportTileUVs : Bool
  bKeepWorldTransform : Nat

/-- What a loading archive (`Ar.IsLoading()` holds) yields at each
`Ar << member` of `UHoudiniAssetInput::Serialize`, by member, with whether it
is a transaction archive (undo/redo).  `HoudiniAssetParameterVersion` is the
version tag read by the base class. -/
structure FHoudiniAssetInputArchive where
  IsTransacting : Bool
  HoudiniAssetParameterVersion : Int
  ChoiceIndex : EHoudiniAssetInputType
  ChoiceStringValue : String
  HoudiniAssetInputFlagsPacked : FHoudiniAssetInputFlags
  InputIndex : Int
  InputObjects : List (Option Nat)
  InputObject : Option Nat
  InputAssetComponent : Option Nat
  InputCurve : Option Nat
  InputCurveParameters : List (String × Option FCurveParameter)
  InputLandscapeProxy : Option Nat
  InputOutlinerMeshArray : List FOutlinerMeshArchive
  UnrealSplineResolution : ℚ

/-- What `UHoudiniAssetInput::Serialize` did on a loading archive: the input
afterwards, the members it read in order, and what it did to other host
objects. -/
structure FSerializeRun where
  state : UHoudiniAssetInput
  reads : List String
  notes : List HostNote

namespace FHoudiniAssetInputOutlinerMesh

/-- `FHoudiniAssetInputOutlinerMesh::Serialize` on a loading archive: the
entry afterwards and the members read, in order.  The entry's own member
`HoudiniAssetParameterVersion` is overwritten by the archived tag and used
by this function only. -/
def Serialize (V : FHoudiniSerializationVersions) (IsTransacting : Bool)
    (Ar : FOutlinerMeshArchive) (E : FHoudiniAssetInputOutlinerMesh) :
    FHoudiniAssetInputOutlinerMesh × List String :=
  let HoudiniAssetParameterVersion := Ar.HoudiniAssetParameterVersion
  let E1 := { E with Actor := Ar.Actor, StaticMeshComponent := Ar.StaticMeshComponent,
                     StaticMesh := Ar.StaticMesh, ActorTransform := Ar.ActorTransform,
                     AssetId := if !IsTransacting then -1 else Ar.AssetId }
  let r1 := ["HoudiniAssetParameterVersion", "Actor", "StaticMeshComponent", "StaticMesh",
    "ActorTransform", "AssetId"]
  let E2 :=
    if HoudiniAssetParameterVersion
        ≥ V.VER_HOUDINI_PLUGIN_SERIALIZATION_VERSION_ADDED_UNREAL_SPLINE then
      { E1 with SplineComponent := Ar.SplineComponent,
                NumberOfSplineControlPoints := Ar.NumberOfSplineControlPoints,
                SplineLength := Ar.SplineLength, SplineResolution := Ar.SplineResolution,
                ComponentTransform := Ar.ComponentTransform }
    else E1
  let r2 :=
    if HoudiniAssetParameterVersion
        ≥ V.VER_HOUDINI_PLUGIN_SERIALIZATION_VERSION_ADDED_UNREAL_SPLINE then
      r1 ++ ["SplineComponent", "NumberOfSplineControlPoints", "SplineLength",
        "SplineResolution", "ComponentTransform"]
    else r1
  if HoudiniAssetParameterVersion
      ≥ V.VER_HOUDINI_PLUGIN_SERIALIZATION_VERSION_ADDED_KEEP_TRANSFORM then
    ({ E2 with KeepWorldTransform := Ar.KeepWorldTransform }, r2 ++ ["KeepWorldTransform"])
  else (E2, r2)

end FHoudiniAssetInputOutlinerMesh

namespace UHoudiniAssetInput

/-- Modelled from the spec: `UHoudiniAssetParameter::Serialize`, the base
implementation, is defined outside these sources; the serialized layout
starts with "a version tag", which on loading becomes
`HoudiniAssetParameterVersion`. -/
def SuperSerialize (Ar : FHoudiniAssetInputArchive) (s : UHoudiniAssetInput) :
    UHoudiniAssetInput :=
  { s with HoudiniAssetParameterVersion := Ar.HoudiniAssetParameterVersion }

/-- `Ar << HoudiniAssetInputFlagsPacked` on a loading archive. -/
def LoadFlagsPacked (F : FHoudiniAssetInputFlags) (s : UHoudiniAssetInput) :
    UHoudiniAssetInput :=
  { s with bStaticMeshChanged := F.bStaticMeshChanged, bSwitchedToCurve := F.bSwitchedToCurve,
           bLoadedParameter := F.bLoadedParameter,
           bInputAssetConnectedInHoudini := F.bInputAssetConnectedInHoudini,
           bLandscapeInputSelectionOnly := F.bLandscapeInputSelectionOnly,
           bLandscapeExportCurves := F.bLandscapeExportCurves,
           bLandscapeExportFullGeometry := F.bLandscapeExportFullGeometry,
           bLandscapeExportMaterials := F.bLandscapeExportMaterials,
           bLandscapeExportLighting := F.bLandscapeExportLighting,
           bLandscapeExportNormalizedUVs := F.bLandscapeExportNormalizedUVs,
           bLandscapeExportTileUVs := F.bLandscapeExportTileUVs,
           bKeepWorldTransform := F.bKeepWorldTransform }

/-- `UHoudiniAssetInput::Serialize` on a loading archive.  A member read under
a version test keeps its value when the test fails.  An array is loaded by
loading each element into a default-constructed entry (`OutlinerMeshDefault`;
the structure is declared outside these sources). -/
def Serialize (V : FHoudiniSerializationVersions)
    (OutlinerMeshDefault : FHoudiniAssetInputOutlinerMesh) (Ar : FHoudiniAssetInputArchive)
    (s : UHoudiniAssetInput) : FSerializeRun :=
  -- Call base implementation.
  let s0 := SuperSerialize Ar s
  -- The version member is not written again in this function.
  let HoudiniAssetParameterVersion := s0.HoudiniAssetParameterVersion
  -- Serialize current choice selection.
  let s1 := { s0 with ChoiceIndex := Ar.ChoiceIndex, ChoiceStringValue := Ar.ChoiceStringValue }
  -- We need these temporary variables for undo state tracking.
  let bLocalInputAssetConnectedInHoudini := s1.bInputAssetConnectedInHoudini
  let LocalInputAssetComponent := s1.InputAssetComponent
  let s2 := LoadFlagsPacked Ar.HoudiniAssetInputFlagsPacked s1
  -- Serialize input index.
  let s3 := { s2 with InputIndex := Ar.InputIndex }
  let r3 := ["HoudiniAssetParameterVersion", "ChoiceIndex", "ChoiceStringValue",
    "HoudiniAssetInputFlagsPacked", "InputIndex"]
  -- Serialize input objects (if it's assigned).
  let multi : Bool := HoudiniAssetParameterVersion
    ≥ V.VER_HOUDINI_PLUGIN_SERIALIZATION_VERSION_MULTI_GEO_INPUT
  let s4 := { s3 with InputObjects := if multi then Ar.InputObjects else [Ar.InputObject] }
  let r4 := if multi then r3 ++ ["InputObjects"] else r3 ++ ["InputObject"]
  -- Serialize input asset, curve and curve parameters.
  let s5 := { s4 with InputAssetComponent := Ar.InputAssetComponent, InputCurve := Ar.InputCurve,
                      InputCurveParameters := Ar.InputCurveParameters }
  let r5 := r4 ++ ["InputAssetComponent", "InputCurve", "InputCurveParameters"]
  -- Serialize landscape used for input.
  let landscape : Bool := HoudiniAssetParameterVersion
    ≥ V.VER_HOUDINI_ENGINE_PARAM_LANDSCAPE_INPUT
  let s6 := { s5 with InputLandscapeProxy :=
                        if landscape then Ar.InputLandscapeProxy else s5.InputLandscapeProxy }
  let r6 := if landscape then r5 ++ ["InputLandscapeProxy"] else r5
  -- Serialize world outliner inputs.
  let world : Bool := HoudiniAssetParameterVersion
    ≥ V.VER_HOUDINI_ENGINE_PARAM_WORLD_OUTLINER_INPUT
  let Loaded := Ar.InputOutlinerMeshArray.map (fun A =>
    (FHoudiniAssetInputOutlinerMesh.Serialize V Ar.IsTransacting A OutlinerMeshDefault).1)
  let s7 := { s6 with InputOutlinerMeshArray := if world then Loaded else s6.InputOutlinerMeshArray }
  let r7 := if world then r6 ++ ["InputOutlinerMeshArray"] else r6
  -- Create necessary widget resources.
  let differs : Bool := LocalInputAssetComponent != s7.InputAssetComponent
  let connected : Bool :=
    if Ar.IsTransacting then
      if differs && s7.InputAssetComponent.isSome then false
      else bLocalInputAssetConnectedInHoudini
    else
      -- If we're loading for real for the first time we need to reset this flag.
      false
  let s9 := { s7 with bLoadedParameter := true, bInputAssetConnectedInHoudini := connected }
  let n9 : List HostNote :=
    if Ar.IsTransacting && differs then
      match LocalInputAssetComponent with
      | some Upstream => [HostNote.RemoveDownstreamAsset Upstream s9.InputIndex]
      | none => []
    else []
  let resolution : Bool := HoudiniAssetParameterVersion
    ≥ V.VER_HOUDINI_PLUGIN_SERIALIZATION_VERSION_UNREAL_SPLINE_RESOLUTION_PER_INPUT
  ⟨{ s9 with UnrealSplineResolution :=
               if resolution then Ar.UnrealSplineResolution else s9.UnrealSplineResolution },
    if resolution then r7 ++ ["UnrealSplineResolution"] else r7, n9⟩

end UHoudiniAssetInput

/-- A member of a serialized layout as the specification describes it: its
name, the version that introduced it (`none` when it was there from the
start) and the version from which it is no longer written (`none` when it
still is). -/
structure FLayoutMember where
  name : String
  introduced : Option Int
  replaced : Option Int

/-- Whether a member belongs to the layout written at the given version. -/
def FLayoutMember.presentAt (m : FLayoutMember) (version : Int) : Bool :=
  (match m.introduced with
    | none => true
    | some v => decide (v ≤ version)) &&
  (match m.replaced with
    | none => true
    | some v => decide (version < v))

/-- The members of a layout written at the given version, in order. -/
def MembersAt (layout : List FLayoutMember) (version : Int) : List String :=
  (layout.filter (fun m => m.presentAt version)).map (fun m => m.name)

/-- The serialized layout of a slot as the specification describes it: the
version tag, the kind, the flags word and the payload, of which the object
list (before it a single object), the landscape reference, the outliner array
and the spline resolution were each added at a version of their own. -/
def SlotLayout (V : FHoudiniSerializationVersions) : List FLayoutMember :=
  [⟨"HoudiniAssetParameterVersion", none, none⟩, ⟨"ChoiceIndex", none, none⟩,
    ⟨"ChoiceStringValue", none, none⟩, ⟨"HoudiniAssetInputFlagsPacked", none, none⟩,
    ⟨"InputIndex", none, none⟩,
    ⟨"InputObjects", some V.VER_HOUDINI_PLUGIN_SERIALIZATION_VERSION_MULTI_GEO_INPUT, none⟩,
    ⟨"InputObject", none, some V.VER_HOUDINI_PLUGIN_SERIALIZATION_VERSION_MULTI_GEO_INPUT⟩,
    ⟨"InputAssetComponent", none, none⟩, ⟨"InputCurve", none, none⟩,
    ⟨"InputCurveParameters", none, none⟩,
    ⟨"InputLandscapeProxy", some V.VER_HOUDINI_ENGINE_PARAM_LANDSCAPE_INPUT, none⟩,
    ⟨"InputOutlinerMeshArray", some V.VER_HOUDINI_ENGINE_PARAM_WORLD_OUTLINER_INPUT, none⟩,
    ⟨"UnrealSplineResolution",
      some V.VER_HOUDINI_PLUGIN_SERIALIZATION_VERSION_UNREAL_SPLINE_RESOLUTION_PER_INPUT, none⟩]

/-- The serialized layout of an outliner entry as the specification describes
it: the spline members and the keep-world-transform state were each added at
a version of their own. -/
def EntryLayout (V : FHoudiniSerializationVersions) : List FLayoutMember :=
  [⟨"HoudiniAssetParameterVersion", none, none⟩, ⟨"Actor", none, none⟩,
    ⟨"StaticMeshComponent", none, none⟩, ⟨"StaticMesh", none, none⟩,
    ⟨"ActorTransform", none, none⟩, ⟨"AssetId", none, none⟩,
    ⟨"SplineComponent", some V.VER_HOUDINI_PLUGIN_SERIALIZATION_VERSION_ADDED_UNREAL_SPLINE, none⟩,
    ⟨"NumberOfSplineControlPoints",
      some V.VER_HOUDINI_PLUGIN_SERIALIZATION_VERSION_ADDED_UNREAL_SPLINE, none⟩,
    ⟨"SplineLength", some V.VER_HOUDINI_PLUGIN_SERIALIZATION_VERSION_ADDED_UNREAL_SPLINE, none⟩,
    ⟨"SplineResolution", some V.VER_HOUDINI_PLUGIN_SERIALIZATION_VERSION_ADDED_UNREAL_SPLINE,
      none⟩,
    ⟨"ComponentTransform", some V.VER_HOUDINI_PLUGIN_SERIALIZATION_VERSION_ADDED_UNREAL_SPLINE,
      none⟩,
    ⟨"KeepWorldTransform", some V.VER_HOUDINI_PLUGIN_SERIALIZATION_VERSION_ADDED_KEEP_TRANSFORM,
      none⟩]

/-! ## Invalidation of node ids and further example values -/

namespace UHoudiniAssetInput

/-- `UHoudiniAssetInput::InvalidateNodeIds`. -/
def InvalidateNodeIds (s : UHoudiniAssetInput) : UHoudiniAssetInput :=
  { s with ConnectedAssetId := -1,
           InputOutlinerMeshArray :=
             s.InputOutlinerMeshArray.map (fun OutlinerInputMesh =>
               { OutlinerInputMesh with AssetId := -1 }) }

end UHoudiniAssetInput

namespace UHoudiniAssetInstance

/-- The session `readySession 0`, except that the cook state at the first
query is ready with fatal errors. -/
def fatalSession : HapiSession :=
  { readySession 0 with Status := [some HAPI_STATE_READY_WITH_FATAL_ERRORS] }

end UHoudiniAssetInstance

/-- A spline of one point at the origin, of length 0, whose component is
turned by half a turn about the vertical axis: the point's rotation is the
identity in local space and the half turn in world space. -/
def turnedSpline : USplineComponent :=
  { ComponentTransform := ⟨⟨0, 0, 1, 0⟩, ⟨0, 0, 0⟩, ⟨1, 1, 1⟩⟩, SplineLength := 0,
    NumberOfSplinePoints := 1,
    LocationAtSplinePointLocal := fun _ => ⟨0, 0, 0⟩,
    QuaternionAtSplinePointWorld := fun _ => ⟨0, 0, 1, 0⟩,
    ScaleAtSplinePoint := fun _ => ⟨1, 1, 1⟩,
    TransformAtSplinePointLocal := fun _ => FTransform.Identity }

/-- A spline of one point at the origin whose length is 10. -/
def longSpline : USplineComponent :=
  { onePointSpline ⟨0, 0, 0⟩ with SplineLength := 10 }

namespace UHoudiniAssetInput

end UHoudiniAssetInput

/-! ## Theorems -/
namespace UHoudiniAssetInstance

/-- `PostCookAsset` leaves the cook counter alone. -/
theorem PostCookAsset_AssetCookCount (S : HapiSession) (I : UHoudiniAssetInstance) :
    (PostCookAsset S I).1.AssetCookCount = I.AssetCookCount := by
  unfold PostCookAsset
  dsimp only
  split
  · rfl
  · split <;> rfl

/-- `PostCookAsset` leaves the asset id alone. -/
theorem PostCookAsset_AssetId (S : HapiSession) (I : UHoudiniAssetInstance) :
    (PostCookAsset S I).1.AssetId = I.AssetId := by
  unfold PostCookAsset
  dsimp only
  split
  · rfl
  · split <;> rfl

/-- `PostCookAsset` leaves the asset reference alone. -/
theorem PostCookAsset_HoudiniAsset (S : HapiSession) (I : UHoudiniAssetInstance) :
    (PostCookAsset S I).1.HoudiniAsset = I.HoudiniAsset := by
  unfold PostCookAsset
  dsimp only
  split
  · rfl
  · split <;> rfl

/-- `PostInstantiateAsset` leaves the asset id alone. -/
theorem PostInstantiateAsset_AssetId (S : HapiSession) (I : UHoudiniAssetInstance) :
    (PostInstantiateAsset S I).1.AssetId = I.AssetId := by
  unfold PostInstantiateAsset
  split
  · rfl
  · dsimp only
    split <;> rfl

/-- `PostInstantiateAsset` leaves the asset reference alone. -/
theorem PostInstantiateAsset_HoudiniAsset (S : HapiSession) (I : UHoudiniAssetInstance) :
    (PostInstantiateAsset S I).1.HoudiniAsset = I.HoudiniAsset := by
  unfold PostInstantiateAsset
  split
  · rfl
  · dsimp only
    split <;> rfl

/-- Below the largest 32-bit integer an increment does not wrap. -/
theorem wrapInt32_succ (c : Int) (hlo : -2147483648 ≤ c) (hhi : c < 2147483647) :
    wrapInt32 (c + 1) = c + 1 := by
  unfold wrapInt32
  omega

/-- A failed precondition of `InstantiateAsset`: `false`, no session call, no
change. -/
theorem InstantiateAsset_rejected (S : HapiSession) (I : UHoudiniAssetInstance)
    (AssetNameToInstantiate : Int) (flag : Option Bool)
    (h : I.HoudiniAsset = none ∨ S.IsInitialized = false ∨ I.IsValidAssetInstance = true) :
    (InstantiateAsset S I AssetNameToInstantiate flag).completion = Completion.returned false ∧
    (InstantiateAsset S I AssetNameToInstantiate flag).withErrors = flag.map (fun _ => false) ∧
    (InstantiateAsset S I AssetNameToInstantiate flag).calls = [] ∧
    (InstantiateAsset S I AssetNameToInstantiate flag).state = I := by
  unfold InstantiateAsset
  rcases h with h | h | h
  · simp [h]
  · cases hA : I.HoudiniAsset <;> simp [h]
  · cases hA : I.HoudiniAsset <;> cases hi : S.IsInitialized <;> simp [h]

/-- `CookAsset` on an instance without asset reference, with an uninitialized
session, or without a valid asset id returns `false`, issues no session call
and changes nothing. -/
theorem CookAsset_rejected (S : HapiSession) (I : UHoudiniAssetInstance) (flag : Option Bool)
    (h : I.HoudiniAsset = none ∨ S.IsInitialized = false ∨ I.IsValidAssetInstance = false) :
    (CookAsset S I flag).completion = Completion.returned false ∧
    (CookAsset S I flag).withErrors = flag.map (fun _ => false) ∧
    (CookAsset S I flag).calls = [] ∧
    (CookAsset S I flag).state = I := by
  unfold CookAsset
  rcases h with h | h | h
  · simp [h]
  · cases hA : I.HoudiniAsset <;> simp [h]
  · cases hA : I.HoudiniAsset <;> cases hi : S.IsInitialized <;> simp [h]

/-- `CookAsset` never changes `AssetId`, however it ends. -/
theorem CookAsset_AssetId (S : HapiSession) (I : UHoudiniAssetInstance) (flag : Option Bool) :
    (CookAsset S I flag).state.AssetId = I.AssetId := by
  unfold CookAsset
  dsimp only
  split
  · rfl
  · split
    · rfl
    · split
      · rfl
      · split
        · rfl
        · split <;> simp [PostCookAsset_AssetId]

/-- `CookAsset` never changes the asset reference. -/
theorem CookAsset_HoudiniAsset (S : HapiSession) (I : UHoudiniAssetInstance) (flag : Option Bool) :
    (CookAsset S I flag).state.HoudiniAsset = I.HoudiniAsset := by
  unfold CookAsset
  dsimp only
  split
  · rfl
  · split
    · rfl
    · split
      · rfl
      · split
        · rfl
        · split <;> simp [PostCookAsset_HoudiniAsset]

/-- A run of `CookAsset` calls leaves the asset id alone. -/
theorem CookMany_AssetId (cooks : List (HapiSession × Option Bool)) (I : UHoudiniAssetInstance) :
    (CookMany I cooks).AssetId = I.AssetId := by
  induction cooks generalizing I with
  | nil => rfl
  | cons c rest ih =>
    obtain ⟨S, flag⟩ := c
    simp only [CookMany]
    rw [ih, CookAsset_AssetId]

/-- After an `InstantiateAsset` that returned `true` the instance holds a valid
asset id. -/
theorem InstantiateAsset_true_valid (S : HapiSession) (I : UHoudiniAssetInstance)
    (AssetNameToInstantiate : Int) (flag : Option Bool)
    (h : (InstantiateAsset S I AssetNameToInstantiate flag).completion
      = Completion.returned true) :
    (InstantiateAsset S I AssetNameToInstantiate flag).state.IsValidAssetInstance = true := by
  unfold InstantiateAsset at h ⊢
  dsimp only at h ⊢
  split at h
  · simp at h
  · split at h
    · simp at h
    · split at h
      · simp at h
      · split at h
        · simp at h
        · split at h
          · simp at h
          · split at h
            · simp at h
            · split at h
              · simp at h
              · simp at h
              · simp at h
              · simp_all [IsValidAssetInstance, IsValidAssetId, PostInstantiateAsset_AssetId]
              · simp_all [IsValidAssetInstance, IsValidAssetId, PostInstantiateAsset_AssetId]


/-- C1, counterexample.  `CookAsset` on a never-instantiated instance (asset
reference set, session initialized, `AssetId = -1`) is rejected by the check
that the asset has been instantiated: it returns `false` and `AssetCookCount`
is what it was, not one more. -/
theorem CookAsset_rejected_keeps_count :
    (CookAsset (readySession 0) freshInstance none).completion = Completion.returned false ∧
    (CookAsset (readySession 0) freshInstance none).state.AssetCookCount
      = freshInstance.AssetCookCount ∧
    (CookAsset (readySession 0) freshInstance none).state.AssetCookCount
      ≠ freshInstance.AssetCookCount + 1 := by
  decide

/-- C1, amended.  One call to `CookAsset` increases `AssetCookCount` by exactly
1 when its poll loop ends at one of the three ready states (ready, ready with
cook errors, ready with fatal errors), whether it then returns `true` or
`false`.  A call rejected by a precondition, or whose cook call or a status
query fails, returns `false` and leaves `AssetCookCount` unchanged; so does,
without returning, a call whose poll loop never sees a ready state.  The
counter is a 32-bit integer below its maximum. -/
theorem CookAsset_cook_count (S : HapiSession) (I : UHoudiniAssetInstance) (flag : Option Bool)
    (hlo : -2147483648 ≤ I.AssetCookCount) (hhi : I.AssetCookCount < 2147483647) :
    (CookStarted S I = true ∧ (PollCookState S.Status).2.isTerminal = true →
      (CookAsset S I flag).state.AssetCookCount = I.AssetCookCount + 1) ∧
    (CookStarted S I = false ∨ (PollCookState S.Status).2 = PollEnd.statusFailed →
      (CookAsset S I flag).completion = Completion.returned false ∧
      (CookAsset S I flag).state.AssetCookCount = I.AssetCookCount) ∧
    (CookStarted S I = true ∧ (PollCookState S.Status).2 = PollEnd.unfinished →
      (CookAsset S I flag).completion = Completion.polling ∧
      (CookAsset S I flag).state.AssetCookCount = I.AssetCookCount) := by
  have hw := wrapInt32_succ I.AssetCookCount hlo hhi
  unfold CookStarted CookAsset
  cases hA : I.HoudiniAsset <;> cases hi : S.IsInitialized <;>
    cases hv : I.IsValidAssetInstance <;> cases hc : S.CookAsset I.AssetId <;>
    cases hp : (PollCookState S.Status).2 <;>
    simp [hw, hp, hA, hi, hv, hc, PollEnd.isTerminal, PostCookAsset_AssetCookCount]

theorem CookAsset_cook_count_witness :
    (CookAsset (readySession 0) { freshInstance with AssetId := 5 } none).state.AssetCookCount
      = 1 := by
  have h := (CookAsset_cook_count (readySession 0) { freshInstance with AssetId := 5 } none
    (by decide) (by decide)).1 (by decide)
  simpa [freshInstance] using h

/-- C3.  If `InstantiateAsset` has returned `true` on an instance, then after
any number of `CookAsset` calls (and no `DeleteAsset`) a second
`InstantiateAsset`, whatever the session answers, returns `false`, issues no
session call and leaves the whole instance (so `AssetId`, `AssetCookCount`,
`InstantiatedAssetName` and the cached preset, transform and parameters)
unchanged. -/
theorem InstantiateAsset_second_rejected (S S2 : HapiSession) (I : UHoudiniAssetInstance)
    (AssetName AssetName2 : Int) (flag flag2 : Option Bool)
    (cooks : List (HapiSession × Option Bool))
    (h : (InstantiateAsset S I AssetName flag).completion = Completion.returned true) :
    (InstantiateAsset S2 (CookMany (InstantiateAsset S I AssetName flag).state cooks)
        AssetName2 flag2).completion = Completion.returned false ∧
    (InstantiateAsset S2 (CookMany (InstantiateAsset S I AssetName flag).state cooks)
        AssetName2 flag2).calls = [] ∧
    (InstantiateAsset S2 (CookMany (InstantiateAsset S I AssetName flag).state cooks)
        AssetName2 flag2).state = CookMany (InstantiateAsset S I AssetName flag).state cooks := by
  have hv := InstantiateAsset_true_valid S I AssetName flag h
  have hv2 : (CookMany (InstantiateAsset S I AssetName flag).state cooks).IsValidAssetInstance
      = true := by
    unfold IsValidAssetInstance at hv ⊢
    rw [CookMany_AssetId]
    exact hv
  have := InstantiateAsset_rejected S2 _ AssetName2 flag2 (Or.inr (Or.inr hv2))
  exact ⟨this.1, this.2.2.1, this.2.2.2⟩

theorem InstantiateAsset_second_rejected_witness :
    (InstantiateAsset (readySession 0) freshInstance 0 none).completion
      = Completion.returned true ∧
    (InstantiateAsset (readySession 0)
      (CookMany (InstantiateAsset (readySession 0) freshInstance 0 none).state
        [(readySession 0, none)]) 0 (some true)).calls = [] :=
  ⟨by decide,
   (InstantiateAsset_second_rejected (readySession 0) (readySession 0) freshInstance 0 0 none
      (some true) [(readySession 0, none)] (by decide)).2.1⟩

/-- C4.  When the asset reference is null, or the session is not initialized,
or the instance already holds a valid asset id, `InstantiateAsset` returns
`false`, reports the error flag as `false` (when the caller passed one),
issues no session call and changes no field of the instance. -/
theorem InstantiateAsset_precondition_failure (S : HapiSession) (I : UHoudiniAssetInstance)
    (AssetNameToInstantiate : Int) (flag : Option Bool)
    (h : I.HoudiniAsset = none ∨ S.IsInitialized = false ∨ I.IsValidAssetInstance = true) :
    (InstantiateAsset S I AssetNameToInstantiate flag).completion = Completion.returned false ∧
    (InstantiateAsset S I AssetNameToInstantiate flag).withErrors = flag.map (fun _ => false) ∧
    (InstantiateAsset S I AssetNameToInstantiate flag).calls = [] ∧
    (InstantiateAsset S I AssetNameToInstantiate flag).state = I :=
  InstantiateAsset_rejected S I AssetNameToInstantiate flag h

theorem InstantiateAsset_precondition_failure_witness :
    (InstantiateAsset (readySession 0) { freshInstance with AssetId := 5 } 0 (some true)).withErrors
      = some false :=
  (InstantiateAsset_precondition_failure (readySession 0) { freshInstance with AssetId := 5 } 0
    (some true) (Or.inr (Or.inr (by decide)))).2.1

/-- C7.  `DeleteAsset` always returns `true` and leaves `AssetId = -1`; it
issues exactly the destroy call for the current id when the session is
initialized and `AssetId` was valid, and no call otherwise; a second
`DeleteAsset` directly after it issues no call and changes nothing. -/
theorem DeleteAsset_spec (S S2 : HapiSession) (I : UHoudiniAssetInstance) :
    (DeleteAsset S I).completion = Completion.returned true ∧
    (DeleteAsset S I).state.AssetId = -1 ∧
    (DeleteAsset S I).calls =
      (if S.IsInitialized = true ∧ I.IsValidAssetInstance = true
        then [HapiCall.DestroyAsset I.AssetId] else []) ∧
    (DeleteAsset S2 (DeleteAsset S I).state).calls = [] ∧
    (DeleteAsset S2 (DeleteAsset S I).state).state = (DeleteAsset S I).state := by
  unfold DeleteAsset
  cases hi : S.IsInitialized <;> cases hv : I.IsValidAssetInstance <;>
    cases hi2 : S2.IsInitialized <;> simp [IsValidAssetInstance, IsValidAssetId]



/-- The poll loop keeps asking while the cook state is none of the three ready
states and ends at the first ready state, which decides the outcome. -/
theorem PollCookState_first_terminal (waiting : List Int) (Status : Int)
    (rest : List (Option Int))
    (hw : ∀ s ∈ waiting, s ≠ HAPI_STATE_READY ∧ s ≠ HAPI_STATE_READY_WITH_COOK_ERRORS ∧
      s ≠ HAPI_STATE_READY_WITH_FATAL_ERRORS)
    (ht : Status = HAPI_STATE_READY ∨ Status = HAPI_STATE_READY_WITH_COOK_ERRORS ∨
      Status = HAPI_STATE_READY_WITH_FATAL_ERRORS) :
    PollCookState (waiting.map some ++ some Status :: rest) =
      (waiting.length + 1,
        if Status = HAPI_STATE_READY then PollEnd.ready
        else if Status = HAPI_STATE_READY_WITH_COOK_ERRORS then PollEnd.cookErrors
        else PollEnd.fatalErrors) := by
  induction waiting with
  | nil =>
    rcases ht with h | h | h <;> subst h <;> simp [PollCookState] <;> decide
  | cons s tl ih =>
    have hs := hw s (List.mem_cons_self _ _)
    have ih2 := ih (fun x hx => hw x (List.mem_cons_of_mem _ hx))
    simp only [List.map_cons, List.cons_append, PollCookState, List.length_cons]
    simp [hs.1, hs.2.1, hs.2.2, ih2]

/-- `PostInstantiateAsset` returns `true` or is stopped by a range check. -/
theorem PostInstantiateAsset_completion (S : HapiSession) (I : UHoudiniAssetInstance) :
    (PostInstantiateAsset S I).2.2 = Completion.returned true ∨
    (PostInstantiateAsset S I).2.2 = Completion.aborted := by
  unfold PostInstantiateAsset
  split
  · simp
  · dsimp only
    split <;> simp

/-- `PostCookAsset` returns `true` or is stopped by a check. -/
theorem PostCookAsset_completion (S : HapiSession) (I : UHoudiniAssetInstance) :
    (PostCookAsset S I).2.2 = Completion.returned true ∨
    (PostCookAsset S I).2.2 = Completion.aborted := by
  unfold PostCookAsset
  dsimp only
  split
  · simp
  · split <;> simp

/-- Outcome of `InstantiateAsset` once the preconditions hold, the name is
resolved and the session has created the asset, by the end of the poll loop. -/
theorem InstantiateAsset_outcome (S : HapiSession) (I : UHoudiniAssetInstance)
    (AssetNameToInstantiate : Int) (flag : Option Bool) (Asset : Nat) (c0 : List HapiCall)
    (AssetName : Int) (AssetNameString : String) (AssetIdNew : Nat)
    (hA : I.HoudiniAsset = some Asset) (hi : S.IsInitialized = true)
    (hv : I.IsValidAssetInstance = false)
    (hr : ResolveAssetName S Asset AssetNameToInstantiate = (c0, some AssetName))
    (hs : S.ToStdString AssetName = some AssetNameString)
    (hn : S.InstantiateAsset AssetNameString = some AssetIdNew) :
    (InstantiateAsset S I AssetNameToInstantiate flag) =
      (match (PollCookState S.Status).2 with
      | PollEnd.unfinished =>
        ⟨{ I with AssetId := (AssetIdNew : Int), AssetCookCount := 0 },
          c0 ++ [HapiCall.GetString AssetName] ++
            [HapiCall.InstantiateAsset AssetNameString (some AssetIdNew)] ++
            List.replicate (PollCookState S.Status).1 HapiCall.GetStatus,
          Completion.polling, flag.map (fun _ => false)⟩
      | PollEnd.statusFailed =>
        ⟨{ I with AssetId := (AssetIdNew : Int), AssetCookCount := 0 },
          c0 ++ [HapiCall.GetString AssetName] ++
            [HapiCall.InstantiateAsset AssetNameString (some AssetIdNew)] ++
            List.replicate (PollCookState S.Status).1 HapiCall.GetStatus,
          Completion.returned false, flag.map (fun _ => false)⟩
      | PollEnd.fatalErrors =>
        ⟨{ I with AssetId := (AssetIdNew : Int), AssetCookCount := 0 },
          c0 ++ [HapiCall.GetString AssetName] ++
            [HapiCall.InstantiateAsset AssetNameString (some AssetIdNew)] ++
            List.replicate (PollCookState S.Status).1 HapiCall.GetStatus,
          Completion.returned false, flag.map (fun _ => true)⟩
      | PollEnd.ready =>
        ⟨(PostInstantiateAsset S (Named I AssetIdNew AssetNameString)).1,
          c0 ++ [HapiCall.GetString AssetName] ++
            [HapiCall.InstantiateAsset AssetNameString (some AssetIdNew)] ++
            List.replicate (PollCookState S.Status).1 HapiCall.GetStatus ++
            (PostInstantiateAsset S (Named I AssetIdNew AssetNameString)).2.1,
          (PostInstantiateAsset S (Named I AssetIdNew AssetNameString)).2.2,
          flag.map (fun _ => false)⟩
      | PollEnd.cookErrors =>
        ⟨(PostInstantiateAsset S (Named I AssetIdNew AssetNameString)).1,
          c0 ++ [HapiCall.GetString AssetName] ++
            [HapiCall.InstantiateAsset AssetNameString (some AssetIdNew)] ++
            List.replicate (PollCookState S.Status).1 HapiCall.GetStatus ++
            (PostInstantiateAsset S (Named I AssetIdNew AssetNameString)).2.1,
          (PostInstantiateAsset S (Named I AssetIdNew AssetNameString)).2.2,
          flag.map (fun _ => true)⟩) := by
  unfold InstantiateAsset
  simp only [hA, hi, hv, hr, hs, hn]
  cases hp : (PollCookState S.Status).2 <;> simp [hp, Named, hA]

/-- Outcome of `CookAsset` once the preconditions hold and the session has
accepted the cook call, by the end of the poll loop. -/
theorem CookAsset_outcome (S : HapiSession) (I : UHoudiniAssetInstance) (flag : Option Bool)
    (h : CookStarted S I = true) :
    (CookAsset S I flag) =
      (match (PollCookState S.Status).2 with
      | PollEnd.unfinished =>
        ⟨I, HapiCall.CookAsset I.AssetId ::
            List.replicate (PollCookState S.Status).1 HapiCall.GetStatus,
          Completion.polling, flag.map (fun _ => false)⟩
      | PollEnd.statusFailed =>
        ⟨I, HapiCall.CookAsset I.AssetId ::
            List.replicate (PollCookState S.Status).1 HapiCall.GetStatus,
          Completion.returned false, flag.map (fun _ => false)⟩
      | PollEnd.fatalErrors =>
        ⟨{ I with AssetCookCount := wrapInt32 (I.AssetCookCount + 1) },
          HapiCall.CookAsset I.AssetId ::
            List.replicate (PollCookState S.Status).1 HapiCall.GetStatus,
          Completion.returned false, flag.map (fun _ => true)⟩
      | PollEnd.ready =>
        ⟨(PostCookAsset S { I with AssetCookCount := wrapInt32 (I.AssetCookCount + 1) }).1,
          HapiCall.CookAsset I.AssetId ::
            List.replicate (PollCookState S.Status).1 HapiCall.GetStatus ++
            (PostCookAsset S { I with AssetCookCount := wrapInt32 (I.AssetCookCount + 1) }).2.1,
          (PostCookAsset S { I with AssetCookCount := wrapInt32 (I.AssetCookCount + 1) }).2.2,
          flag.map (fun _ => false)⟩
      | PollEnd.cookErrors =>
        ⟨(PostCookAsset S { I with AssetCookCount := wrapInt32 (I.AssetCookCount + 1) }).1,
          HapiCall.CookAsset I.AssetId ::
            List.replicate (PollCookState S.Status).1 HapiCall.GetStatus ++
            (PostCookAsset S { I with AssetCookCount := wrapInt32 (I.AssetCookCount + 1) }).2.1,
          (PostCookAsset S { I with AssetCookCount := wrapInt32 (I.AssetCookCount + 1) }).2.2,
          flag.map (fun _ => true)⟩) := by
  unfold CookStarted at h
  unfold CookAsset
  cases hA : I.HoudiniAsset <;> cases hi : S.IsInitialized <;>
    cases hv : I.IsValidAssetInstance <;> cases hc : S.CookAsset I.AssetId <;>
    simp [hA, hi, hv, hc] at h
  cases hp : (PollCookState S.Status).2 <;> simp [hp, hA, hi, hv, hc]

/-- C5, the code at the failing input.  Every session call succeeds, the first
cook state is ready, the instantiated node reports one parameter: the call
does not return `true`, it is stopped inside `PostInstantiateAsset`, where
`HapiGetParmInfos` addresses element 0 of the array it has just emptied. -/
theorem InstantiateAsset_ready_aborted :
    (PollCookState (readySession 1).Status).2 = PollEnd.ready ∧
    (InstantiateAsset (readySession 1) freshInstance 0 (some false)).completion
      = Completion.aborted ∧
    (HapiGetParmInfos (readySession 1) { freshInstance with AssetId := 5 }).result = none := by
  decide

/-- C6, the code at the failing input.  A valid instance, every session call
succeeds, the first cook state is ready, the node reports one parameter:
`CookAsset` does not return `true`, it is stopped inside `PostCookAsset`, where
`HapiGetParmInfos` addresses element 0 of the array it has just emptied. -/
theorem CookAsset_ready_aborted :
    CookStarted (readySession 1) { freshInstance with AssetId := 5 } = true ∧
    (PollCookState (readySession 1).Status).2 = PollEnd.ready ∧
    (CookAsset (readySession 1) { freshInstance with AssetId := 5 } (some false)).completion
      = Completion.aborted := by
  decide

end UHoudiniAssetInstance

namespace UHoudiniAssetInput

/-- After the World clean-up no entry holds a valid id. -/
theorem DestroyOutlinerAssets_invalid (c : Int) (l : List FHoudiniAssetInputOutlinerMesh) :
    ∀ E ∈ (DestroyOutlinerAssets c l).1, IsValidAssetId E.AssetId = false := by
  induction l with
  | nil => simp [DestroyOutlinerAssets]
  | cons E rest ih =>
    intro E' hE'
    simp only [DestroyOutlinerAssets] at hE'
    split at hE'
    · simp only [List.mem_cons] at hE'
      rcases hE' with h | h
      · subst h; simp [IsValidAssetId]
      · exact ih E' h
    · simp only [List.mem_cons] at hE'
      rcases hE' with h | h
      · subst h; rename_i h0; simpa using h0
      · exact ih E' h

/-- The World clean-up does nothing to entries without a valid id. -/
theorem DestroyOutlinerAssets_of_invalid (c : Int) (l : List FHoudiniAssetInputOutlinerMesh)
    (h : ∀ E ∈ l, IsValidAssetId E.AssetId = false) :
    DestroyOutlinerAssets c l = (l, []) := by
  induction l with
  | nil => simp [DestroyOutlinerAssets]
  | cons E rest ih =>
    have h1 := h E (List.mem_cons_self _ _)
    have h2 := ih (fun x hx => h x (List.mem_cons_of_mem _ hx))
    simp [DestroyOutlinerAssets, h1, h2]

/-- C2, counterexample.  On a Curve-kind input that still tracks geometry node
7, `DisconnectAndDestroyInputAsset` leaves the tracked geometry ids as they
were: the end state does not have them empty. -/
theorem DisconnectAndDestroy_keeps_other_kind_ids :
    (DisconnectAndDestroyInputAsset demoHost
      { Constructed with ChoiceIndex := EHoudiniAssetInputType.CurveInput,
                         GeometryInputAssetIds := [7] }).state.GeometryInputAssetIds = [7] := by
  decide

/-- The one invalid id is -1. -/
theorem IsValidAssetId_false (x : Int) : IsValidAssetId x = false ↔ x = -1 := by
  simp [IsValidAssetId]

/-- C2, amended.  For every input state of every kind, calling
`DisconnectAndDestroyInputAsset` twice in a row gives the same end state as
calling it once, and the second call issues no session call (and notifies no
upstream asset).  In that end state `ConnectedAssetId` is invalid; for a
World-kind input every outliner entry's `AssetId` is invalid and for a
Geometry-kind input the tracked geometry ids are empty; the outliner entries
of an input of another kind than World, and the tracked geometry ids of an
input of another kind than Geometry, are left as they were. -/
theorem DisconnectAndDestroy_idempotent (H H2 : Host) (s : UHoudiniAssetInput) :
    (DisconnectAndDestroyInputAsset H2 (DisconnectAndDestroyInputAsset H s).state).state
      = (DisconnectAndDestroyInputAsset H s).state ∧
    (DisconnectAndDestroyInputAsset H2 (DisconnectAndDestroyInputAsset H s).state).calls = [] ∧
    (DisconnectAndDestroyInputAsset H2 (DisconnectAndDestroyInputAsset H s).state).notes = [] ∧
    IsValidAssetId (DisconnectAndDestroyInputAsset H s).state.ConnectedAssetId = false ∧
    (s.ChoiceIndex = EHoudiniAssetInputType.WorldInput →
      ∀ E ∈ (DisconnectAndDestroyInputAsset H s).state.InputOutlinerMeshArray,
        IsValidAssetId E.AssetId = false) ∧
    (s.ChoiceIndex = EHoudiniAssetInputType.GeometryInput →
      (DisconnectAndDestroyInputAsset H s).state.GeometryInputAssetIds = []) ∧
    (s.ChoiceIndex ≠ EHoudiniAssetInputType.WorldInput →
      (DisconnectAndDestroyInputAsset H s).state.InputOutlinerMeshArray
        = s.InputOutlinerMeshArray) ∧
    (s.ChoiceIndex ≠ EHoudiniAssetInputType.GeometryInput →
      (DisconnectAndDestroyInputAsset H s).state.GeometryInputAssetIds
        = s.GeometryInputAssetIds) := by
  obtain ⟨comp, a2, a3, a4, a5, a6, a7, a8, arr, a10, conn, a12, kind, a14, a15, a16, a17, a18,
    a19, a20, a21, a22, a23, a24, a25, a26, a27, a28⟩ := s
  have hinv := DestroyOutlinerAssets_invalid conn arr
  have hre := DestroyOutlinerAssets_of_invalid (-1) _ hinv
  by_cases hv : conn = -1
  · subst hv
    cases kind <;> cases comp <;>
      simp [DisconnectAndDestroyInputAsset, IsValidAssetId, hre] <;>
      simpa [IsValidAssetId] using hinv
  · cases kind <;> cases comp <;>
      simp [DisconnectAndDestroyInputAsset, IsValidAssetId, hv, hre] <;>
      simpa [IsValidAssetId] using hinv


/-- C9, the code at the failing input.  Curve kind, no node connected: the
curve create call succeeds with node 5 and the connect call fails.
`UploadParameterValue` issues no destroy call, returns `false` and resets
`ConnectedAssetId` to -1; node 5 is alive in the session, is not the node
`ConnectedAssetId` identifies, and a following
`DisconnectAndDestroyInputAsset` does not destroy it either. -/
theorem UploadParameterValue_curve_connect_fails :
    (UploadParameterValue demoHost
        { Constructed with ChoiceIndex := EHoudiniAssetInputType.CurveInput }
        { okReplies with ConnectCurve := false }).calls
      = [HapiCall.CreateCurve (some 5), HapiCall.ConnectAsset 5 0 100 0] ∧
    (UploadParameterValue demoHost
        { Constructed with ChoiceIndex := EHoudiniAssetInputType.CurveInput }
        { okReplies with ConnectCurve := false }).completion = Completion.returned false ∧
    (UploadParameterValue demoHost
        { Constructed with ChoiceIndex := EHoudiniAssetInputType.CurveInput }
        { okReplies with ConnectCurve := false }).state.ConnectedAssetId = -1 ∧
    LiveAfter [] (UploadParameterValue demoHost
        { Constructed with ChoiceIndex := EHoudiniAssetInputType.CurveInput }
        { okReplies with ConnectCurve := false }).calls = [5] ∧
    (DisconnectAndDestroyInputAsset demoHost (UploadParameterValue demoHost
        { Constructed with ChoiceIndex := EHoudiniAssetInputType.CurveInput }
        { okReplies with ConnectCurve := false }).state).calls = [] := by
  decide

end UHoudiniAssetInput

namespace FHoudiniAssetInputOutlinerMesh

/-- C10, counterexample.  The cached actor transform is the identity, the live
actor has moved by 1/100000 along X: the two transforms differ in a field, and
`HasActorTransformChanged` returns `false`. -/
theorem HasActorTransformChanged_small_move :
    demoEntry.ActorTransform ≠
      ((hostWithActorAt { FTransform.Identity with Translation := ⟨1 / 100000, 0, 0⟩ }).Actors
        0).Transform ∧
    HasActorTransformChanged
      (hostWithActorAt { FTransform.Identity with Translation := ⟨1 / 100000, 0, 0⟩ })
      demoEntry = false := by
  constructor
  · simp [demoEntry, hostWithActorAt, FTransform.Identity]
  · simp [HasActorTransformChanged, demoEntry, hostWithActorAt, FTransform.Identity,
      FTransform.Equals, FVector.Equals, FQuat.Equals, KINDA_SMALL_NUMBER]
    norm_num [abs_le]

/-- C10, amended.  For every outliner entry with a live actor:
`HasActorTransformChanged` returns `false` when the cached actor transform
equals the actor's live transform, and it returns `true` exactly when the
host's transform equality finds the cached and the live transform not equal,
that is when their translations, their rotations or their scales are not
equal within the tolerance. -/
theorem HasActorTransformChanged_iff (H : Host) (E : FHoudiniAssetInputOutlinerMesh)
    (Actor : Nat) (h : E.Actor = some Actor) :
    (E.ActorTransform = (H.Actors Actor).Transform → HasActorTransformChanged H E = false) ∧
    (HasActorTransformChanged H E = true ↔
      E.ActorTransform.Equals (H.Actors Actor).Transform = false) ∧
    (HasActorTransformChanged H E = true ↔
      E.ActorTransform.Translation.Equals (H.Actors Actor).Transform.Translation
          KINDA_SMALL_NUMBER = false ∨
        E.ActorTransform.Rotation.Equals (H.Actors Actor).Transform.Rotation
          KINDA_SMALL_NUMBER = false ∨
        E.ActorTransform.Scale3D.Equals (H.Actors Actor).Transform.Scale3D
          KINDA_SMALL_NUMBER = false) := by
  have hiff : HasActorTransformChanged H E = true ↔
      E.ActorTransform.Equals (H.Actors Actor).Transform = false := by
    simp only [HasActorTransformChanged, h]
    cases E.ActorTransform.Equals (H.Actors Actor).Transform <;> simp
  refine ⟨?_, hiff, ?_⟩
  · intro heq
    have htol : (0 : ℚ) ≤ KINDA_SMALL_NUMBER := by norm_num [KINDA_SMALL_NUMBER]
    simp [HasActorTransformChanged, h, ← heq, FTransform.Equals, FVector.Equals, FQuat.Equals,
      htol]
  · rw [hiff]
    unfold FTransform.Equals
    cases E.ActorTransform.Translation.Equals (H.Actors Actor).Transform.Translation
        KINDA_SMALL_NUMBER <;>
      cases E.ActorTransform.Rotation.Equals (H.Actors Actor).Transform.Rotation
        KINDA_SMALL_NUMBER <;>
      cases E.ActorTransform.Scale3D.Equals (H.Actors Actor).Transform.Scale3D
        KINDA_SMALL_NUMBER <;> simp

theorem HasActorTransformChanged_iff_witness :
    HasActorTransformChanged (hostWithActorAt FTransform.Identity) demoEntry = false :=
  (HasActorTransformChanged_iff (hostWithActorAt FTransform.Identity) demoEntry 0 rfl).1 rfl

end FHoudiniAssetInputOutlinerMesh


namespace FHoudiniAssetInputOutlinerMesh

/-- Equal vectors are equal within the tolerance. -/
theorem FVector_Equals_self (a : FVector) : a.Equals a KINDA_SMALL_NUMBER = true := by
  simp [FVector.Equals, KINDA_SMALL_NUMBER]

/-- Equal rotations are equal within the tolerance. -/
theorem FQuat_Equals_self (a : FQuat) : a.Equals a KINDA_SMALL_NUMBER = true := by
  simp [FQuat.Equals, KINDA_SMALL_NUMBER]

/-- Two vectors are unequal within the tolerance exactly when some component
differs by more than the tolerance. -/
theorem FVector_Equals_false (a b : FVector) (Tolerance : ℚ) :
    a.Equals b Tolerance = false ↔
      Tolerance < |a.X - b.X| ∨ Tolerance < |a.Y - b.Y| ∨ Tolerance < |a.Z - b.Z| := by
  simp only [FVector.Equals, Bool.and_eq_false_iff, decide_eq_false_iff_not, not_le]
  constructor
  · rintro ((h | h) | h)
    · exact Or.inl h
    · exact Or.inr (Or.inl h)
    · exact Or.inr (Or.inr h)
  · rintro (h | h | h)
    · exact Or.inl (Or.inl h)
    · exact Or.inl (Or.inr h)
    · exact Or.inr h

/-- The per-point loop finds a change exactly when some cached point is
changed against the live spline. -/
theorem AnySplinePointChanged_iff (Spline : USplineComponent) (l : List FTransform) (k : Nat) :
    AnySplinePointChanged Spline l k = true ↔
      ∃ i T, l[i]? = some T ∧ SplinePointChanged Spline T (k + i) = true := by
  induction l generalizing k with
  | nil => simp [AnySplinePointChanged]
  | cons T rest ih =>
    simp only [AnySplinePointChanged]
    constructor
    · intro h
      by_cases hT : SplinePointChanged Spline T k = true
      · exact ⟨0, T, by simp, by simpa using hT⟩
      · simp only [hT] at h
        obtain ⟨i, T', hi, hT'⟩ := (ih (k + 1)).1 (by simpa using h)
        refine ⟨i + 1, T', by simpa using hi, ?_⟩
        rw [show k + (i + 1) = k + 1 + i by omega]
        exact hT'
    · rintro ⟨i, T', hi, hT'⟩
      by_cases hT : SplinePointChanged Spline T k = true
      · simp [hT]
      · simp only [hT]
        cases i with
        | zero =>
          simp only [List.getElem?_cons_zero, Option.some.injEq] at hi
          subst hi
          exact absurd (by simpa using hT') hT
        | succ j =>
          have : AnySplinePointChanged Spline rest (k + 1) = true :=
            (ih (k + 1)).2 ⟨j, T', by simpa using hi, by
              rw [show k + 1 + j = k + (j + 1) by omega]; exact hT'⟩
          simpa using this

/-- A cached point is changed exactly when its location, rotation or scale is
not equal, within the tolerance, to what the live spline reports. -/
theorem SplinePointChanged_iff (Spline : USplineComponent) (T : FTransform) (n : Nat) :
    SplinePointChanged Spline T n = true ↔
      T.Translation.Equals (Spline.LocationAtSplinePointLocal n) KINDA_SMALL_NUMBER = false ∨
      T.Rotation.Equals (Spline.QuaternionAtSplinePointWorld n) KINDA_SMALL_NUMBER = false ∨
      T.Scale3D.Equals (Spline.ScaleAtSplinePoint n) KINDA_SMALL_NUMBER = false := by
  unfold SplinePointChanged
  cases T.Translation.Equals (Spline.LocationAtSplinePointLocal n) KINDA_SMALL_NUMBER <;>
    cases T.Rotation.Equals (Spline.QuaternionAtSplinePointWorld n) KINDA_SMALL_NUMBER <;>
    cases T.Scale3D.Equals (Spline.ScaleAtSplinePoint n) KINDA_SMALL_NUMBER <;> simp

/-- `HasSplineComponentChanged` on an entry with a spline component. -/
theorem HasSplineComponentChanged_eq (H : Host) (Settings : FSplineSettings)
    (E : FHoudiniAssetInputOutlinerMesh) (r : ℚ) (Spline : Nat)
    (h : E.SplineComponent = some Spline) :
    (HasSplineComponentChanged H Settings E r = true ↔
      (H.SplineComponents Spline).SplineLength ≠ E.SplineLength ∨
      E.NumberOfSplineControlPoints ≠ (H.SplineComponents Spline).NumberOfSplinePoints ∨
      (E.SplineControlPointsTransform.length : Int)
        ≠ (H.SplineComponents Spline).NumberOfSplinePoints ∨
      E.SplineResolution ≠ EffectiveSplineResolution Settings r ∨
      AnySplinePointChanged (H.SplineComponents Spline) E.SplineControlPointsTransform 0
        = true) := by
  unfold HasSplineComponentChanged
  simp only [h]
  by_cases h1 : (H.SplineComponents Spline).SplineLength = E.SplineLength
  · by_cases h2 : E.NumberOfSplineControlPoints = (H.SplineComponents Spline).NumberOfSplinePoints
    · by_cases h3 : (E.SplineControlPointsTransform.length : Int)
          = (H.SplineComponents Spline).NumberOfSplinePoints
      · by_cases h4 : E.SplineResolution = EffectiveSplineResolution Settings r
        · simp [h1, h2, h3, h4]
        · simp [h1, h2, h3, h4]
      · simp [h1, h2, h3]
    · simp [h1, h2]
  · simp [h1]

end FHoudiniAssetInputOutlinerMesh

namespace FHoudiniAssetInputOutlinerMesh

/-- C11 (counterexample): an entry caches one control point at the origin and
the live spline has its point 1/100000 away, everything else being equal: the
cached location differs from the live one, yet `HasSplineComponentChanged`
returns false. -/
theorem HasSplineComponentChanged_small_move :
    HasSplineComponentChanged (hostWithSpline (onePointSpline ⟨1 / 100000, 0, 0⟩)) demoSettings
        splineEntry 50 = false ∧
      ∃ T, splineEntry.SplineControlPointsTransform[0]? = some T ∧
        T.Translation ≠
          ((hostWithSpline (onePointSpline ⟨1 / 100000, 0, 0⟩)).SplineComponents
            0).LocationAtSplinePointLocal 0 := by
  constructor
  · simp [HasSplineComponentChanged, hostWithSpline, onePointSpline, splineEntry,
      EffectiveSplineResolution, demoSettings, AnySplinePointChanged, SplinePointChanged, FVector.Equals,
      FQuat.Equals, FTransform.Identity, KINDA_SMALL_NUMBER]
    norm_num [abs_le]
  · refine ⟨FTransform.Identity, by simp [splineEntry], ?_⟩
    simp [hostWithSpline, onePointSpline, FTransform.Identity]

/-- C11 (amended): for an entry with a spline component and every resolution
argument, `HasSplineComponentChanged` returns true exactly when the live
length differs from the cached length, or the cached point count differs from
the live count, or the cached array length differs from the live count, or
the cached resolution differs from the effective resolution, or some cached
point's location, rotation or scale is not equal within the tolerance
`KINDA_SMALL_NUMBER` to the live spline's; and n cached points against n+1
live points gives true. -/
theorem HasSplineComponentChanged_iff (H : Host) (Settings : FSplineSettings)
    (E : FHoudiniAssetInputOutlinerMesh) (r : ℚ) (Spline : Nat)
    (h : E.SplineComponent = some Spline) :
    (HasSplineComponentChanged H Settings E r = true ↔
      (H.SplineComponents Spline).SplineLength ≠ E.SplineLength ∨
      E.NumberOfSplineControlPoints ≠ (H.SplineComponents Spline).NumberOfSplinePoints ∨
      (E.SplineControlPointsTransform.length : Int)
        ≠ (H.SplineComponents Spline).NumberOfSplinePoints ∨
      E.SplineResolution ≠ EffectiveSplineResolution Settings r ∨
      ∃ (i : Nat) (T : FTransform), E.SplineControlPointsTransform[i]? = some T ∧
        (T.Translation.Equals ((H.SplineComponents Spline).LocationAtSplinePointLocal i)
            KINDA_SMALL_NUMBER = false ∨
          T.Rotation.Equals ((H.SplineComponents Spline).QuaternionAtSplinePointWorld i)
            KINDA_SMALL_NUMBER = false ∨
          T.Scale3D.Equals ((H.SplineComponents Spline).ScaleAtSplinePoint i)
            KINDA_SMALL_NUMBER = false)) ∧
    (r ≠ -1 → EffectiveSplineResolution Settings r = r) ∧
    (r = -1 → ∀ HoudiniRuntimeSettings,
      Settings.HoudiniRuntimeSettings = some HoudiniRuntimeSettings →
      EffectiveSplineResolution Settings r
        = HoudiniRuntimeSettings.MarshallingSplineResolution) ∧
    (r = -1 → Settings.HoudiniRuntimeSettings = none →
      EffectiveSplineResolution Settings r
        = Settings.HAPI_UNREAL_PARAM_SPLINE_RESOLUTION_DEFAULT) ∧
    (∀ n : Int, (E.NumberOfSplineControlPoints = n ∨
        (E.SplineControlPointsTransform.length : Int) = n) →
      (H.SplineComponents Spline).NumberOfSplinePoints = n + 1 →
      HasSplineComponentChanged H Settings E r = true) := by
  have key := HasSplineComponentChanged_eq H Settings E r Spline h
  refine ⟨?_, ?_, ?_, ?_, ?_⟩
  · rw [key, AnySplinePointChanged_iff]
    simp only [Nat.zero_add, SplinePointChanged_iff]
  · intro hr
    simp [EffectiveSplineResolution, hr]
  · intro hr S hS
    simp [EffectiveSplineResolution, hr, hS]
  · intro hr hS
    simp [EffectiveSplineResolution, hr, hS]
  · intro n hn hl
    rw [key]
    rcases hn with hn | hn
    · exact Or.inr (Or.inl (by omega))
    · exact Or.inr (Or.inr (Or.inl (by omega)))

/-- Witness of C11 (amended) on the one-point entry against a spline whose
point has moved by 1/100000. -/
theorem HasSplineComponentChanged_iff_witness :
    splineEntry.SplineComponent = some 0 ∧
    (∀ n : Int, (splineEntry.NumberOfSplineControlPoints = n ∨
        (splineEntry.SplineControlPointsTransform.length : Int) = n) →
      ((hostWithSpline (onePointSpline ⟨1 / 100000, 0, 0⟩)).SplineComponents
        0).NumberOfSplinePoints = n + 1 →
      HasSplineComponentChanged (hostWithSpline (onePointSpline ⟨1 / 100000, 0, 0⟩)) demoSettings
        splineEntry 50 = true) :=
  ⟨rfl, (HasSplineComponentChanged_iff (hostWithSpline (onePointSpline ⟨1 / 100000, 0, 0⟩)) demoSettings
    splineEntry 50 0 rfl).2.2.2.2⟩

/-- C12 (counterexample): the cached point count equals the live count and the
one cached transform equals the live transform at that point, but the entry
was sampled at resolution 50 and the call asks for 10:
`HasSplineComponentChanged` returns true. -/
theorem HasSplineComponentChanged_resolution_differs :
    splineEntry.NumberOfSplineControlPoints =
        ((hostWithSpline (onePointSpline ⟨0, 0, 0⟩)).SplineComponents 0).NumberOfSplinePoints ∧
      (∀ i T, splineEntry.SplineControlPointsTransform[i]? = some T →
        T = ((hostWithSpline (onePointSpline ⟨0, 0, 0⟩)).SplineComponents
          0).TransformAtSplinePointLocal i ∧
        T.Translation = ((hostWithSpline (onePointSpline ⟨0, 0, 0⟩)).SplineComponents
          0).LocationAtSplinePointLocal i ∧
        T.Rotation = ((hostWithSpline (onePointSpline ⟨0, 0, 0⟩)).SplineComponents
          0).QuaternionAtSplinePointWorld i ∧
        T.Scale3D = ((hostWithSpline (onePointSpline ⟨0, 0, 0⟩)).SplineComponents
          0).ScaleAtSplinePoint i) ∧
      HasSplineComponentChanged (hostWithSpline (onePointSpline ⟨0, 0, 0⟩)) demoSettings
        splineEntry 10 = true := by
  refine ⟨rfl, ?_, ?_⟩
  · intro i T hT
    cases i with
    | zero =>
      simp only [splineEntry, List.getElem?_cons_zero, Option.some.injEq] at hT
      subst hT
      simp [hostWithSpline, onePointSpline, FTransform.Identity]
    | succ j => simp [splineEntry] at hT
  · simp [HasSplineComponentChanged, hostWithSpline, onePointSpline, splineEntry,
      EffectiveSplineResolution, demoSettings]
    norm_num

/-- C12 (amended): for an entry with a spline component, if the live length
equals the cached length, the cached count and the cached array length equal
the live count, the cached resolution equals the effective resolution, and
every cached point's location, rotation and scale equal the live spline's at
that point, `HasSplineComponentChanged` returns false. -/
theorem HasSplineComponentChanged_identical (H : Host)
    (Settings : FSplineSettings) (E : FHoudiniAssetInputOutlinerMesh) (r : ℚ)
    (Spline : Nat) (h : E.SplineComponent = some Spline)
    (hLength : (H.SplineComponents Spline).SplineLength = E.SplineLength)
    (hCount : E.NumberOfSplineControlPoints = (H.SplineComponents Spline).NumberOfSplinePoints)
    (hArray : (E.SplineControlPointsTransform.length : Int)
      = (H.SplineComponents Spline).NumberOfSplinePoints)
    (hResolution : E.SplineResolution = EffectiveSplineResolution Settings r)
    (hPoints : ∀ i T, E.SplineControlPointsTransform[i]? = some T →
      T.Translation = (H.SplineComponents Spline).LocationAtSplinePointLocal i ∧
      T.Rotation = (H.SplineComponents Spline).QuaternionAtSplinePointWorld i ∧
      T.Scale3D = (H.SplineComponents Spline).ScaleAtSplinePoint i) :
    HasSplineComponentChanged H Settings E r = false := by
  rw [← Bool.not_eq_true, HasSplineComponentChanged_eq H Settings E r Spline h,
    AnySplinePointChanged_iff]
  rintro (h1 | h1 | h1 | h1 | ⟨i, T, hT, hC⟩)
  · exact h1 hLength
  · exact h1 hCount
  · exact h1 hArray
  · exact h1 hResolution
  · obtain ⟨ht, hr, hs⟩ := hPoints i T hT
    rw [Nat.zero_add, SplinePointChanged_iff, ht, hr, hs, FVector_Equals_self,
      FQuat_Equals_self, FVector_Equals_self] at hC
    simp at hC

/-- Witness of C12 (amended): the one-point entry against the identical live
spline, asked at the cached resolution 50. -/
theorem HasSplineComponentChanged_identical_witness :
    HasSplineComponentChanged (hostWithSpline (onePointSpline ⟨0, 0, 0⟩)) demoSettings
      splineEntry 50 = false :=
  HasSplineComponentChanged_identical (hostWithSpline (onePointSpline ⟨0, 0, 0⟩)) demoSettings
    splineEntry 50 0 rfl rfl rfl rfl
    (by simp [splineEntry, EffectiveSplineResolution]; norm_num)
    (by
      intro i T hT
      cases i with
      | zero =>
        simp only [splineEntry, List.getElem?_cons_zero, Option.some.injEq] at hT
        subst hT
        simp [hostWithSpline, onePointSpline, FTransform.Identity]
      | succ j => simp [splineEntry] at hT)

end FHoudiniAssetInputOutlinerMesh

namespace FHoudiniAssetInputOutlinerMesh

/-- C20: given that a spline component reports a point count that is not
negative, `RebuildSplineTransformsArrayIfNeeded` changes the cached
control-point-transform array exactly when the entry has a spline component,
the cached count equals the live count and the cached array length differs
from the live count; the array then has the live count as length and holds
the live spline's local transform of point n at place n; every other field of
the entry is unchanged in every case. -/
theorem RebuildSplineTransformsArrayIfNeeded_spec (H : Host)
    (E : FHoudiniAssetInputOutlinerMesh)
    (hn : ∀ Spline, E.SplineComponent = some Spline →
      0 ≤ (H.SplineComponents Spline).NumberOfSplinePoints) :
    ((RebuildSplineTransformsArrayIfNeeded H E).SplineControlPointsTransform
        ≠ E.SplineControlPointsTransform ↔
      ∃ Spline, E.SplineComponent = some Spline ∧
        E.NumberOfSplineControlPoints = (H.SplineComponents Spline).NumberOfSplinePoints ∧
        (E.SplineControlPointsTransform.length : Int)
          ≠ (H.SplineComponents Spline).NumberOfSplinePoints) ∧
    (∀ Spline, E.SplineComponent = some Spline →
      E.NumberOfSplineControlPoints = (H.SplineComponents Spline).NumberOfSplinePoints →
      (E.SplineControlPointsTransform.length : Int)
        ≠ (H.SplineComponents Spline).NumberOfSplinePoints →
      ((RebuildSplineTransformsArrayIfNeeded H E).SplineControlPointsTransform.length : Int)
          = (H.SplineComponents Spline).NumberOfSplinePoints ∧
        ∀ n : Nat, (n : Int) < (H.SplineComponents Spline).NumberOfSplinePoints →
          (RebuildSplineTransformsArrayIfNeeded H E).SplineControlPointsTransform[n]?
            = some ((H.SplineComponents Spline).TransformAtSplinePointLocal n)) ∧
    (RebuildSplineTransformsArrayIfNeeded H E).Actor = E.Actor ∧
    (RebuildSplineTransformsArrayIfNeeded H E).StaticMeshComponent = E.StaticMeshComponent ∧
    (RebuildSplineTransformsArrayIfNeeded H E).StaticMesh = E.StaticMesh ∧
    (RebuildSplineTransformsArrayIfNeeded H E).SplineComponent = E.SplineComponent ∧
    (RebuildSplineTransformsArrayIfNeeded H E).NumberOfSplineControlPoints
      = E.NumberOfSplineControlPoints ∧
    (RebuildSplineTransformsArrayIfNeeded H E).SplineLength = E.SplineLength ∧
    (RebuildSplineTransformsArrayIfNeeded H E).SplineResolution = E.SplineResolution ∧
    (RebuildSplineTransformsArrayIfNeeded H E).ActorTransform = E.ActorTransform ∧
    (RebuildSplineTransformsArrayIfNeeded H E).ComponentTransform = E.ComponentTransform ∧
    (RebuildSplineTransformsArrayIfNeeded H E).AssetId = E.AssetId ∧
    (RebuildSplineTransformsArrayIfNeeded H E).KeepWorldTransform = E.KeepWorldTransform := by
  cases hS : E.SplineComponent with
  | none => simp [RebuildSplineTransformsArrayIfNeeded, hS]
  | some Spline =>
    have h0 := hn Spline hS
    simp only [Option.some.injEq, exists_eq_left', forall_eq']
    by_cases h1 : E.NumberOfSplineControlPoints
        = (H.SplineComponents Spline).NumberOfSplinePoints
    · by_cases h2 : (E.SplineControlPointsTransform.length : Int)
          = (H.SplineComponents Spline).NumberOfSplinePoints
      · simp [RebuildSplineTransformsArrayIfNeeded, hS, h1, h2]
      · have hArr : (RebuildSplineTransformsArrayIfNeeded H E).SplineControlPointsTransform =
            List.map (H.SplineComponents Spline).TransformAtSplinePointLocal
              (List.range (H.SplineComponents Spline).NumberOfSplinePoints.toNat) := by
          simp [RebuildSplineTransformsArrayIfNeeded, hS, h1, h2]
        have hlen : ((List.map (H.SplineComponents Spline).TransformAtSplinePointLocal
            (List.range (H.SplineComponents Spline).NumberOfSplinePoints.toNat)).length : Int)
            = (H.SplineComponents Spline).NumberOfSplinePoints := by
          simp [Int.toNat_of_nonneg h0]
        rw [hArr]
        refine ⟨⟨fun _ => ⟨h1, h2⟩, fun _ hEq => ?_⟩, fun _ _ => ⟨hlen, fun n hlt => ?_⟩, ?_⟩
        · rw [hEq] at hlen
          exact h2 hlen
        · have : n < (H.SplineComponents Spline).NumberOfSplinePoints.toNat := by omega
          simp [List.getElem?_map, List.getElem?_range this]
        · simp [RebuildSplineTransformsArrayIfNeeded, hS, h1, h2]
    · simp [RebuildSplineTransformsArrayIfNeeded, hS, h1]

/-- Witness of C20: the one-point entry whose array was lost, against a live
spline of one point. -/
theorem RebuildSplineTransformsArrayIfNeeded_spec_witness :
    (RebuildSplineTransformsArrayIfNeeded (hostWithSpline (onePointSpline ⟨0, 0, 0⟩))
      { splineEntry with SplineControlPointsTransform := [] }).SplineControlPointsTransform
      ≠ [] :=
  ((RebuildSplineTransformsArrayIfNeeded_spec (hostWithSpline (onePointSpline ⟨0, 0, 0⟩))
    { splineEntry with SplineControlPointsTransform := [] }
    (by intro Spline _; simp [hostWithSpline, onePointSpline])).1).2
    ⟨0, rfl, rfl, by simp [hostWithSpline, onePointSpline]⟩

end FHoudiniAssetInputOutlinerMesh

namespace UHoudiniAssetInput

/-- `StartWorldOutlinerTicking` keeps the timer invariant. -/
theorem StartWorldOutlinerTicking_invariant (H : Host) (s : UHoudiniAssetInput)
    (h : TimerInvariant s = true) : TimerInvariant (StartWorldOutlinerTicking H s).1 = true := by
  unfold StartWorldOutlinerTicking
  split
  · rename_i hc
    simp only [Bool.and_eq_true, decide_eq_true_eq] at hc
    have : s.InputOutlinerMeshArray ≠ [] := by
      intro h0
      rw [h0] at hc
      simp at hc
    simp [TimerInvariant, this]
  · exact h

/-- `StopWorldOutlinerTicking` keeps the timer invariant. -/
theorem StopWorldOutlinerTicking_invariant (H : Host) (s : UHoudiniAssetInput)
    (h : TimerInvariant s = true) : TimerInvariant (StopWorldOutlinerTicking H s).1 = true := by
  unfold StopWorldOutlinerTicking
  split
  · simp [TimerInvariant]
  · exact h

/-- When `OnButtonClickSelectActors` returns, the timer invariant holds if it
held before. -/
theorem OnButtonClickSelectActors_invariant (H : Host) (s : UHoudiniAssetInput)
    (DetailsView : Option Bool) (SelectedObjects : Bool)
    (OutlinerMeshDefault : FHoudiniAssetInputOutlinerMesh)
    (SelectedActors : List (Option FSelectedActor))
    (h : TimerInvariant s = true)
    (hret : (OnButtonClickSelectActors H s DetailsView SelectedObjects OutlinerMeshDefault
      SelectedActors).completion = Completion.returned ()) :
    TimerInvariant (OnButtonClickSelectActors H s DetailsView SelectedObjects
      OutlinerMeshDefault SelectedActors).state = true := by
  rcases DetailsView with _ | _ | _
  · exact h
  · simp only [OnButtonClickSelectActors] at hret ⊢
    cases hC : s.HoudiniAssetComponent with
    | none => simp [hC] at hret
    | some Component =>
      simp only [hC] at hret ⊢
      split <;> simp_all
  · simp only [OnButtonClickSelectActors] at hret ⊢
    by_cases hG : (!H.GEditor || !SelectedObjects) = true
    · simp only [hG, if_true]
      exact h
    · simp only [hG] at hret ⊢
      simp only [Bool.or_eq_true, Bool.not_eq_true', not_or, Bool.not_eq_false] at hG
      generalize DisconnectAndDestroyInputAsset H { s with bStaticMeshChanged := true } = d
        at hret ⊢
      cases hN : d.state.HoudiniAssetComponent with
      | none =>
        simp only [hN, Bool.false_eq_true, if_false] at hret
        split at hret <;> simp at hret
      | some Component =>
        simp only [hN, Bool.false_eq_true, if_false]
        generalize SelectedEntries H d.state (H.GetOwner Component) OutlinerMeshDefault
          SelectedActors = Added
        cases Added with
        | nil =>
          simp [MarkChanged, StopWorldOutlinerTicking, TimerInvariant, hG.1]
          split <;> simp_all
        | cons E rest =>
          simp [MarkChanged, StartWorldOutlinerTicking, TimerInvariant, hG.1]
          split <;> simp

end UHoudiniAssetInput

namespace UHoudiniAssetInput

/-- C13: on a World input that tracks one actor while its timer is bound (the
invariant holds), a tick that finds the actor pending deletion destroys the
entry's node 7 and purges the entry, but returns with the timer still bound
over an empty array; `RemoveWorldOutlinerInput` on the same input does the
same.  `StartWorldOutlinerTicking`, `StopWorldOutlinerTicking` and a returning
`OnButtonClickSelectActors` keep the invariant. -/
theorem TickWorldOutlinerInputs_timer_stays_bound :
    (∀ (H : Host) (s : UHoudiniAssetInput), TimerInvariant s = true →
      TimerInvariant (StartWorldOutlinerTicking H s).1 = true ∧
      TimerInvariant (StopWorldOutlinerTicking H s).1 = true) ∧
    (∀ (H : Host) (s : UHoudiniAssetInput) (DetailsView : Option Bool) (SelectedObjects : Bool)
        (OutlinerMeshDefault : FHoudiniAssetInputOutlinerMesh)
        (SelectedActors : List (Option FSelectedActor)),
      TimerInvariant s = true →
      (OnButtonClickSelectActors H s DetailsView SelectedObjects OutlinerMeshDefault
        SelectedActors).completion = Completion.returned () →
      TimerInvariant (OnButtonClickSelectActors H s DetailsView SelectedObjects
        OutlinerMeshDefault SelectedActors).state = true) ∧
    TimerInvariant (trackingInput [{ FHoudiniAssetInputOutlinerMesh.demoEntry with AssetId := 7 }])
      = true ∧
    (TickWorldOutlinerInputs (hostWithPendingKill (fun _ => true)) demoSettings
        (trackingInput [{ FHoudiniAssetInputOutlinerMesh.demoEntry with AssetId := 7 }])).completion
        = Completion.returned () ∧
    (TickWorldOutlinerInputs (hostWithPendingKill (fun _ => true)) demoSettings
        (trackingInput [{ FHoudiniAssetInputOutlinerMesh.demoEntry with AssetId := 7 }])).calls
        = [HapiCall.DestroyAsset 7] ∧
    (TickWorldOutlinerInputs (hostWithPendingKill (fun _ => true)) demoSettings
        (trackingInput [{ FHoudiniAssetInputOutlinerMesh.demoEntry with AssetId := 7
          }])).state.InputOutlinerMeshArray = [] ∧
    (TickWorldOutlinerInputs (hostWithPendingKill (fun _ => true)) demoSettings
        (trackingInput [{ FHoudiniAssetInputOutlinerMesh.demoEntry with AssetId := 7
          }])).state.WorldOutlinerTimerBound = true ∧
    TimerInvariant (TickWorldOutlinerInputs (hostWithPendingKill (fun _ => true)) demoSettings
        (trackingInput [{ FHoudiniAssetInputOutlinerMesh.demoEntry with AssetId := 7 }])).state
        = false ∧
    (RemoveWorldOutlinerInput
        (trackingInput [{ FHoudiniAssetInputOutlinerMesh.demoEntry with AssetId := 7 }])
        0).completion = Completion.returned () ∧
    TimerInvariant (RemoveWorldOutlinerInput
        (trackingInput [{ FHoudiniAssetInputOutlinerMesh.demoEntry with AssetId := 7 }])
        0).state = false := by
  refine ⟨fun H s h => ⟨StartWorldOutlinerTicking_invariant H s h,
    StopWorldOutlinerTicking_invariant H s h⟩,
    fun H s DetailsView SelectedObjects OutlinerMeshDefault SelectedActors h hret =>
      OnButtonClickSelectActors_invariant H s DetailsView SelectedObjects OutlinerMeshDefault
        SelectedActors h hret, ?_⟩
  decide

/-- C14: a World input tracks two spline entries, of actor 1 and of actor 2;
only actor 1 is pending deletion.  The tick returns with both entries
removed: the entry of the live actor 2 is gone as well. -/
theorem TickWorldOutlinerInputs_removes_live_spline :
    ((hostWithPendingKill (fun Actor => Actor == 1)).Actors 2).PendingKill = false ∧
    (TickWorldOutlinerInputs (hostWithPendingKill (fun Actor => Actor == 1)) demoSettings
        (trackingInput [{ splineEntry with Actor := some 1, SplineComponent := some 1 },
          { splineEntry with Actor := some 2, SplineComponent := some 2 }])).completion
        = Completion.returned () ∧
    (TickWorldOutlinerInputs (hostWithPendingKill (fun Actor => Actor == 1)) demoSettings
        (trackingInput [{ splineEntry with Actor := some 1, SplineComponent := some 1 },
          { splineEntry with Actor := some 2, SplineComponent := some 2 }])).state.InputOutlinerMeshArray
        = [] := by
  simp [TickWorldOutlinerInputs, TickScan, TickEntry, TickMarkLocalChanged, TickPurge,
    trackingInput, hostWithPendingKill, splineEntry, onePointSpline, demoSettings,
    Constructed, IsValidAssetId, MarkChanged,
    FHoudiniAssetInputOutlinerMesh.HasActorTransformChanged,
    FHoudiniAssetInputOutlinerMesh.HasComponentTransformChanged,
    FHoudiniAssetInputOutlinerMesh.HasSplineComponentChanged,
    FHoudiniAssetInputOutlinerMesh.EffectiveSplineResolution,
    FHoudiniAssetInputOutlinerMesh.AnySplinePointChanged,
    FHoudiniAssetInputOutlinerMesh.SplinePointChanged,
    FTransform.Equals, FVector.Equals, FQuat.Equals, FTransform.Identity, KINDA_SMALL_NUMBER]

end UHoudiniAssetInput

namespace UHoudiniAssetInput

/-- Every call of the entry loop of the transform-type push is a node-input
query or sets the given transform type. -/
theorem PushEntryTransformTypes_calls (R : TransformTypeReplies) (NodeId : Int) (t : Nat)
    (k n : Nat) (c : HapiCall) (hc : c ∈ (PushEntryTransformTypes R NodeId t k n).2.1) :
    (∃ a b, c = HapiCall.QueryNodeInput a b) ∨ (∃ a, c = HapiCall.SetParmIntValue a t) := by
  induction k generalizing n with
  | zero => simp [PushEntryTransformTypes] at hc
  | succ k ih =>
    simp only [PushEntryTransformTypes] at hc
    split at hc
    · simp only [List.mem_singleton] at hc
      exact Or.inl ⟨_, _, hc⟩
    · split at hc
      · simp only [List.mem_cons] at hc
        rcases hc with hc | hc
        · exact Or.inl ⟨_, _, hc⟩
        · exact ih _ hc
      · split at hc
        · simp only [List.mem_cons, List.mem_singleton, List.not_mem_nil, or_false] at hc
          rcases hc with hc | hc
          · exact Or.inl ⟨_, _, hc⟩
          · exact Or.inr ⟨_, hc⟩
        · simp only [List.mem_cons] at hc
          rcases hc with hc | hc | hc
          · exact Or.inl ⟨_, _, hc⟩
          · exact Or.inr ⟨_, hc⟩
          · exact ih _ hc

/-- Every call of `UpdateObjectMergeTransformType` is an asset-info query, a
node-input query, or sets the transform type `nTransformType`. -/
theorem UpdateObjectMergeTransformType_calls (H : Host) (s : UHoudiniAssetInput)
    (R : TransformTypeReplies) (c : HapiCall)
    (hc : c ∈ (UpdateObjectMergeTransformType H s R).2.1) :
    (∃ a, c = HapiCall.GetAssetInfo a) ∨ (∃ a b, c = HapiCall.QueryNodeInput a b) ∨
      (∃ a, c = HapiCall.SetParmIntValue a s.nTransformType) := by
  unfold UpdateObjectMergeTransformType at hc
  cases hC : s.HoudiniAssetComponent with
  | none => simp [hC] at hc
  | some Component =>
    simp only [hC] at hc
    cases h1 : R.HostAssetInfo with
    | none =>
      simp only [h1, List.mem_singleton] at hc
      exact Or.inl ⟨_, hc⟩
    | some HostAssetInfo =>
      simp only [h1] at hc
      cases h2 : R.InputNodeId with
      | none =>
        simp only [h2, List.mem_cons, List.mem_singleton, List.not_mem_nil, or_false] at hc
        rcases hc with hc | hc
        · exact Or.inl ⟨_, hc⟩
        · exact Or.inr (Or.inl ⟨_, _, hc⟩)
      | some InputNodeId =>
        simp only [h2] at hc
        cases h3 : R.SetXformType with
        | false =>
          simp only [h3, Bool.not_false, if_true, List.mem_append, List.mem_cons,
            List.mem_singleton, List.not_mem_nil, or_false] at hc
          rcases hc with (hc | hc) | hc
          · exact Or.inl ⟨_, hc⟩
          · exact Or.inr (Or.inl ⟨_, _, hc⟩)
          · exact Or.inr (Or.inr ⟨_, hc⟩)
        | true =>
          simp only [h3, Bool.not_true, Bool.false_eq_true, if_false] at hc
          cases h4 : R.AssetInfo with
          | none =>
            simp only [h4, List.mem_append, List.mem_cons, List.mem_singleton,
              List.not_mem_nil, or_false] at hc
            rcases hc with ((hc | hc) | hc) | hc
            · exact Or.inl ⟨_, hc⟩
            · exact Or.inr (Or.inl ⟨_, _, hc⟩)
            · exact Or.inr (Or.inr ⟨_, hc⟩)
            · exact Or.inl ⟨_, hc⟩
          | some AssetInfo =>
            simp only [h4, List.mem_append, List.mem_cons, List.mem_singleton,
              List.not_mem_nil, or_false] at hc
            rcases hc with (((hc | hc) | hc) | hc) | hc
            · exact Or.inl ⟨_, hc⟩
            · exact Or.inr (Or.inl ⟨_, _, hc⟩)
            · exact Or.inr (Or.inr ⟨_, hc⟩)
            · exact Or.inl ⟨_, hc⟩
            · rcases PushEntryTransformTypes_calls _ _ _ _ _ _ hc with h | h
              · exact Or.inr (Or.inl h)
              · exact Or.inr (Or.inr h)

end UHoudiniAssetInput

namespace UHoudiniAssetInput

/-- C18: every transform type that `UpdateObjectMergeTransformType` sets is
the value `nTransformType`, which is set on the input node whenever the two
queries before it succeed; the value is 0 or 1: 0 when keep-world-transform
is 0, 1 when it is neither 0 nor 2, and when it is 2 (the default state) 0
for the Curve and Geometry kinds and 1 for the Asset, Landscape and World
kinds. -/
theorem UpdateObjectMergeTransformType_value (H : Host) (s : UHoudiniAssetInput)
    (R : TransformTypeReplies) :
    (∀ NodeId v, HapiCall.SetParmIntValue NodeId v ∈ (UpdateObjectMergeTransformType H s R).2.1 →
      v = s.nTransformType) ∧
    (∀ Component HostAssetInfo InputNodeId, s.HoudiniAssetComponent = some Component →
      R.HostAssetInfo = some HostAssetInfo → R.InputNodeId = some InputNodeId →
      HapiCall.SetParmIntValue InputNodeId s.nTransformType
        ∈ (UpdateObjectMergeTransformType H s R).2.1) ∧
    (s.nTransformType = 0 ∨ s.nTransformType = 1) ∧
    (s.bKeepWorldTransform = 0 → s.nTransformType = 0) ∧
    (s.bKeepWorldTransform ≠ 0 → s.bKeepWorldTransform ≠ 2 → s.nTransformType = 1) ∧
    (s.bKeepWorldTransform = 2 →
      s.ChoiceIndex = EHoudiniAssetInputType.CurveInput ∨
        s.ChoiceIndex = EHoudiniAssetInputType.GeometryInput →
      s.nTransformType = 0) ∧
    (s.bKeepWorldTransform = 2 →
      s.ChoiceIndex = EHoudiniAssetInputType.AssetInput ∨
        s.ChoiceIndex = EHoudiniAssetInputType.LandscapeInput ∨
        s.ChoiceIndex = EHoudiniAssetInputType.WorldInput →
      s.nTransformType = 1) := by
  refine ⟨?_, ?_, ?_, ?_, ?_, ?_, ?_⟩
  · intro NodeId v hc
    rcases UpdateObjectMergeTransformType_calls H s R _ hc with ⟨a, h⟩ | ⟨a, b, h⟩ | ⟨a, h⟩
    · cases h
    · cases h
    · injection h with _ hv
  · intro Component HostAssetInfo InputNodeId hC h1 h2
    unfold UpdateObjectMergeTransformType nTransformType
    simp only [hC, h1, h2]
    cases R.SetXformType
    · simp
    · cases R.AssetInfo <;> simp
  · unfold nTransformType GetDefaultTranformTypeValue
    split
    · cases s.ChoiceIndex <;> simp
    · split <;> simp
  · intro h
    simp [nTransformType, h]
  · intro h0 h2
    simp [nTransformType, h0, h2]
  · intro h hk
    rcases hk with hk | hk <;> simp [nTransformType, GetDefaultTranformTypeValue, h, hk]
  · intro h hk
    rcases hk with hk | hk | hk <;> simp [nTransformType, GetDefaultTranformTypeValue, h, hk]

/-- C19: a freshly constructed Geometry input is switched to the World kind
and the create-and-connect call fails after it has made node 9 and written
its id: `ChangeInputType` returns true with the kind tag World, reports no
failed call, and leaves the input connected to node 9, which is alive in the
session. -/
theorem ChangeInputType_world_connect_fails :
    (⟨false, 9, [], [], [9]⟩ : CreateAndConnectReply).ok = false ∧
    (ChangeInputType demoHost Constructed EHoudiniAssetInputType.WorldInput
      ⟨false, 9, [], [], [9]⟩).completion = Completion.returned true ∧
    (ChangeInputType demoHost Constructed EHoudiniAssetInputType.WorldInput
      ⟨false, 9, [], [], [9]⟩).state.ChoiceIndex = EHoudiniAssetInputType.WorldInput ∧
    (ChangeInputType demoHost Constructed EHoudiniAssetInputType.WorldInput
      ⟨false, 9, [], [], [9]⟩).calls = [HapiCall.CreateAndConnectAsset 100 0 [9]] ∧
    (ChangeInputType demoHost Constructed EHoudiniAssetInputType.WorldInput
      ⟨false, 9, [], [], [9]⟩).failed = [] ∧
    (ChangeInputType demoHost Constructed EHoudiniAssetInputType.WorldInput
      ⟨false, 9, [], [], [9]⟩).state.ConnectedAssetId = 9 ∧
    LiveAfter [] (ChangeInputType demoHost Constructed EHoudiniAssetInputType.WorldInput
      ⟨false, 9, [], [], [9]⟩).calls = [9] := by
  decide

end UHoudiniAssetInput

namespace UHoudiniAssetInput

/-- The World branch of the disconnect issues only disconnect and destroy
calls. -/
theorem DestroyOutlinerAssets_calls (c : Int) (l : List FHoudiniAssetInputOutlinerMesh)
    (x : HapiCall) (hx : x ∈ (DestroyOutlinerAssets c l).2) : IsConnectionCall x = false := by
  induction l with
  | nil => simp [DestroyOutlinerAssets] at hx
  | cons E rest ih =>
    simp only [DestroyOutlinerAssets] at hx
    split at hx
    · simp only [List.mem_cons] at hx
      rcases hx with hx | hx | hx
      · subst hx; rfl
      · subst hx; rfl
      · exact ih hx
    · exact ih hx

/-- `DisconnectAndDestroyInputAsset` issues no call that makes or attaches a
node. -/
theorem DisconnectAndDestroyInputAsset_calls (H : Host) (s : UHoudiniAssetInput) (x : HapiCall)
    (hx : x ∈ (DisconnectAndDestroyInputAsset H s).calls) : IsConnectionCall x = false := by
  unfold DisconnectAndDestroyInputAsset at hx
  split at hx
  · simp at hx
  · have h1 : ∀ y ∈ (match s.HoudiniAssetComponent with
        | some Component =>
          if IsValidAssetId s.ConnectedAssetId && IsValidAssetId (H.GetAssetId Component) then
            [HapiCall.DisconnectAsset (H.GetAssetId Component) s.InputIndex]
          else []
        | none => ([] : List HapiCall)), IsConnectionCall y = false := by
      intro y hy
      split at hy
      · split at hy
        · simp only [List.mem_singleton] at hy
          subst hy; rfl
        · simp at hy
      · simp at hy
    dsimp only at hx
    split at hx
    · split at hx
      · simp only [List.mem_append, List.mem_singleton] at hx
        rcases hx with (hx | hx) | hx
        · exact h1 x hx
        · exact DestroyOutlinerAssets_calls _ _ x hx
        · subst hx; rfl
      · simp only [List.mem_append] at hx
        rcases hx with hx | hx
        · exact h1 x hx
        · exact DestroyOutlinerAssets_calls _ _ x hx
    · split at hx
      · split at hx
        · simp only [List.mem_append, List.mem_singleton, List.mem_map] at hx
          rcases hx with (hx | ⟨a, _, hx⟩) | hx
          · exact h1 x hx
          · subst hx; rfl
          · subst hx; rfl
        · simp only [List.mem_append, List.mem_map] at hx
          rcases hx with hx | ⟨a, _, hx⟩
          · exact h1 x hx
          · subst hx; rfl
      · split at hx
        · simp only [List.mem_append, List.mem_singleton, List.not_mem_nil, or_false] at hx
          rcases hx with hx | hx
          · exact h1 x hx
          · subst hx; rfl
        · simp only [List.mem_append, List.not_mem_nil, or_false] at hx
          exact h1 x hx

/-- `DisconnectAndDestroyInputAsset` keeps the object list, the asset
component, the kind, the input index and the mesh-changed and loaded flags. -/
theorem DisconnectAndDestroyInputAsset_frame (H : Host) (s : UHoudiniAssetInput) :
    (DisconnectAndDestroyInputAsset H s).state.InputObjects = s.InputObjects ∧
    (DisconnectAndDestroyInputAsset H s).state.HoudiniAssetComponent = s.HoudiniAssetComponent ∧
    (DisconnectAndDestroyInputAsset H s).state.ChoiceIndex = s.ChoiceIndex ∧
    (DisconnectAndDestroyInputAsset H s).state.InputIndex = s.InputIndex ∧
    (DisconnectAndDestroyInputAsset H s).state.bStaticMeshChanged = s.bStaticMeshChanged ∧
    (DisconnectAndDestroyInputAsset H s).state.bLoadedParameter = s.bLoadedParameter := by
  unfold DisconnectAndDestroyInputAsset
  split
  · simp
  · dsimp only
    split <;> split <;> (try split) <;> simp

end UHoudiniAssetInput

namespace UHoudiniAssetInput

/-- C15 (counterexample): an uploaded Geometry input holds the meshes 3 and
4.  After the reference at 0 is reset, the list is null, 4; the next upload
disconnects and destroys, then issues the one create-and-connect call with
that list, but the call fails: the upload returns false and the mesh-changed
flag stays set. -/
theorem OnResetStaticMeshClicked_flag_not_cleared :
    (OnResetStaticMeshClicked uploadedGeometryInput 0).state.InputObjects = [none, some 4] ∧
    (UploadParameterValue demoHost (OnResetStaticMeshClicked uploadedGeometryInput 0).state
      createFailsReplies).calls =
      [HapiCall.DisconnectAsset 100 0, HapiCall.DestroyAsset 8, HapiCall.DestroyAsset 9,
        HapiCall.CreateAndConnectGeometry 100 0 [none, some 4] []] ∧
    (UploadParameterValue demoHost (OnResetStaticMeshClicked uploadedGeometryInput 0).state
      createFailsReplies).completion = Completion.returned false ∧
    (UploadParameterValue demoHost (OnResetStaticMeshClicked uploadedGeometryInput 0).state
      createFailsReplies).state.bStaticMeshChanged = true := by
  decide

/-- Resetting a reference that is null already changes nothing, so that the
next upload of an uploaded input issues no create-and-connect call. -/
theorem OnResetStaticMeshClicked_null_reference :
    (OnResetStaticMeshClicked { uploadedGeometryInput with InputObjects := [none, some 4] }
      0).state = { uploadedGeometryInput with InputObjects := [none, some 4] } ∧
    (UploadParameterValue demoHost
      (OnResetStaticMeshClicked { uploadedGeometryInput with InputObjects := [none, some 4] }
        0).state okReplies).calls =
      [HapiCall.GetAssetInfo 100, HapiCall.QueryNodeInput 1 0, HapiCall.SetParmIntValue 2 0,
        HapiCall.GetAssetInfo 9] := by
  decide

/-- C15 (amended): on a Geometry input with an asset component, resetting a
reference that is not null at a valid index returns with null at that place
and the list otherwise as it was; the next `UploadParameterValue` issues the
calls of `DisconnectAndDestroyInputAsset`, then one create-and-connect call
with that list, and no other call that makes or attaches a node; the
mesh-changed flag is cleared when the create-and-connect call succeeds, and
when it fails the flag stays set, the connected id is -1 and false is
returned. -/
theorem OnResetStaticMeshClicked_then_upload (H : Host) (s : UHoudiniAssetInput)
    (R : UploadReplies) (i : Nat) (Component : Nat)
    (hKind : s.ChoiceIndex = EHoudiniAssetInputType.GeometryInput)
    (hComponent : s.HoudiniAssetComponent = some Component)
    (hIndex : i < s.InputObjects.length)
    (hReference : s.InputObjects[i]? ≠ some none) :
    (OnResetStaticMeshClicked s i).completion = Completion.returned () ∧
    (OnResetStaticMeshClicked s i).state.InputObjects = s.InputObjects.set i none ∧
    (OnResetStaticMeshClicked s i).state.InputObjects.length = s.InputObjects.length ∧
    (OnResetStaticMeshClicked s i).state.InputObjects[i]? = some none ∧
    (∀ j, j ≠ i →
      (OnResetStaticMeshClicked s i).state.InputObjects[j]? = s.InputObjects[j]?) ∧
    (∃ rest,
      (UploadParameterValue H (OnResetStaticMeshClicked s i).state R).calls =
        (DisconnectAndDestroyInputAsset H (OnResetStaticMeshClicked s i).state).calls ++
          [HapiCall.CreateAndConnectGeometry (H.GetAssetId Component) s.InputIndex
            (s.InputObjects.set i none) R.CreateAndConnect.Created] ++ rest ∧
      ∀ c ∈ (DisconnectAndDestroyInputAsset H (OnResetStaticMeshClicked s i).state).calls ++ rest,
        IsConnectionCall c = false) ∧
    (R.CreateAndConnect.ok = true →
      (UploadParameterValue H (OnResetStaticMeshClicked s i).state
        R).state.bStaticMeshChanged = false) ∧
    (R.CreateAndConnect.ok = false →
      (UploadParameterValue H (OnResetStaticMeshClicked s i).state
          R).state.bStaticMeshChanged = true ∧
        (UploadParameterValue H (OnResetStaticMeshClicked s i).state
          R).state.ConnectedAssetId = -1 ∧
        (UploadParameterValue H (OnResetStaticMeshClicked s i).state
          R).completion = Completion.returned false) := by
  have hRange : RangeCheck (i : Int) s.InputObjects.length = true := by
    simp [RangeCheck, hIndex]
  have hGet : s.GetInputObject (i : Int) ≠ none := by
    intro h0
    apply hReference
    simp only [GetInputObject, hRange, if_true, Int.toNat_ofNat] at h0
    rw [List.getElem?_eq_getElem hIndex]
    rw [List.getD_eq_getElem _ _ hIndex] at h0
    rw [h0]
  have hState : (OnResetStaticMeshClicked s i).state =
      (MarkChanged { s with InputObjects := s.InputObjects.set i none,
                            bStaticMeshChanged := true }).1 := by
    simp [OnResetStaticMeshClicked, OnStaticMeshDropped, hRange, hComponent, Ne.symm hGet]
  have hCompletion : (OnResetStaticMeshClicked s i).completion = Completion.returned () := by
    simp [OnResetStaticMeshClicked, OnStaticMeshDropped, hRange, hComponent, Ne.symm hGet]
  have hLen : (s.InputObjects.set i none).length ≠ 0 := by
    rw [List.length_set]; omega
  refine ⟨hCompletion, ?_, ?_, ?_, ?_, ?_⟩
  · rw [hState]; rfl
  · rw [hState]; simp [MarkChanged]
  · rw [hState]; simp [MarkChanged, hIndex]
  · intro j hj
    rw [hState]
    simp [MarkChanged, List.getElem?_set, Ne.symm hj]
  · generalize hs1 : (OnResetStaticMeshClicked s i).state = s1 at hState
    have e1 : s1.HoudiniAssetComponent = some Component := by rw [hState]; exact hComponent
    have e2 : s1.ChoiceIndex = EHoudiniAssetInputType.GeometryInput := by rw [hState]; exact hKind
    have e3 : s1.InputObjects = s.InputObjects.set i none := by rw [hState]; rfl
    have e4 : s1.bStaticMeshChanged = true := by rw [hState]; rfl
    have e5 : s1.InputIndex = s.InputIndex := by rw [hState]; rfl
    obtain ⟨f1, f2, f3, f4, f5, f6⟩ := DisconnectAndDestroyInputAsset_frame H s1
    have hd := DisconnectAndDestroyInputAsset_calls H s1
    unfold UploadParameterValue
    simp only [e1, e2, e3, e4, e5, hLen, f1, beq_iff_eq, if_false, Bool.true_or, if_true]
    cases hok : R.CreateAndConnect.ok
    · simp only [Bool.not_false, if_true, FailUpload]
      refine ⟨⟨[], by simp, ?_⟩, by simp, ?_⟩
      · intro c hc
        simp only [List.append_nil] at hc
        exact hd c hc
      · intro _
        simp [f5, e4]
    · simp only [Bool.not_true, Bool.false_eq_true, if_false, FinishUpload]
      refine ⟨⟨_, by rw [List.append_assoc], ?_⟩, ?_, by simp⟩
      · intro c hc
        simp only [List.mem_append] at hc
        rcases hc with hc | hc
        · exact hd c hc
        · rcases UpdateObjectMergeTransformType_calls _ _ _ c hc with ⟨a, h⟩ | ⟨a, b, h⟩ | ⟨a, h⟩
            <;> (subst h; rfl)
      · intro _
        trivial

/-- Witness of C15 (amended): the uploaded input with the meshes 3 and 4,
reset at 0 and uploaded with answers that all succeed. -/
theorem OnResetStaticMeshClicked_then_upload_witness :
    (OnResetStaticMeshClicked uploadedGeometryInput ((0 : Nat) : Int)).state.InputObjects
      = [none, some 4] ∧
    (UploadParameterValue demoHost
      (OnResetStaticMeshClicked uploadedGeometryInput ((0 : Nat) : Int)).state
      okReplies).state.bStaticMeshChanged = false :=
  ⟨(OnResetStaticMeshClicked_then_upload demoHost uploadedGeometryInput okReplies 0 1 rfl rfl
      (by decide) (by decide)).2.1,
    (OnResetStaticMeshClicked_then_upload demoHost uploadedGeometryInput okReplies 0 1 rfl rfl
      (by decide) (by decide)).2.2.2.2.2.2.1 rfl⟩

end UHoudiniAssetInput

namespace FHoudiniAssetInputOutlinerMesh

/-- The remote node id of a loaded entry: -1 on a load that is not a
transaction, the archived id on a transaction load. -/
theorem Serialize_AssetId (V : FHoudiniSerializationVersions) (IsTransacting : Bool)
    (Ar : FOutlinerMeshArchive) (E : FHoudiniAssetInputOutlinerMesh) :
    (Serialize V IsTransacting Ar E).1.AssetId = if IsTransacting then Ar.AssetId else -1 := by
  unfold Serialize
  cases IsTransacting <;> dsimp only <;> split <;> split <;> simp

/-- The members an entry load reads are those of the specified layout at the
archived version. -/
theorem OutlinerMesh_Serialize_reads (V : FHoudiniSerializationVersions) (IsTransacting : Bool)
    (Ar : FOutlinerMeshArchive) (E : FHoudiniAssetInputOutlinerMesh) :
    (Serialize V IsTransacting Ar E).2 =
      MembersAt (EntryLayout V) Ar.HoudiniAssetParameterVersion := by
  unfold Serialize
  dsimp only
  by_cases h1 : V.VER_HOUDINI_PLUGIN_SERIALIZATION_VERSION_ADDED_UNREAL_SPLINE
      ≤ Ar.HoudiniAssetParameterVersion <;>
    by_cases h2 : V.VER_HOUDINI_PLUGIN_SERIALIZATION_VERSION_ADDED_KEEP_TRANSFORM
      ≤ Ar.HoudiniAssetParameterVersion <;>
    simp [MembersAt, EntryLayout, FLayoutMember.presentAt, h1, h2]

end FHoudiniAssetInputOutlinerMesh

namespace UHoudiniAssetInput

/-- The members a slot load reads are those of the specified layout at the
archived version. -/
theorem Input_Serialize_reads (V : FHoudiniSerializationVersions)
    (OutlinerMeshDefault : FHoudiniAssetInputOutlinerMesh) (Ar : FHoudiniAssetInputArchive)
    (s : UHoudiniAssetInput) :
    (Serialize V OutlinerMeshDefault Ar s).reads =
      MembersAt (SlotLayout V) Ar.HoudiniAssetParameterVersion := by
  unfold Serialize
  simp only [SuperSerialize]
  by_cases h1 : V.VER_HOUDINI_PLUGIN_SERIALIZATION_VERSION_MULTI_GEO_INPUT
      ≤ Ar.HoudiniAssetParameterVersion <;>
    by_cases h2 : V.VER_HOUDINI_ENGINE_PARAM_LANDSCAPE_INPUT
      ≤ Ar.HoudiniAssetParameterVersion <;>
    by_cases h3 : V.VER_HOUDINI_ENGINE_PARAM_WORLD_OUTLINER_INPUT
      ≤ Ar.HoudiniAssetParameterVersion <;>
    by_cases h4 : V.VER_HOUDINI_PLUGIN_SERIALIZATION_VERSION_UNREAL_SPLINE_RESOLUTION_PER_INPUT
      ≤ Ar.HoudiniAssetParameterVersion <;>
    simp [MembersAt, SlotLayout, FLayoutMember.presentAt, h1, h2, h3, h4, ← not_le]

end UHoudiniAssetInput

namespace UHoudiniAssetInput

/-- C16: loading a slot reads the members of the specified layout at the
archived version, in order.  From the multi-geometry version on the object
list is read, below it one object is read into a one-element list; the
landscape reference, the outliner array and the spline resolution are read
from their versions on and keep their values below them, which for a newly
constructed input are null, the empty array and -1.  Loading an entry reads
the members of the specified entry layout at the entry's version; its spline
members and its keep-world-transform state are read from their versions on
and keep the values of the entry loaded into below them.  The members read at
every version take the archived values: the version tag, the choice, each
flag of the packed word, the input index, the asset component, the curve and
its parameters, and for an entry the actor, the mesh component, the mesh, the
actor transform and the node id, which is reset to -1 outside a transaction;
the loaded-parameter flag is set, and members that are not serialized keep
their values. -/
theorem Serialize_version_gated (V : FHoudiniSerializationVersions)
    (OutlinerMeshDefault : FHoudiniAssetInputOutlinerMesh) (Ar : FHoudiniAssetInputArchive)
    (s : UHoudiniAssetInput) (IsTransacting : Bool) (ArE : FOutlinerMeshArchive)
    (E : FHoudiniAssetInputOutlinerMesh) :
    (Serialize V OutlinerMeshDefault Ar s).reads =
      MembersAt (SlotLayout V) Ar.HoudiniAssetParameterVersion ∧
    (V.VER_HOUDINI_PLUGIN_SERIALIZATION_VERSION_MULTI_GEO_INPUT ≤ Ar.HoudiniAssetParameterVersion →
      (Serialize V OutlinerMeshDefault Ar s).state.InputObjects = Ar.InputObjects) ∧
    (Ar.HoudiniAssetParameterVersion < V.VER_HOUDINI_PLUGIN_SERIALIZATION_VERSION_MULTI_GEO_INPUT →
      (Serialize V OutlinerMeshDefault Ar s).state.InputObjects = [Ar.InputObject]) ∧
    (V.VER_HOUDINI_ENGINE_PARAM_LANDSCAPE_INPUT ≤ Ar.HoudiniAssetParameterVersion →
      (Serialize V OutlinerMeshDefault Ar s).state.InputLandscapeProxy
        = Ar.InputLandscapeProxy) ∧
    (Ar.HoudiniAssetParameterVersion < V.VER_HOUDINI_ENGINE_PARAM_LANDSCAPE_INPUT →
      (Serialize V OutlinerMeshDefault Ar s).state.InputLandscapeProxy = s.InputLandscapeProxy ∧
      (Serialize V OutlinerMeshDefault Ar Constructed).state.InputLandscapeProxy = none) ∧
    (V.VER_HOUDINI_ENGINE_PARAM_WORLD_OUTLINER_INPUT ≤ Ar.HoudiniAssetParameterVersion →
      (Serialize V OutlinerMeshDefault Ar s).state.InputOutlinerMeshArray =
        Ar.InputOutlinerMeshArray.map (fun A =>
          (FHoudiniAssetInputOutlinerMesh.Serialize V Ar.IsTransacting A
            OutlinerMeshDefault).1)) ∧
    (Ar.HoudiniAssetParameterVersion < V.VER_HOUDINI_ENGINE_PARAM_WORLD_OUTLINER_INPUT →
      (Serialize V OutlinerMeshDefault Ar s).state.InputOutlinerMeshArray
        = s.InputOutlinerMeshArray ∧
      (Serialize V OutlinerMeshDefault Ar Constructed).state.InputOutlinerMeshArray = []) ∧
    (V.VER_HOUDINI_PLUGIN_SERIALIZATION_VERSION_UNREAL_SPLINE_RESOLUTION_PER_INPUT
        ≤ Ar.HoudiniAssetParameterVersion →
      (Serialize V OutlinerMeshDefault Ar s).state.UnrealSplineResolution
        = Ar.UnrealSplineResolution) ∧
    (Ar.HoudiniAssetParameterVersion
        < V.VER_HOUDINI_PLUGIN_SERIALIZATION_VERSION_UNREAL_SPLINE_RESOLUTION_PER_INPUT →
      (Serialize V OutlinerMeshDefault Ar s).state.UnrealSplineResolution
        = s.UnrealSplineResolution ∧
      (Serialize V OutlinerMeshDefault Ar Constructed).state.UnrealSplineResolution = -1) ∧
    (FHoudiniAssetInputOutlinerMesh.Serialize V IsTransacting ArE E).2 =
      MembersAt (EntryLayout V) ArE.HoudiniAssetParameterVersion ∧
    (V.VER_HOUDINI_PLUGIN_SERIALIZATION_VERSION_ADDED_UNREAL_SPLINE
        ≤ ArE.HoudiniAssetParameterVersion →
      (FHoudiniAssetInputOutlinerMesh.Serialize V IsTransacting ArE E).1.SplineComponent
        = ArE.SplineComponent ∧
      (FHoudiniAssetInputOutlinerMesh.Serialize V IsTransacting ArE
        E).1.NumberOfSplineControlPoints = ArE.NumberOfSplineControlPoints ∧
      (FHoudiniAssetInputOutlinerMesh.Serialize V IsTransacting ArE E).1.SplineLength
        = ArE.SplineLength ∧
      (FHoudiniAssetInputOutlinerMesh.Serialize V IsTransacting ArE E).1.SplineResolution
        = ArE.SplineResolution ∧
      (FHoudiniAssetInputOutlinerMesh.Serialize V IsTransacting ArE E).1.ComponentTransform
        = ArE.ComponentTransform) ∧
    (ArE.HoudiniAssetParameterVersion
        < V.VER_HOUDINI_PLUGIN_SERIALIZATION_VERSION_ADDED_UNREAL_SPLINE →
      (FHoudiniAssetInputOutlinerMesh.Serialize V IsTransacting ArE E).1.SplineComponent
        = E.SplineComponent ∧
      (FHoudiniAssetInputOutlinerMesh.Serialize V IsTransacting ArE
        E).1.NumberOfSplineControlPoints = E.NumberOfSplineControlPoints ∧
      (FHoudiniAssetInputOutlinerMesh.Serialize V IsTransacting ArE E).1.SplineLength
        = E.SplineLength ∧
      (FHoudiniAssetInputOutlinerMesh.Serialize V IsTransacting ArE E).1.SplineResolution
        = E.SplineResolution ∧
      (FHoudiniAssetInputOutlinerMesh.Serialize V IsTransacting ArE E).1.ComponentTransform
        = E.ComponentTransform) ∧
    (V.VER_HOUDINI_PLUGIN_SERIALIZATION_VERSION_ADDED_KEEP_TRANSFORM
        ≤ ArE.HoudiniAssetParameterVersion →
      (FHoudiniAssetInputOutlinerMesh.Serialize V IsTransacting ArE E).1.KeepWorldTransform
        = ArE.KeepWorldTransform) ∧
    (ArE.HoudiniAssetParameterVersion
        < V.VER_HOUDINI_PLUGIN_SERIALIZATION_VERSION_ADDED_KEEP_TRANSFORM →
      (FHoudiniAssetInputOutlinerMesh.Serialize V IsTransacting ArE E).1.KeepWorldTransform
        = E.KeepWorldTransform) ∧
    ((Serialize V OutlinerMeshDefault Ar s).state.HoudiniAssetParameterVersion = Ar.HoudiniAssetParameterVersion ∧
      (Serialize V OutlinerMeshDefault Ar s).state.ChoiceIndex = Ar.ChoiceIndex ∧
      (Serialize V OutlinerMeshDefault Ar s).state.ChoiceStringValue = Ar.ChoiceStringValue ∧
      (Serialize V OutlinerMeshDefault Ar s).state.InputIndex = Ar.InputIndex ∧
      (Serialize V OutlinerMeshDefault Ar s).state.InputAssetComponent = Ar.InputAssetComponent ∧
      (Serialize V OutlinerMeshDefault Ar s).state.InputCurve = Ar.InputCurve ∧
      (Serialize V OutlinerMeshDefault Ar s).state.InputCurveParameters = Ar.InputCurveParameters) ∧
    ((Serialize V OutlinerMeshDefault Ar s).state.bStaticMeshChanged
        = Ar.HoudiniAssetInputFlagsPacked.bStaticMeshChanged ∧
      (Serialize V OutlinerMeshDefault Ar s).state.bSwitchedToCurve
        = Ar.HoudiniAssetInputFlagsPacked.bSwitchedToCurve ∧
      (Serialize V OutlinerMeshDefault Ar s).state.bLandscapeInputSelectionOnly
        = Ar.HoudiniAssetInputFlagsPacked.bLandscapeInputSelectionOnly ∧
      (Serialize V OutlinerMeshDefault Ar s).state.bLandscapeExportCurves
        = Ar.HoudiniAssetInputFlagsPacked.bLandscapeExportCurves ∧
      (Serialize V OutlinerMeshDefault Ar s).state.bLandscapeExportFullGeometry
        = Ar.HoudiniAssetInputFlagsPacked.bLandscapeExportFullGeometry ∧
      (Serialize V OutlinerMeshDefault Ar s).state.bLandscapeExportMaterials
        = Ar.HoudiniAssetInputFlagsPacked.bLandscapeExportMaterials ∧
      (Serialize V OutlinerMeshDefault Ar s).state.bLandscapeExportLighting
        = Ar.HoudiniAssetInputFlagsPacked.bLandscapeExportLighting ∧
      (Serialize V OutlinerMeshDefault Ar s).state.bLandscapeExportNormalizedUVs
        = Ar.HoudiniAssetInputFlagsPacked.bLandscapeExportNormalizedUVs ∧
      (Serialize V OutlinerMeshDefault Ar s).state.bLandscapeExportTileUVs
        = Ar.HoudiniAssetInputFlagsPacked.bLandscapeExportTileUVs ∧
      (Serialize V OutlinerMeshDefault Ar s).state.bKeepWorldTransform
        = Ar.HoudiniAssetInputFlagsPacked.bKeepWorldTransform ∧
      (Serialize V OutlinerMeshDefault Ar s).state.bLoadedParameter = true) ∧
    ((Serialize V OutlinerMeshDefault Ar s).state.HoudiniAssetComponent = s.HoudiniAssetComponent ∧
      (Serialize V OutlinerMeshDefault Ar s).state.bChanged = s.bChanged ∧
      (Serialize V OutlinerMeshDefault Ar s).state.GeometryInputAssetIds = s.GeometryInputAssetIds ∧
      (Serialize V OutlinerMeshDefault Ar s).state.ConnectedAssetId = s.ConnectedAssetId ∧
      (Serialize V OutlinerMeshDefault Ar s).state.WorldOutlinerTimerBound = s.WorldOutlinerTimerBound) ∧
    ((FHoudiniAssetInputOutlinerMesh.Serialize V IsTransacting ArE E).1.Actor
        = ArE.Actor ∧
      (FHoudiniAssetInputOutlinerMesh.Serialize V IsTransacting ArE E).1.StaticMeshComponent
        = ArE.StaticMeshComponent ∧
      (FHoudiniAssetInputOutlinerMesh.Serialize V IsTransacting ArE E).1.StaticMesh
        = ArE.StaticMesh ∧
      (FHoudiniAssetInputOutlinerMesh.Serialize V IsTransacting ArE E).1.ActorTransform
        = ArE.ActorTransform ∧
      (FHoudiniAssetInputOutlinerMesh.Serialize V IsTransacting ArE E).1.AssetId
        = (if IsTransacting then ArE.AssetId else -1) ∧
      (FHoudiniAssetInputOutlinerMesh.Serialize V IsTransacting ArE E).1.SplineControlPointsTransform
        = E.SplineControlPointsTransform) := by
  refine ⟨Input_Serialize_reads V OutlinerMeshDefault Ar s, ?_, ?_, ?_, ?_, ?_, ?_, ?_, ?_,
    FHoudiniAssetInputOutlinerMesh.OutlinerMesh_Serialize_reads V IsTransacting ArE E, ?_, ?_, ?_, ?_,
    ?_, ?_, ?_, ?_⟩
  · intro h; simp [Serialize, SuperSerialize, h]
  · intro h; simp [Serialize, SuperSerialize, not_le.mpr h]
  · intro h; simp [Serialize, SuperSerialize, h]
  · intro h; simp [Serialize, SuperSerialize, LoadFlagsPacked, Constructed, not_le.mpr h]
  · intro h; simp [Serialize, SuperSerialize, h]
  · intro h; simp [Serialize, SuperSerialize, LoadFlagsPacked, Constructed, not_le.mpr h]
  · intro h; simp [Serialize, SuperSerialize, h]
  · intro h; simp [Serialize, SuperSerialize, LoadFlagsPacked, Constructed, not_le.mpr h]
  · intro h
    by_cases h2 : V.VER_HOUDINI_PLUGIN_SERIALIZATION_VERSION_ADDED_KEEP_TRANSFORM
        ≤ ArE.HoudiniAssetParameterVersion <;>
      simp [FHoudiniAssetInputOutlinerMesh.Serialize, h, h2]
  · intro h
    by_cases h2 : V.VER_HOUDINI_PLUGIN_SERIALIZATION_VERSION_ADDED_KEEP_TRANSFORM
        ≤ ArE.HoudiniAssetParameterVersion <;>
      simp [FHoudiniAssetInputOutlinerMesh.Serialize, not_le.mpr h, h2]
  · intro h
    simp [FHoudiniAssetInputOutlinerMesh.Serialize, h]
  · intro h
    by_cases h1 : V.VER_HOUDINI_PLUGIN_SERIALIZATION_VERSION_ADDED_UNREAL_SPLINE
        ≤ ArE.HoudiniAssetParameterVersion <;>
      simp [FHoudiniAssetInputOutlinerMesh.Serialize, not_le.mpr h, h1]
  · simp [Serialize, SuperSerialize, LoadFlagsPacked]
  · simp [Serialize, SuperSerialize, LoadFlagsPacked]
  · simp [Serialize, SuperSerialize, LoadFlagsPacked]
  · by_cases h1 : V.VER_HOUDINI_PLUGIN_SERIALIZATION_VERSION_ADDED_UNREAL_SPLINE
        ≤ ArE.HoudiniAssetParameterVersion <;>
      by_cases h2 : V.VER_HOUDINI_PLUGIN_SERIALIZATION_VERSION_ADDED_KEEP_TRANSFORM
          ≤ ArE.HoudiniAssetParameterVersion <;>
      cases IsTransacting <;>
      simp [FHoudiniAssetInputOutlinerMesh.Serialize, h1, h2]

end UHoudiniAssetInput

namespace UHoudiniAssetInput

/-- C17: after a load that is not a transaction the loaded flag is true, the
connected-in-engine flag is false and every entry loaded into the outliner
array has remote node id -1, whatever was archived; after a transaction load
that finds the same input-asset reference archived as was held before, the
loaded flag is true, the connected-in-engine flag has its value from before
the load, and the loaded entries have their archived ids. -/
theorem Serialize_connected_state (V : FHoudiniSerializationVersions)
    (OutlinerMeshDefault : FHoudiniAssetInputOutlinerMesh) (Ar : FHoudiniAssetInputArchive)
    (s : UHoudiniAssetInput) :
    (Ar.IsTransacting = false →
      (Serialize V OutlinerMeshDefault Ar s).state.bLoadedParameter = true ∧
      (Serialize V OutlinerMeshDefault Ar s).state.bInputAssetConnectedInHoudini = false ∧
      (V.VER_HOUDINI_ENGINE_PARAM_WORLD_OUTLINER_INPUT ≤ Ar.HoudiniAssetParameterVersion →
        (Serialize V OutlinerMeshDefault Ar s).state.InputOutlinerMeshArray.length
          = Ar.InputOutlinerMeshArray.length ∧
        ∀ E ∈ (Serialize V OutlinerMeshDefault Ar s).state.InputOutlinerMeshArray,
          E.AssetId = -1)) ∧
    (Ar.IsTransacting = true → Ar.InputAssetComponent = s.InputAssetComponent →
      (Serialize V OutlinerMeshDefault Ar s).state.bLoadedParameter = true ∧
      (Serialize V OutlinerMeshDefault Ar s).state.bInputAssetConnectedInHoudini
        = s.bInputAssetConnectedInHoudini ∧
      (V.VER_HOUDINI_ENGINE_PARAM_WORLD_OUTLINER_INPUT ≤ Ar.HoudiniAssetParameterVersion →
        (Serialize V OutlinerMeshDefault Ar s).state.InputOutlinerMeshArray.map
            (fun E => E.AssetId)
          = Ar.InputOutlinerMeshArray.map (fun A => A.AssetId))) := by
  refine ⟨fun hT => ⟨?_, ?_, fun hV => ⟨?_, ?_⟩⟩, fun hT hC => ⟨?_, ?_, fun hV => ?_⟩⟩
  · simp [Serialize]
  · simp [Serialize, hT]
  · simp [Serialize, SuperSerialize, hV]
  · intro E hE
    simp only [Serialize, SuperSerialize, hV, decide_True, if_true, ge_iff_le,
      List.mem_map] at hE
    obtain ⟨A, _, rfl⟩ := hE
    rw [FHoudiniAssetInputOutlinerMesh.Serialize_AssetId, hT]
    simp
  · simp [Serialize]
  · simp [Serialize, SuperSerialize, LoadFlagsPacked, hT, hC]
  · simp only [Serialize, SuperSerialize, hV, decide_True, if_true, ge_iff_le, List.map_map]
    apply List.map_congr_left
    intro A _
    simp only [Function.comp_apply]
    rw [FHoudiniAssetInputOutlinerMesh.Serialize_AssetId, hT]
    simp

end UHoudiniAssetInput

namespace UHoudiniAssetInput

/-- The purge of a tick keeps exactly the entries whose static-mesh component
is not in the pending list; an entry without such a component is dropped as
soon as the list holds a null component. -/
theorem TickPurge_eq_filter (Entries : List FHoudiniAssetInputOutlinerMesh)
    (Pending : List (Option Nat)) :
    TickPurge Entries Pending =
      Entries.filter (fun Element => !Pending.contains Element.StaticMeshComponent) := by
  induction Pending with
  | nil => simp [TickPurge]
  | cons k rest ih =>
    simp only [TickPurge, ih, List.filter_filter]
    congr 1
    funext Element
    simp only [List.contains_cons, Bool.not_or]

/-- Switching a newly constructed input to the World kind returns true and
leaves in `ConnectedAssetId` whatever the create-and-connect call wrote,
whether the call succeeded or not. -/
theorem ChangeInputType_world_result_discarded (H : Host) (R : CreateAndConnectReply) :
    (ChangeInputType H Constructed EHoudiniAssetInputType.WorldInput R).completion
      = Completion.returned true ∧
    (ChangeInputType H Constructed EHoudiniAssetInputType.WorldInput R).state.ConnectedAssetId
      = R.ConnectedAssetId ∧
    (ChangeInputType H Constructed EHoudiniAssetInputType.WorldInput R).failed = [] := by
  simp [ChangeInputType, SetUpInputType, DisconnectAndDestroyInputAsset, Constructed,
    StartWorldOutlinerTicking, MarkChanged, IsValidAssetId]

end UHoudiniAssetInput



namespace UHoudiniAssetInstance

/-- The name resolution of `InstantiateAsset` issues at most the one query for
the exported names. -/
theorem ResolveAssetName_calls (S : HapiSession) (Asset : Nat) (AssetName : Int) :
    (ResolveAssetName S Asset AssetName).1 = [] ∨
      (ResolveAssetName S Asset AssetName).1 = [HapiCall.GetAssetNames] := by
  unfold ResolveAssetName
  split
  · split
    · exact Or.inr rfl
    · exact Or.inr rfl
    · split <;> exact Or.inr rfl
  · exact Or.inl rfl

/-- C26: when the instantiate call of `InstantiateAsset` succeeds with a new
id and the poll loop ends on ready-with-fatal-errors or on a failed status
query, the call returns false with `AssetId` at the new id and
`AssetCookCount` at 0 and has issued no destroy call; the instance is valid
afterwards, every further `InstantiateAsset` returns false without a session
call or a change, and after `DeleteAsset` the instance is no longer valid.
While the poll loop has not ended the two fields hold these values
already. -/
theorem InstantiateAsset_failed_poll_keeps_id (S : HapiSession) (I : UHoudiniAssetInstance)
    (AssetName : Int) (flag : Option Bool) (Asset : Nat) (c0 : List HapiCall) (Name : Int)
    (AssetNameString : String) (AssetIdNew : Nat)
    (hAsset : I.HoudiniAsset = some Asset) (hInitialized : S.IsInitialized = true)
    (hFresh : I.IsValidAssetInstance = false)
    (hName : ResolveAssetName S Asset AssetName = (c0, some Name))
    (hString : S.ToStdString Name = some AssetNameString)
    (hInstantiate : S.InstantiateAsset AssetNameString = some AssetIdNew) :
    ((PollCookState S.Status).2 = PollEnd.unfinished →
      (InstantiateAsset S I AssetName flag).completion = Completion.polling ∧
      (InstantiateAsset S I AssetName flag).state.AssetId = (AssetIdNew : Int) ∧
      (InstantiateAsset S I AssetName flag).state.AssetCookCount = 0) ∧
    ((PollCookState S.Status).2 = PollEnd.fatalErrors ∨
        (PollCookState S.Status).2 = PollEnd.statusFailed →
      (InstantiateAsset S I AssetName flag).completion = Completion.returned false ∧
      (InstantiateAsset S I AssetName flag).state.AssetId = (AssetIdNew : Int) ∧
      (InstantiateAsset S I AssetName flag).state.AssetCookCount = 0 ∧
      (∀ id, HapiCall.DestroyAsset id ∉ (InstantiateAsset S I AssetName flag).calls) ∧
      (InstantiateAsset S I AssetName flag).state.IsValidAssetInstance = true ∧
      (∀ (S2 : HapiSession) (AssetName2 : Int) (flag2 : Option Bool),
        (InstantiateAsset S2 (InstantiateAsset S I AssetName flag).state AssetName2
          flag2).completion = Completion.returned false ∧
        (InstantiateAsset S2 (InstantiateAsset S I AssetName flag).state AssetName2
          flag2).calls = [] ∧
        (InstantiateAsset S2 (InstantiateAsset S I AssetName flag).state AssetName2
          flag2).state = (InstantiateAsset S I AssetName flag).state) ∧
      (∀ S3 : HapiSession,
        (DeleteAsset S3 (InstantiateAsset S I AssetName flag).state).state.IsValidAssetInstance
          = false)) := by
  have hc0 := ResolveAssetName_calls S Asset AssetName
  rw [hName] at hc0
  have hValid : IsValidAssetId (AssetIdNew : Int) = true := by
    simp only [IsValidAssetId, bne_iff_ne, ne_eq]
    omega
  constructor
  · intro hPoll
    simp [InstantiateAsset, hAsset, hInitialized, hFresh, hName, hString, hInstantiate, hPoll]
  · intro hPoll
    have hState : (InstantiateAsset S I AssetName flag).state =
        { I with AssetId := (AssetIdNew : Int), AssetCookCount := 0 } := by
      rcases hPoll with hPoll | hPoll <;>
        simp [InstantiateAsset, hAsset, hInitialized, hFresh, hName, hString, hInstantiate, hPoll]
    have hCalls : (InstantiateAsset S I AssetName flag).calls =
        c0 ++ [HapiCall.GetString Name] ++
          [HapiCall.InstantiateAsset AssetNameString (some AssetIdNew)] ++
          List.replicate (PollCookState S.Status).1 HapiCall.GetStatus := by
      rcases hPoll with hPoll | hPoll <;>
        simp [InstantiateAsset, hAsset, hInitialized, hFresh, hName, hString, hInstantiate, hPoll]
    have hCompletion : (InstantiateAsset S I AssetName flag).completion
        = Completion.returned false := by
      rcases hPoll with hPoll | hPoll <;>
        simp [InstantiateAsset, hAsset, hInitialized, hFresh, hName, hString, hInstantiate, hPoll]
    have hV : (InstantiateAsset S I AssetName flag).state.IsValidAssetInstance = true := by
      rw [hState]
      exact hValid
    refine ⟨hCompletion, by rw [hState], by rw [hState], ?_, hV, ?_, ?_⟩
    · intro id hid
      rw [hCalls] at hid
      simp only [List.mem_append, List.mem_singleton, List.mem_replicate] at hid
      rcases hid with ((hid | hid) | hid) | hid
      · rcases hc0 with h | h <;> (dsimp only at h; rw [h] at hid; simp at hid)
      · cases hid
      · cases hid
      · cases hid.2
    · intro S2 AssetName2 flag2
      have := InstantiateAsset_rejected S2 _ AssetName2 flag2 (Or.inr (Or.inr hV))
      exact ⟨this.1, this.2.2.1, this.2.2.2⟩
    · intro S3
      unfold DeleteAsset
      split <;> simp [IsValidAssetInstance, IsValidAssetId]

/-- Witness of C26: a new instance, instantiated in a session whose first
status answer is ready with fatal errors. -/
theorem InstantiateAsset_failed_poll_keeps_id_witness :
    (InstantiateAsset fatalSession freshInstance 0 none).completion
      = Completion.returned false ∧
    (InstantiateAsset fatalSession freshInstance 0 none).state.AssetId = 5 :=
  ⟨((InstantiateAsset_failed_poll_keeps_id fatalSession freshInstance 0 none 1
      [HapiCall.GetAssetNames] 10 "hda" 5 rfl rfl rfl (by decide) rfl rfl).2
      (Or.inl (by decide))).1,
    ((InstantiateAsset_failed_poll_keeps_id fatalSession freshInstance 0 none 1
      [HapiCall.GetAssetNames] 10 "hda" 5 rfl rfl rfl (by decide) rfl rfl).2
      (Or.inl (by decide))).2.1⟩

end UHoudiniAssetInstance

namespace UHoudiniAssetInstance

/-- C27: on a valid instance whose node reports a positive `parmCount`,
`HapiGetParmInfos` addresses element 0 of the array it has just emptied: the
range check stops the program before the parameter query is sent, whatever
the session would answer, and `GetParameterObjects` is stopped with it; so on
the session in which every call succeeds and the node has one parameter.
With `parmCount` not positive the function returns true with the empty
array. -/
theorem HapiGetParmInfos_addresses_empty_array :
    (∀ (S : HapiSession) (I : UHoudiniAssetInstance) (calls : List HapiCall)
        (NodeInfo : HAPI_NodeInfo),
      I.IsValidAssetInstance = true → HapiGetNodeInfo S I = (calls, some NodeInfo) →
      (NodeInfo.parmCount > 0 →
        (HapiGetParmInfos S I).result = none ∧ (HapiGetParmInfos S I).calls = calls ∧
        ∀ InParameterObjects, (GetParameterObjects S I InParameterObjects).result = none) ∧
      (NodeInfo.parmCount ≤ 0 →
        (HapiGetParmInfos S I).result = some (true, []))) ∧
    (HapiGetParmInfos (readySession 1) { freshInstance with AssetId := 5 }).result = none ∧
    (HapiGetParmInfos (readySession 1) { freshInstance with AssetId := 5 }).calls
      = [HapiCall.GetAssetInfo 5, HapiCall.GetNodeInfo 7] ∧
    (GetParameterObjects (readySession 1) { freshInstance with AssetId := 5 } []).result
      = none ∧
    (HapiGetParmInfos (readySession 0) { freshInstance with AssetId := 5 }).result
      = some (true, []) := by
  refine ⟨?_, by decide, by decide, by decide, by decide⟩
  intro S I calls NodeInfo hV hN
  constructor
  · intro hp
    have h1 : (HapiGetParmInfos S I) = ⟨calls, none⟩ := by
      simp [HapiGetParmInfos, hV, hN, hp, RangeCheck]
    refine ⟨by rw [h1], by rw [h1], ?_⟩
    intro InParameterObjects
    simp [GetParameterObjects, h1]
  · intro hp
    simp [HapiGetParmInfos, hV, hN, not_lt.mpr hp]

end UHoudiniAssetInstance

namespace UHoudiniAssetInput

/-- After `InvalidateNodeIds`, `DisconnectAndDestroyInputAsset` issues a
destroy call for each tracked geometry node id of a Geometry input, and no
call on an input of another kind. -/
theorem DisconnectAndDestroyInputAsset_after_invalidate (H : Host) (s : UHoudiniAssetInput) :
    (DisconnectAndDestroyInputAsset H (InvalidateNodeIds s)).calls =
      if s.ChoiceIndex = EHoudiniAssetInputType.GeometryInput then
        s.GeometryInputAssetIds.map (fun AssetNodeId => HapiCall.DestroyAsset AssetNodeId)
      else [] := by
  have hInv : ∀ E ∈ (s.InputOutlinerMeshArray.map (fun OutlinerInputMesh =>
      { OutlinerInputMesh with AssetId := -1 })), IsValidAssetId E.AssetId = false := by
    intro E hE
    simp only [List.mem_map] at hE
    obtain ⟨E0, _, rfl⟩ := hE
    simp [IsValidAssetId]
  have hD := fun c => DestroyOutlinerAssets_of_invalid c _ hInv
  unfold DisconnectAndDestroyInputAsset InvalidateNodeIds
  cases hK : s.ChoiceIndex <;> cases hC : s.HoudiniAssetComponent <;>
    simp [hK, hC, hD, IsValidAssetId]

/-- C29: a Geometry input that tracks geometry node 8 and is connected to node
9 is invalidated; the connected id and the entry ids are -1 afterwards but
node 8 is still tracked, and the `DisconnectAndDestroyInputAsset` that follows
issues a destroy call for it.  In general the call that follows issues one
destroy call per tracked geometry id on a Geometry input and no call on an
input of another kind. -/
theorem InvalidateNodeIds_keeps_geometry_ids :
    (InvalidateNodeIds uploadedGeometryInput).ConnectedAssetId = -1 ∧
    (InvalidateNodeIds uploadedGeometryInput).GeometryInputAssetIds = [8] ∧
    (DisconnectAndDestroyInputAsset demoHost (InvalidateNodeIds uploadedGeometryInput)).calls
      = [HapiCall.DestroyAsset 8] ∧
    (∀ (H : Host) (s : UHoudiniAssetInput),
      (InvalidateNodeIds s).ConnectedAssetId = -1 ∧
      (∀ E ∈ (InvalidateNodeIds s).InputOutlinerMeshArray, E.AssetId = -1) ∧
      (InvalidateNodeIds s).GeometryInputAssetIds = s.GeometryInputAssetIds ∧
      (DisconnectAndDestroyInputAsset H (InvalidateNodeIds s)).calls =
        if s.ChoiceIndex = EHoudiniAssetInputType.GeometryInput then
          s.GeometryInputAssetIds.map (fun AssetNodeId => HapiCall.DestroyAsset AssetNodeId)
        else []) := by
  refine ⟨by decide, by decide, by decide, fun H s => ⟨rfl, ?_, rfl,
    DisconnectAndDestroyInputAsset_after_invalidate H s⟩⟩
  intro E hE
  simp only [InvalidateNodeIds, List.mem_map] at hE
  obtain ⟨E0, _, rfl⟩ := hE
  rfl

end UHoudiniAssetInput

namespace UHoudiniAssetInput

/-- In the calls of the World clean-up every destroy call comes right after
the disconnect call that carries the destroyed id as its input index. -/
theorem DestroyOutlinerAssets_pairs (c : Int) (l : List FHoudiniAssetInputOutlinerMesh)
    (i : Nat) (id : Int) (h : (DestroyOutlinerAssets c l).2[i]? = some (HapiCall.DestroyAsset id)) :
    ∃ j, i = j + 1 ∧ (DestroyOutlinerAssets c l).2[j]? = some (HapiCall.DisconnectAsset c id) := by
  induction l generalizing i with
  | nil => simp [DestroyOutlinerAssets] at h
  | cons E rest ih =>
    simp only [DestroyOutlinerAssets] at h ⊢
    split
    · rename_i hv
      simp only [hv, if_true] at h
      match i, h with
      | 0, h => simp at h
      | 1, h =>
        simp only [List.getElem?_cons_succ, List.getElem?_cons_zero, Option.some.injEq,
          HapiCall.DestroyAsset.injEq] at h
        exact ⟨0, rfl, by simp [h]⟩
      | k + 2, h =>
        simp only [List.getElem?_cons_succ] at h
        obtain ⟨j, hj, hd⟩ := ih k h
        exact ⟨j + 2, by omega, by simpa using hd⟩
    · rename_i hv
      simp only [hv, Bool.false_eq_true, if_false] at h
      exact ih i h

/-- The calls of `DisconnectAndDestroyInputAsset` are, in this order, the
disconnect of the host input (if it is issued), the calls for the child
nodes, and the destroy call for the connected node (if it is issued).  The
calls for the child nodes are, on a World input, those of the entry loop, in
which every destroy call comes right after the disconnect call that carries
the destroyed id as its input index, on a Geometry input one destroy call per
tracked geometry node, and none on another input. -/
theorem DisconnectAndDestroyInputAsset_call_order (H : Host) (s : UHoudiniAssetInput) :
    ∃ first children last,
      (DisconnectAndDestroyInputAsset H s).calls = first ++ children ++ last ∧
      (first = [] ∨ ∃ Component, s.HoudiniAssetComponent = some Component ∧
        first = [HapiCall.DisconnectAsset (H.GetAssetId Component) s.InputIndex]) ∧
      (last = [] ∨ last = [HapiCall.DestroyAsset s.ConnectedAssetId]) ∧
      (s.ChoiceIndex = EHoudiniAssetInputType.WorldInput →
        children = (DestroyOutlinerAssets s.ConnectedAssetId s.InputOutlinerMeshArray).2 ∧
        ∀ i id, children[i]? = some (HapiCall.DestroyAsset id) →
          ∃ j, i = j + 1 ∧
            children[j]? = some (HapiCall.DisconnectAsset s.ConnectedAssetId id)) ∧
      (s.ChoiceIndex = EHoudiniAssetInputType.GeometryInput →
        children = s.GeometryInputAssetIds.map
          (fun AssetNodeId => HapiCall.DestroyAsset AssetNodeId)) ∧
      (s.ChoiceIndex ≠ EHoudiniAssetInputType.WorldInput →
        s.ChoiceIndex ≠ EHoudiniAssetInputType.GeometryInput → children = []) := by
  unfold DisconnectAndDestroyInputAsset
  by_cases hA : s.ChoiceIndex = EHoudiniAssetInputType.AssetInput
  · refine ⟨[], [], [], by simp [hA], Or.inl rfl, Or.inl rfl, ?_, ?_, fun _ _ => rfl⟩
    · intro h; rw [hA] at h; cases h
    · intro h; rw [hA] at h; cases h
  · simp only [hA, if_false]
    have hFirst : ∀ l : List HapiCall, l = (match s.HoudiniAssetComponent with
        | some Component =>
          if IsValidAssetId s.ConnectedAssetId && IsValidAssetId (H.GetAssetId Component) then
            [HapiCall.DisconnectAsset (H.GetAssetId Component) s.InputIndex]
          else []
        | none => ([] : List HapiCall)) →
        (l = [] ∨ ∃ Component, s.HoudiniAssetComponent = some Component ∧
          l = [HapiCall.DisconnectAsset (H.GetAssetId Component) s.InputIndex]) := by
      intro l hl
      cases hC : s.HoudiniAssetComponent with
      | none => simp [hl, hC]
      | some Component =>
        simp only [hC] at hl
        split at hl
        · exact Or.inr ⟨Component, rfl, hl⟩
        · exact Or.inl hl
    generalize hf : (match s.HoudiniAssetComponent with
        | some Component =>
          if IsValidAssetId s.ConnectedAssetId && IsValidAssetId (H.GetAssetId Component) then
            [HapiCall.DisconnectAsset (H.GetAssetId Component) s.InputIndex]
          else []
        | none => ([] : List HapiCall)) = first
    have hF := hFirst first hf.symm
    by_cases hW : s.ChoiceIndex = EHoudiniAssetInputType.WorldInput
    · simp only [hW, if_true]
      by_cases hV : IsValidAssetId s.ConnectedAssetId = true
      · refine ⟨first, (DestroyOutlinerAssets s.ConnectedAssetId s.InputOutlinerMeshArray).2,
          [HapiCall.DestroyAsset s.ConnectedAssetId], (by rw [← hf]; cases s.HoudiniAssetComponent <;> simp [hV]), hF, Or.inr rfl,
          fun _ => ⟨rfl, fun i id h => DestroyOutlinerAssets_pairs _ _ i id h⟩, ?_, ?_⟩
        · intro h; cases h
        · intro h; exact absurd rfl h
      · refine ⟨first, (DestroyOutlinerAssets s.ConnectedAssetId s.InputOutlinerMeshArray).2,
          [], (by rw [← hf]; cases s.HoudiniAssetComponent <;> simp [hV]), hF, Or.inl rfl,
          fun _ => ⟨rfl, fun i id h => DestroyOutlinerAssets_pairs _ _ i id h⟩, ?_, ?_⟩
        · intro h; cases h
        · intro h; exact absurd rfl h
    · simp only [hW, if_false]
      by_cases hG : s.ChoiceIndex = EHoudiniAssetInputType.GeometryInput
      · simp only [hG, if_true]
        by_cases hV : IsValidAssetId s.ConnectedAssetId = true
        · refine ⟨first, s.GeometryInputAssetIds.map (fun AssetNodeId =>
              HapiCall.DestroyAsset AssetNodeId),
            [HapiCall.DestroyAsset s.ConnectedAssetId], (by rw [← hf]; cases s.HoudiniAssetComponent <;> simp [hV]), hF, Or.inr rfl,
            ?_, fun _ => rfl, ?_⟩
          · intro h; cases h
          · intro _ h; exact absurd rfl h
        · refine ⟨first, s.GeometryInputAssetIds.map (fun AssetNodeId =>
              HapiCall.DestroyAsset AssetNodeId),
            [], (by rw [← hf]; cases s.HoudiniAssetComponent <;> simp [hV]), hF, Or.inl rfl, ?_, fun _ => rfl, ?_⟩
          · intro h; cases h
          · intro _ h; exact absurd rfl h
      · simp only [hG, if_false]
        by_cases hV : IsValidAssetId s.ConnectedAssetId = true
        · exact ⟨first, [], [HapiCall.DestroyAsset s.ConnectedAssetId], (by rw [← hf]; cases s.HoudiniAssetComponent <;> simp [hV]), hF,
            Or.inr rfl, fun h => h.elim, fun h => h.elim, fun _ _ => rfl⟩
        · exact ⟨first, [], [], (by rw [← hf]; cases s.HoudiniAssetComponent <;> simp [hV]), hF, Or.inl rfl, fun h => h.elim,
            fun h => h.elim, fun _ _ => rfl⟩

end UHoudiniAssetInput

namespace UHoudiniAssetInput

/-- Every disconnect call of the World clean-up names the connected node as
the asset and the node id of an entry as the input index. -/
theorem DestroyOutlinerAssets_disconnect_index (c : Int)
    (l : List FHoudiniAssetInputOutlinerMesh) (HostAssetId InputIndex : Int)
    (h : HapiCall.DisconnectAsset HostAssetId InputIndex ∈ (DestroyOutlinerAssets c l).2) :
    HostAssetId = c ∧ ∃ E ∈ l, IsValidAssetId E.AssetId = true ∧ InputIndex = E.AssetId := by
  induction l with
  | nil => simp [DestroyOutlinerAssets] at h
  | cons E rest ih =>
    simp only [DestroyOutlinerAssets] at h
    split at h
    · rename_i hv
      simp only [List.mem_cons, HapiCall.DisconnectAsset.injEq, reduceCtorEq, false_or] at h
      rcases h with ⟨h1, h2⟩ | h
      · exact ⟨h1, E, List.mem_cons_self _ _, hv, h2⟩
      · obtain ⟨h1, E0, hE0, hv0, h2⟩ := ih h
        exact ⟨h1, E0, List.mem_cons_of_mem _ hE0, hv0, h2⟩
    · obtain ⟨h1, E0, hE0, hv0, h2⟩ := ih h
      exact ⟨h1, E0, List.mem_cons_of_mem _ hE0, hv0, h2⟩

/-- C23, the code at the failing input.  A World input on input 0 of host
asset 100 is connected to node 9 and tracks one entry, whose node is 7.
`DisconnectAndDestroyInputAsset` disconnects input 0 of the host, then issues
the entry's disconnect call on node 9 with the entry's node id 7 in the place
of the input index, destroys node 7 and destroys node 9.  The entry is the
first of the array, which `UpdateObjectMergeTransformType` addresses as input
0 of the connected node; no call disconnects input 0 of node 9, so node 7 is
destroyed while it is connected.  For every list of entries, an input of the
connected node whose index is not the node id of an entry is not disconnected
by the entry loop. -/
theorem DisconnectAndDestroyInputAsset_entry_stays_connected :
    (DisconnectAndDestroyInputAsset demoHost
      (trackingInput [{ FHoudiniAssetInputOutlinerMesh.demoEntry with AssetId := 7 }])).calls =
      [HapiCall.DisconnectAsset 100 0, HapiCall.DisconnectAsset 9 7, HapiCall.DestroyAsset 7,
        HapiCall.DestroyAsset 9] ∧
    HapiCall.QueryNodeInput 3 0 ∈
      (UpdateObjectMergeTransformType demoHost
        (trackingInput [{ FHoudiniAssetInputOutlinerMesh.demoEntry with AssetId := 7 }])
        okReplies.TransformType).2.1 ∧
    HapiCall.DisconnectAsset 9 0 ∉
      (DisconnectAndDestroyInputAsset demoHost
        (trackingInput [{ FHoudiniAssetInputOutlinerMesh.demoEntry with AssetId := 7 }])).calls ∧
    (∀ (c : Int) (l : List FHoudiniAssetInputOutlinerMesh) (n : Nat),
      (∀ E ∈ l, E.AssetId ≠ (n : Int)) →
      HapiCall.DisconnectAsset c n ∉ (DestroyOutlinerAssets c l).2) := by
  refine ⟨by decide, by decide, by decide, ?_⟩
  intro c l n hne hmem
  obtain ⟨_, E, hE, _, h2⟩ := DestroyOutlinerAssets_disconnect_index _ _ _ _ hmem
  exact hne E hE h2.symm

end UHoudiniAssetInput

namespace UHoudiniAssetInput

/-- C24: on a World input that is not connected (`ConnectedAssetId` is -1)
while its entry still holds node 7, `DisconnectAndDestroyInputAsset` issues
the entry's disconnect call with -1 as the asset to disconnect from; and on a
Geometry input whose tracked geometry ids hold -1 it issues a destroy call
for -1. -/
theorem DisconnectAndDestroyInputAsset_passes_invalid_id :
    (DisconnectAndDestroyInputAsset demoHost
      { trackingInput [{ FHoudiniAssetInputOutlinerMesh.demoEntry with AssetId := 7 }] with
          ConnectedAssetId := -1 }).calls =
      [HapiCall.DisconnectAsset (-1) 7, HapiCall.DestroyAsset 7] ∧
    (DisconnectAndDestroyInputAsset demoHost
      { uploadedGeometryInput with GeometryInputAssetIds := [-1, 8] }).calls =
      [HapiCall.DisconnectAsset 100 0, HapiCall.DestroyAsset (-1), HapiCall.DestroyAsset 8,
        HapiCall.DestroyAsset 9] := by
  decide

end UHoudiniAssetInput

namespace UHoudiniAssetInput

/-- `DisconnectAndDestroyInputAsset` does not touch the monitor timer. -/
theorem DisconnectAndDestroyInputAsset_timer (H : Host) (s : UHoudiniAssetInput) :
    (DisconnectAndDestroyInputAsset H s).state.WorldOutlinerTimerBound
      = s.WorldOutlinerTimerBound := by
  unfold DisconnectAndDestroyInputAsset
  split
  · simp
  · dsimp only
    split <;> split <;> (try split) <;> simp

/-- The set-up of a kind other than World does not touch the monitor timer. -/
theorem SetUpInputType_timer (H : Host) (s : UHoudiniAssetInput)
    (newType : EHoudiniAssetInputType) (R : CreateAndConnectReply) (calls : List HapiCall)
    (notes : List HostNote) (h : newType ≠ EHoudiniAssetInputType.WorldInput) :
    (SetUpInputType H s newType R calls notes).state.WorldOutlinerTimerBound
      = s.WorldOutlinerTimerBound := by
  cases newType
  · simp only [SetUpInputType, MarkChanged]
    split <;> rfl
  · simp only [SetUpInputType, MarkChanged, ConnectInputAssetActor]
    repeat' split
    all_goals rfl
  · simp only [SetUpInputType, MarkChanged]
    split <;> rfl
  · simp only [SetUpInputType, MarkChanged]
  · exact absurd rfl h

/-- Switching a World input that tracks entries to another kind leaves the
monitor timer as it was. -/
theorem ChangeInputType_timer_of_tracking (H : Host) (s : UHoudiniAssetInput)
    (newType : EHoudiniAssetInputType) (R : CreateAndConnectReply)
    (hKind : s.ChoiceIndex = EHoudiniAssetInputType.WorldInput)
    (hTracking : s.InputOutlinerMeshArray ≠ [])
    (hNew : newType ≠ EHoudiniAssetInputType.WorldInput) :
    (ChangeInputType H s newType R).state.WorldOutlinerTimerBound
      = s.WorldOutlinerTimerBound := by
  have hStop : StopWorldOutlinerTicking H s = (s, []) := by
    unfold StopWorldOutlinerTicking
    have : ¬ s.InputOutlinerMeshArray.length ≤ 0 := by
      intro h
      exact hTracking (List.length_eq_zero.mp (Nat.le_zero.mp h))
    simp [this]
  unfold ChangeInputType
  simp only [hKind, hStop]
  rw [SetUpInputType_timer _ _ _ _ _ _ hNew]
  exact DisconnectAndDestroyInputAsset_timer H s

/-- C22: a World input tracks one entry while its monitor timer is bound.
`ChangeInputType` to the Geometry kind returns true with the kind tag
Geometry, the entry still in the array, and the timer still bound.  When the
array is empty (and there is an editor) the timer is not bound afterwards.
In general, switching a World input that tracks at least one entry to another
kind leaves the timer bound if it was. -/
theorem ChangeInputType_leaves_timer_bound :
    (ChangeInputType demoHost (trackingInput [FHoudiniAssetInputOutlinerMesh.demoEntry])
      EHoudiniAssetInputType.GeometryInput okReplies.CreateAndConnect).completion
      = Completion.returned true ∧
    (ChangeInputType demoHost (trackingInput [FHoudiniAssetInputOutlinerMesh.demoEntry])
      EHoudiniAssetInputType.GeometryInput okReplies.CreateAndConnect).state.ChoiceIndex
      = EHoudiniAssetInputType.GeometryInput ∧
    (ChangeInputType demoHost (trackingInput [FHoudiniAssetInputOutlinerMesh.demoEntry])
      EHoudiniAssetInputType.GeometryInput
      okReplies.CreateAndConnect).state.InputOutlinerMeshArray.length = 1 ∧
    (ChangeInputType demoHost (trackingInput [FHoudiniAssetInputOutlinerMesh.demoEntry])
      EHoudiniAssetInputType.GeometryInput
      okReplies.CreateAndConnect).state.WorldOutlinerTimerBound = true ∧
    (ChangeInputType demoHost (trackingInput [])
      EHoudiniAssetInputType.GeometryInput
      okReplies.CreateAndConnect).state.WorldOutlinerTimerBound = false ∧
    (∀ (H : Host) (s : UHoudiniAssetInput) (newType : EHoudiniAssetInputType)
        (R : CreateAndConnectReply),
      s.ChoiceIndex = EHoudiniAssetInputType.WorldInput → s.InputOutlinerMeshArray ≠ [] →
      newType ≠ EHoudiniAssetInputType.WorldInput → s.WorldOutlinerTimerBound = true →
      (ChangeInputType H s newType R).state.WorldOutlinerTimerBound = true) := by
  refine ⟨by decide, by decide, by decide, by decide, by decide, ?_⟩
  intro H s newType R hKind hTracking hNew hBound
  rw [ChangeInputType_timer_of_tracking H s newType R hKind hTracking hNew]
  exact hBound

end UHoudiniAssetInput

namespace UHoudiniAssetInput

/-- The loop body of the tick stops the loop on an entry without actor. -/
theorem TickEntry_null_actor (H : Host) (Settings : FSplineSettings) (s : UHoudiniAssetInput)
    (E : FHoudiniAssetInputOutlinerMesh) (acc : FTickScan) (h : E.Actor = none) :
    (TickEntry H Settings s E acc).running = false := by
  simp [TickEntry, h]

/-- The loop of the tick does not run to its end over an array that holds an
entry without actor. -/
theorem TickScan_null_actor (H : Host) (Settings : FSplineSettings) (s : UHoudiniAssetInput)
    (l : List FHoudiniAssetInputOutlinerMesh) (acc : FTickScan)
    (h : ∃ E ∈ l, E.Actor = none) : (TickScan H Settings s l acc).running = false := by
  induction l generalizing acc with
  | nil => simp at h
  | cons E0 rest ih =>
    simp only [TickScan]
    by_cases hr : (TickEntry H Settings s E0 acc).running = true
    · simp only [hr, if_true]
      apply ih
      obtain ⟨E, hE, hA⟩ := h
      simp only [List.mem_cons] at hE
      rcases hE with hE | hE
      · subst hE
        rw [TickEntry_null_actor H Settings s E acc hA] at hr
        cases hr
      · exact ⟨E, hE, hA⟩
    · simp only [hr, Bool.false_eq_true, if_false]

/-- C25: on every tracked array that holds an entry whose actor reference is
null, `TickWorldOutlinerInputs` does not return: the loop dereferences the
actor of each entry it visits without a check, and the null reference stops
the program; so on the array of one such entry. -/
theorem TickWorldOutlinerInputs_null_actor :
    (∀ (H : Host) (Settings : FSplineSettings) (s : UHoudiniAssetInput),
      (∃ E ∈ s.InputOutlinerMeshArray, E.Actor = none) →
      (TickWorldOutlinerInputs H Settings s).completion = Completion.aborted) ∧
    (TickWorldOutlinerInputs demoHost demoSettings
      (trackingInput [{ FHoudiniAssetInputOutlinerMesh.demoEntry with Actor := none }])).completion
      = Completion.aborted := by
  have key : ∀ (H : Host) (Settings : FSplineSettings) (s : UHoudiniAssetInput),
      (∃ E ∈ s.InputOutlinerMeshArray, E.Actor = none) →
      (TickWorldOutlinerInputs H Settings s).completion = Completion.aborted := by
    intro H Settings s h
    have := TickScan_null_actor H Settings s s.InputOutlinerMeshArray
      ⟨[], false, s.bStaticMeshChanged, [], [], [], true⟩ h
    simp [TickWorldOutlinerInputs, this]
  exact ⟨key, key _ _ _ ⟨_, List.mem_singleton.mpr rfl, rfl⟩⟩

end UHoudiniAssetInput

namespace UHoudiniAssetInput

/-- Marking the tick as changed touches only the changed flag of the loop and
the notifications. -/
theorem TickMarkLocalChanged_frame (acc : FTickScan) :
    (TickMarkLocalChanged acc).Entries = acc.Entries ∧
    (TickMarkLocalChanged acc).calls = acc.calls ∧
    (TickMarkLocalChanged acc).bStaticMeshChanged = acc.bStaticMeshChanged ∧
    (TickMarkLocalChanged acc).InputOutlinerMeshArrayPendingKill
      = acc.InputOutlinerMeshArrayPendingKill ∧
    (TickMarkLocalChanged acc).running = acc.running ∧
    (TickMarkLocalChanged acc).bLocalChanged = true := by
  unfold TickMarkLocalChanged
  cases h : acc.bLocalChanged <;> simp [h]

/-- The loop body of the tick on an entry whose actor is not pending
deletion.  If the actor transform has changed and the entry has a
remote node (its id is not negative), the one call added is the
set-transform call for that node, the entry is stored with its cached
transforms refreshed, and the mesh-changed flag is as before.  Otherwise, if
the component transform or the spline has changed or the entry's
keep-world-transform snapshot differs from the input's, no call is added, the
entry is stored refreshed and the mesh-changed flag is set.  Otherwise
nothing but the unchanged entry is stored.  A refreshed entry holds the
actor's transform and the input's keep-world-transform state. -/
theorem TickEntry_live_actor (H : Host) (Settings : FSplineSettings) (s : UHoudiniAssetInput)
    (E : FHoudiniAssetInputOutlinerMesh) (acc : FTickScan) (Actor : Nat)
    (hActor : E.Actor = some Actor) (hLive : (H.Actors Actor).PendingKill = false) :
    (E.HasActorTransformChanged H = true ∧ 0 ≤ E.AssetId →
      (TickEntry H Settings s E acc).calls = acc.calls ++ [HapiCall.SetAssetTransform E.AssetId] ∧
      (TickEntry H Settings s E acc).Entries
        = acc.Entries ++ [UpdateWorldOutlinerTransformsOf H s E Actor] ∧
      (TickEntry H Settings s E acc).bStaticMeshChanged = acc.bStaticMeshChanged ∧
      (TickEntry H Settings s E acc).bLocalChanged = true) ∧
    (¬ (E.HasActorTransformChanged H = true ∧ 0 ≤ E.AssetId) →
      (E.HasComponentTransformChanged H = true ∨
        E.HasSplineComponentChanged H Settings s.UnrealSplineResolution = true ∨
        E.KeepWorldTransform ≠ s.bKeepWorldTransform) →
      (TickEntry H Settings s E acc).calls = acc.calls ∧
      (TickEntry H Settings s E acc).Entries
        = acc.Entries ++ [UpdateWorldOutlinerTransformsOf H s E Actor] ∧
      (TickEntry H Settings s E acc).bStaticMeshChanged = true ∧
      (TickEntry H Settings s E acc).bLocalChanged = true) ∧
    (¬ (E.HasActorTransformChanged H = true ∧ 0 ≤ E.AssetId) →
      ¬ (E.HasComponentTransformChanged H = true ∨
        E.HasSplineComponentChanged H Settings s.UnrealSplineResolution = true ∨
        E.KeepWorldTransform ≠ s.bKeepWorldTransform) →
      TickEntry H Settings s E acc = { acc with Entries := acc.Entries ++ [E] }) ∧
    (UpdateWorldOutlinerTransformsOf H s E Actor).ActorTransform = (H.Actors Actor).Transform ∧
    (UpdateWorldOutlinerTransformsOf H s E Actor).KeepWorldTransform = s.bKeepWorldTransform ∧
    (UpdateWorldOutlinerTransformsOf H s E Actor).AssetId = E.AssetId ∧
    (TickEntry H Settings s E acc).running = acc.running ∧
    (TickEntry H Settings s E acc).InputOutlinerMeshArrayPendingKill
      = acc.InputOutlinerMeshArrayPendingKill := by
  obtain ⟨m1, m2, m3, m4, m5, m6⟩ := TickMarkLocalChanged_frame acc
  have hId : (UpdateWorldOutlinerTransformsOf H s E Actor).AssetId = E.AssetId := by
    unfold UpdateWorldOutlinerTransformsOf
    cases E.StaticMeshComponent <;> cases E.SplineComponent <;> rfl
  have hAT : (UpdateWorldOutlinerTransformsOf H s E Actor).ActorTransform
      = (H.Actors Actor).Transform := by
    unfold UpdateWorldOutlinerTransformsOf
    cases E.StaticMeshComponent <;> cases E.SplineComponent <;> rfl
  have hKeep : (UpdateWorldOutlinerTransformsOf H s E Actor).KeepWorldTransform
      = s.bKeepWorldTransform := by
    unfold UpdateWorldOutlinerTransformsOf
    cases E.StaticMeshComponent <;> cases E.SplineComponent <;> rfl
  by_cases h1 : E.HasActorTransformChanged H = true ∧ 0 ≤ E.AssetId
  · have hT : TickEntry H Settings s E acc =
        { TickMarkLocalChanged acc with
            Entries := (TickMarkLocalChanged acc).Entries
              ++ [UpdateWorldOutlinerTransformsOf H s E Actor],
            calls := (TickMarkLocalChanged acc).calls
              ++ [HapiCall.SetAssetTransform (UpdateWorldOutlinerTransformsOf H s E Actor).AssetId] } := by
      simp [TickEntry, hActor, hLive, h1.1, h1.2, UpdateWorldOutlinerTransforms]
    rw [hT]
    refine ⟨fun _ => ⟨?_, ?_, m3, m6⟩, fun h => absurd h1 h, fun h => absurd h1 h, hAT, hKeep,
      hId, m5, m4⟩
    · simp [m2, hId]
    · simp [m1]
  · have h1' : (E.HasActorTransformChanged H && decide (E.AssetId ≥ 0)) = false := by
      rw [Bool.eq_false_iff]
      intro h
      simp only [Bool.and_eq_true, decide_eq_true_eq, ge_iff_le] at h
      exact h1 h
    by_cases h2 : E.HasComponentTransformChanged H = true ∨
        E.HasSplineComponentChanged H Settings s.UnrealSplineResolution = true ∨
        E.KeepWorldTransform ≠ s.bKeepWorldTransform
    · have h2' : (E.HasComponentTransformChanged H
          || E.HasSplineComponentChanged H Settings s.UnrealSplineResolution
          || E.KeepWorldTransform != s.bKeepWorldTransform) = true := by
        simp only [Bool.or_eq_true, bne_iff_ne, ne_eq]
        rcases h2 with h | h | h
        · exact Or.inl (Or.inl h)
        · exact Or.inl (Or.inr h)
        · exact Or.inr h
      have hT : TickEntry H Settings s E acc =
          { TickMarkLocalChanged acc with
              Entries := (TickMarkLocalChanged acc).Entries
                ++ [UpdateWorldOutlinerTransformsOf H s E Actor],
              bStaticMeshChanged := true } := by
        simp only [TickEntry, hActor, hLive, h1', h2', UpdateWorldOutlinerTransforms]
        simp
      rw [hT]
      refine ⟨fun h => absurd h h1, fun _ _ => ⟨m2, ?_, rfl, m6⟩, fun _ h => absurd h2 h, hAT,
        hKeep, hId, m5, m4⟩
      simp [m1]
    · have h2' : (E.HasComponentTransformChanged H
          || E.HasSplineComponentChanged H Settings s.UnrealSplineResolution
          || E.KeepWorldTransform != s.bKeepWorldTransform) = false := by
        rw [Bool.eq_false_iff]
        intro h
        apply h2
        simp only [Bool.or_eq_true, bne_iff_ne, ne_eq] at h
        rcases h with (h | h) | h
        · exact Or.inl h
        · exact Or.inr (Or.inl h)
        · exact Or.inr (Or.inr h)
      have hT : TickEntry H Settings s E acc = { acc with Entries := acc.Entries ++ [E] } := by
        simp only [TickEntry, hActor, hLive, h1', h2']
        simp
      rw [hT]
      exact ⟨fun h => absurd h h1, fun _ h => absurd h h2, fun _ _ => rfl, hAT, hKeep, hId,
        rfl, rfl⟩

/-- The loop body at an entry of actor 0 that holds node 7 while the actor
has moved by one unit: it adds the set-transform call for node 7. -/
theorem TickEntry_live_actor_witness :
    (TickEntry
      (FHoudiniAssetInputOutlinerMesh.hostWithActorAt ⟨⟨0, 0, 0, 1⟩, ⟨1, 0, 0⟩, ⟨1, 1, 1⟩⟩)
      demoSettings (trackingInput [])
      { FHoudiniAssetInputOutlinerMesh.demoEntry with AssetId := 7 }
      ⟨[], false, false, [], [], [], true⟩).calls = [HapiCall.SetAssetTransform 7] :=
  ((TickEntry_live_actor
    (FHoudiniAssetInputOutlinerMesh.hostWithActorAt ⟨⟨0, 0, 0, 1⟩, ⟨1, 0, 0⟩, ⟨1, 1, 1⟩⟩)
    demoSettings (trackingInput [])
    { FHoudiniAssetInputOutlinerMesh.demoEntry with AssetId := 7 }
    ⟨[], false, false, [], [], [], true⟩ 0 rfl rfl).1
    ⟨by
      simp [FHoudiniAssetInputOutlinerMesh.HasActorTransformChanged,
        FHoudiniAssetInputOutlinerMesh.hostWithActorAt,
        FHoudiniAssetInputOutlinerMesh.demoEntry, FTransform.Equals, FVector.Equals,
        FQuat.Equals, FTransform.Identity, KINDA_SMALL_NUMBER]
      norm_num [abs_le], by decide⟩).1

end UHoudiniAssetInput

namespace UHoudiniAssetInput

/-- C28: a World input tracks one spline entry cached at length 0 while the
live spline has length 10.  The first tick reacts: it sets the mesh-changed
flag and raises the change notifications, but leaves the cached length at 0.
The second tick over the unchanged scene finds the same difference and raises
the same notifications again.  In general the refresh of an entry by the tick
leaves the cached spline length, point count, point transforms and resolution
as they were. -/
theorem TickWorldOutlinerInputs_spline_refires :
    (TickWorldOutlinerInputs (hostWithSpline longSpline) demoSettings
      (trackingInput [splineEntry])).notes
      = [HostNote.Modify, HostNote.MarkPreChanged, HostNote.MarkChanged] ∧
    (TickWorldOutlinerInputs (hostWithSpline longSpline) demoSettings
      (trackingInput [splineEntry])).state.bStaticMeshChanged = true ∧
    (TickWorldOutlinerInputs (hostWithSpline longSpline) demoSettings
      (trackingInput [splineEntry])).state.InputOutlinerMeshArray.map
        (fun E => E.SplineLength) = [0] ∧
    (TickWorldOutlinerInputs (hostWithSpline longSpline) demoSettings
      (TickWorldOutlinerInputs (hostWithSpline longSpline) demoSettings
        (trackingInput [splineEntry])).state).notes
      = [HostNote.Modify, HostNote.MarkPreChanged, HostNote.MarkChanged] ∧
    (∀ (H : Host) (s : UHoudiniAssetInput) (E : FHoudiniAssetInputOutlinerMesh) (Actor : Nat),
      (UpdateWorldOutlinerTransformsOf H s E Actor).SplineLength = E.SplineLength ∧
      (UpdateWorldOutlinerTransformsOf H s E Actor).NumberOfSplineControlPoints
        = E.NumberOfSplineControlPoints ∧
      (UpdateWorldOutlinerTransformsOf H s E Actor).SplineControlPointsTransform
        = E.SplineControlPointsTransform ∧
      (UpdateWorldOutlinerTransformsOf H s E Actor).SplineResolution = E.SplineResolution) := by
  refine ⟨?_, ?_, ?_, ?_, ?_⟩
  · simp [TickWorldOutlinerInputs, TickScan, TickEntry, TickMarkLocalChanged, TickPurge,
      trackingInput, hostWithSpline, longSpline, onePointSpline, splineEntry, demoSettings,
      Constructed, IsValidAssetId, MarkChanged, UpdateWorldOutlinerTransforms,
      UpdateWorldOutlinerTransformsOf,
      FHoudiniAssetInputOutlinerMesh.HasActorTransformChanged,
      FHoudiniAssetInputOutlinerMesh.HasComponentTransformChanged,
      FHoudiniAssetInputOutlinerMesh.HasSplineComponentChanged,
      FTransform.Equals, FVector.Equals, FQuat.Equals, FTransform.Identity, KINDA_SMALL_NUMBER]
  · simp [TickWorldOutlinerInputs, TickScan, TickEntry, TickMarkLocalChanged, TickPurge,
      trackingInput, hostWithSpline, longSpline, onePointSpline, splineEntry, demoSettings,
      Constructed, IsValidAssetId, MarkChanged, UpdateWorldOutlinerTransforms,
      UpdateWorldOutlinerTransformsOf,
      FHoudiniAssetInputOutlinerMesh.HasActorTransformChanged,
      FHoudiniAssetInputOutlinerMesh.HasComponentTransformChanged,
      FHoudiniAssetInputOutlinerMesh.HasSplineComponentChanged,
      FTransform.Equals, FVector.Equals, FQuat.Equals, FTransform.Identity, KINDA_SMALL_NUMBER]
  · simp [TickWorldOutlinerInputs, TickScan, TickEntry, TickMarkLocalChanged, TickPurge,
      trackingInput, hostWithSpline, longSpline, onePointSpline, splineEntry, demoSettings,
      Constructed, IsValidAssetId, MarkChanged, UpdateWorldOutlinerTransforms,
      UpdateWorldOutlinerTransformsOf,
      FHoudiniAssetInputOutlinerMesh.HasActorTransformChanged,
      FHoudiniAssetInputOutlinerMesh.HasComponentTransformChanged,
      FHoudiniAssetInputOutlinerMesh.HasSplineComponentChanged,
      FTransform.Equals, FVector.Equals, FQuat.Equals, FTransform.Identity, KINDA_SMALL_NUMBER]
  · simp [TickWorldOutlinerInputs, TickScan, TickEntry, TickMarkLocalChanged, TickPurge,
      trackingInput, hostWithSpline, longSpline, onePointSpline, splineEntry, demoSettings,
      Constructed, IsValidAssetId, MarkChanged, UpdateWorldOutlinerTransforms,
      UpdateWorldOutlinerTransformsOf,
      FHoudiniAssetInputOutlinerMesh.HasActorTransformChanged,
      FHoudiniAssetInputOutlinerMesh.HasComponentTransformChanged,
      FHoudiniAssetInputOutlinerMesh.HasSplineComponentChanged,
      FTransform.Equals, FVector.Equals, FQuat.Equals, FTransform.Identity, KINDA_SMALL_NUMBER]
  · intro H s E Actor
    unfold UpdateWorldOutlinerTransformsOf
    cases E.StaticMeshComponent <;> cases E.SplineComponent <;> exact ⟨rfl, rfl, rfl, rfl⟩

end UHoudiniAssetInput

namespace FHoudiniAssetInputOutlinerMesh

/-- C30: an entry of a one-point spline is unchanged since it was cached
(length 0, one point, resolution 50) but its cached transform array is empty;
the component is turned by half a turn.  `RebuildSplineTransformsArrayIfNeeded`
caches the local transform of the point, `HasSplineComponentChanged` compares
its rotation with the point's world rotation and returns true.  With a
component that is not turned it returns false. -/
theorem RebuildSplineTransformsArrayIfNeeded_turned_component :
    (RebuildSplineTransformsArrayIfNeeded (hostWithSpline turnedSpline)
      { splineEntry with SplineControlPointsTransform := [] }).SplineControlPointsTransform
      = [FTransform.Identity] ∧
    HasSplineComponentChanged (hostWithSpline turnedSpline) demoSettings
      (RebuildSplineTransformsArrayIfNeeded (hostWithSpline turnedSpline)
        { splineEntry with SplineControlPointsTransform := [] }) 50 = true ∧
    HasSplineComponentChanged (hostWithSpline (onePointSpline ⟨0, 0, 0⟩)) demoSettings
      (RebuildSplineTransformsArrayIfNeeded (hostWithSpline (onePointSpline ⟨0, 0, 0⟩))
        { splineEntry with SplineControlPointsTransform := [] }) 50 = false := by
  refine ⟨?_, ?_, ?_⟩
  all_goals simp [RebuildSplineTransformsArrayIfNeeded, HasSplineComponentChanged,
    EffectiveSplineResolution, AnySplinePointChanged, SplinePointChanged, hostWithSpline,
    turnedSpline, onePointSpline, splineEntry, demoSettings, FVector.Equals, FQuat.Equals,
    FTransform.Identity, KINDA_SMALL_NUMBER, List.range_succ]
  all_goals norm_num [abs_le]

end FHoudiniAssetInputOutlinerMesh

end Houdini
